import Mathlib

/-! VulkanRenderingTemplate: registry, draw submission, buffer and frame loop

A shallow embedding of the parts of the renderer that its specification makes
claims about:

* `GraphicsPipeline` (src/src/GraphicsPipeline.cpp): the three name-keyed
  registries, their getters, `recreate` and `createPipelines`;
* `RenderObject::getSortKey` (src/include/vks/Application.hpp) and
  `BasicCommandBuffers::recordCommands` (src/src/Basic/BasicCommandBuffers.cpp);
* `Buffer` (src/src/Buffer.cpp): the constructor, `findMemoryType`, `map`, `unmap`,
  `writeToBuffer`;
* the constructor of `Material` (src/include/vks/Material.hpp);
* `geometry::createSphere` (src/src/Geometry.cpp) and `Model::createSphere`
  (src/src/Model.cpp);
* `Application::loadAssets`, `Application::buildScene`, `Application::updateUBOs`,
  `Application::drawFrame` and `Application::recreateSwapChain`
  (src/src/Application.cpp).

`std::sort` is used through what the C++ standard guarantees of its output
(`IsStdSortResult`); the algorithm of libstdc++ is written out as well, to show an
output on equal keys.

Conventions. Vulkan handles, host addresses and `VkDeviceSize` values are
natural numbers below `2 ^ 64`, with `% 2 ^ 64` written where the source
computes on `uint64_t`; `VK_NULL_HANDLE` and `nullptr` are `0`. A C++ exception
is an `Error.runtime_error`, a failed `assert` is an `Error.assertion` (the
asserts are taken as compiled in). Results that the Vulkan driver or the window
system decide are inputs of the embedded functions.
-/

namespace vks

/-! ## Basic values -/

/-- The null handle of every Vulkan handle type, also used for `nullptr`. -/
def VK_NULL_HANDLE : Nat := 0

/-- The value `~0ULL` that stands for "the whole size" in `VkDeviceSize` arguments. -/
def VK_WHOLE_SIZE : Nat := 2 ^ 64 - 1

/-- The two ways an operation of the program stops abnormally. -/
inductive Error where
  | runtime_error (what : String)
  | assertion (message : String)
  deriving DecidableEq, Repr

/-- The contents of a `glm::mat4`, carried around uninterpreted. -/
abbrev Mat4 := List Nat

/-! ## `std::map<std::string, V>` -/

/-- A `std::map` keyed by strings, kept as an association list. -/
abbrev StdMap (V : Type) := List (String × V)

namespace StdMap

/-- The keys of the map. -/
def keys {V : Type} (m : StdMap V) : List String := m.map Prod.fst

/-- The result of `std::map::at`: `none` stands for `std::out_of_range`. -/
def at? {V : Type} (m : StdMap V) (name : String) : Option V := List.lookup name m

/-- The effect of `m[name] = v`: overwrite the entry of `name`, or add one. -/
def assign {V : Type} : StdMap V → String → V → StdMap V
  | [], name, v => [(name, v)]
  | (k, w) :: rest, name, v =>
      if k = name then (k, v) :: rest else (k, w) :: assign rest name v

/-- The effect of `std::map::clear`. -/
def clear {V : Type} (_m : StdMap V) : StdMap V := []

end StdMap

/-! ## The pipeline registry (GraphicsPipeline.cpp) -/

/-- The registries of `GraphicsPipeline`: name to pipeline, to pipeline layout and to
descriptor-set layout object. -/
structure GraphicsPipeline where
  m_pipelines : StdMap Nat
  m_pipelineLayouts : StdMap Nat
  m_descriptorSetLayouts : StdMap Nat
  deriving DecidableEq, Repr

namespace GraphicsPipeline

/-- `GraphicsPipeline::getPipeline`: `m_pipelines.at(name)`, with `std::out_of_range`
turned into a `std::runtime_error`. -/
def getPipeline (gp : GraphicsPipeline) (name : String) : Except Error Nat :=
  match gp.m_pipelines.at? name with
  | some h => .ok h
  | none => .error (.runtime_error ("Failed to find pipeline: " ++ name))

/-- `GraphicsPipeline::getLayout`. -/
def getLayout (gp : GraphicsPipeline) (name : String) : Except Error Nat :=
  match gp.m_pipelineLayouts.at? name with
  | some h => .ok h
  | none => .error (.runtime_error ("Failed to find pipeline layout: " ++ name))

/-- `GraphicsPipeline::getDescriptorSetLayout`. -/
def getDescriptorSetLayout (gp : GraphicsPipeline) (name : String) : Except Error Nat :=
  match gp.m_descriptorSetLayouts.at? name with
  | some h => .ok h
  | none => .error (.runtime_error ("Failed to find descriptor set layout: " ++ name))

end GraphicsPipeline

/-! ## Scene data (Application.hpp, Material.hpp, Model.hpp) -/

/-- The part of a `Material` that drawing reads. `addrOfName` is the address of the
member `m_pipelineName`, which is what `&material->getPipelineName()` evaluates to. -/
structure Material where
  addrOfName : Nat
  m_pipelineName : String
  m_materialDescriptorSet : Nat
  deriving DecidableEq, Repr

/-- The members of a `Model`: the handles of its two buffers, which drawing reads with
the index count, and the vertex count, 0 until `createSphere` stores it. -/
structure Model where
  vertexBuffer : Nat
  indexBuffer : Nat
  m_indexCount : Nat
  m_vertexCount : Nat := 0
  deriving DecidableEq, Repr

/-- A `RenderObject`; a null `model` pointer is `none`. -/
structure RenderObject where
  model : Option Model
  material : Material
  transform : Mat4
  deriving DecidableEq, Repr

/-- The expression `(pipelineKey << 32) | materialKey` on `uint64_t` operands. -/
def sortKeyOf (pipelineKey materialKey : Nat) : Nat :=
  ((((pipelineKey % 2 ^ 64) <<< 32) % 2 ^ 64) ||| (materialKey % 2 ^ 64)) % 2 ^ 64

/-- `RenderObject::getSortKey`. -/
def RenderObject.getSortKey (o : RenderObject) : Nat :=
  sortKeyOf o.material.addrOfName o.material.m_materialDescriptorSet

/-! ## Sorting the draw list -/

/-- What `std::sort` with the comparator `a.getSortKey() < b.getSortKey()` guarantees of
its output: a rearrangement of the input in which no later element compares less than an
earlier one. The order of elements with equal keys is not determined. -/
def IsStdSortResult (input output : List RenderObject) : Prop :=
  output.Perm input ∧
    output.Pairwise (fun a b => a.getSortKey ≤ b.getSortKey)

/-- One admissible behaviour of `std::sort`: insertion sort by sort key, which is what
libstdc++ does on vectors of at most 16 elements. -/
def stdSort (objs : List RenderObject) : List RenderObject :=
  objs.insertionSort (fun a b => a.getSortKey ≤ b.getSortKey)

/-! ## Command recording (BasicCommandBuffers.cpp) -/

/-- The commands `recordCommands` puts in the command buffer. -/
inductive Cmd where
  | beginRenderPass (imageIndex : Nat)
  | bindDescriptorSets (layout firstSet descriptorSet : Nat)
  | bindPipeline (pipeline : Nat)
  | pushConstants (layout stageFlags offset size : Nat) (data : Mat4)
  | bindVertexBuffers (buffer : Nat)
  | bindIndexBuffer (buffer : Nat)
  | drawIndexed (indexCount : Nat)
  | draw (vertexCount : Nat)
  | endRenderPass
  deriving DecidableEq, Repr

/-- The locals `lastPipeline`, `lastLayout`, `lastMaterialSet` of the drawing loop. -/
structure LoopState where
  lastPipeline : Nat
  lastLayout : Nat
  lastMaterialSet : Nat
  deriving DecidableEq, Repr

/-- The commands recorded so far, and the exception that ended recording, if any. -/
structure Recording where
  cmds : List Cmd
  error : Option Error
  deriving DecidableEq, Repr

/-- The value of `sizeof(glm::mat4)`. -/
def sizeofMat4 : Nat := 64

/-- The stage flag `VK_SHADER_STAGE_VERTEX_BIT`. -/
def VK_SHADER_STAGE_VERTEX_BIT : Nat := 1

/-- The pipeline bind of one loop iteration (source lines 105-115). -/
def bindPipelineCmds (cameraSet pipeline layout : Nat) (st : LoopState) :
    List Cmd × LoopState :=
  if pipeline ≠ st.lastPipeline then
    (Cmd.bindPipeline pipeline ::
        (if cameraSet ≠ VK_NULL_HANDLE then [Cmd.bindDescriptorSets layout 0 cameraSet]
         else []),
      { st with lastPipeline := pipeline, lastLayout := layout })
  else ([], st)

/-- The material bind of one loop iteration (source lines 118-123). -/
def bindMaterialCmds (layout materialSet : Nat) (st : LoopState) : List Cmd × LoopState :=
  if materialSet ≠ st.lastMaterialSet ∧ materialSet ≠ VK_NULL_HANDLE then
    ([Cmd.bindDescriptorSets layout 1 materialSet], { st with lastMaterialSet := materialSet })
  else ([], st)

/-- The push constants and the draw of one loop iteration (source lines 127-145). -/
def drawCmds (layout : Nat) (obj : RenderObject) : List Cmd :=
  match obj.model with
  | some m =>
      [Cmd.pushConstants layout VK_SHADER_STAGE_VERTEX_BIT 0 sizeofMat4 obj.transform,
       Cmd.bindVertexBuffers m.vertexBuffer,
       Cmd.bindIndexBuffer m.indexBuffer,
       Cmd.drawIndexed m.m_indexCount]
  | none => [Cmd.draw 3]

/-- One iteration of the loop over the sorted objects: both lookups come first, so an
iteration whose lookup throws records nothing. -/
def recordObject (gp : GraphicsPipeline) (cameraSet : Nat) (st : LoopState)
    (obj : RenderObject) : Except Error (List Cmd × LoopState) :=
  match gp.getPipeline obj.material.m_pipelineName with
  | .error e => .error e
  | .ok pipeline =>
    match gp.getLayout obj.material.m_pipelineName with
    | .error e => .error e
    | .ok layout =>
      let p := bindPipelineCmds cameraSet pipeline layout st
      let m := bindMaterialCmds layout obj.material.m_materialDescriptorSet p.2
      .ok (p.1 ++ m.1 ++ drawCmds layout obj, m.2)

/-- The loop `for (const auto& obj : renderObjects)` (source lines 99-146). -/
def recordLoop (gp : GraphicsPipeline) (cameraSet : Nat) :
    LoopState → List RenderObject → Recording
  | _, [] => { cmds := [], error := none }
  | st, obj :: rest =>
    match recordObject gp cameraSet st obj with
    | .error e => { cmds := [], error := some e }
    | .ok (cs, st1) =>
      let r := recordLoop gp cameraSet st1 rest
      { cmds := cs ++ r.cmds, error := r.error }

/-- The bind of the camera set before the loop (source lines 85-92). -/
def recordGlobalBind (gp : GraphicsPipeline) (cameraSet : Nat) :
    List RenderObject → Except Error (List Cmd)
  | [] => .ok []
  | first :: _ =>
    if cameraSet ≠ VK_NULL_HANDLE then
      match gp.getLayout first.material.m_pipelineName with
      | .error e => .error e
      | .ok layout => .ok [Cmd.bindDescriptorSets layout 0 cameraSet]
    else .ok []

/-- The initial locals of the loop. -/
def LoopState.init : LoopState :=
  { lastPipeline := VK_NULL_HANDLE, lastLayout := VK_NULL_HANDLE,
    lastMaterialSet := VK_NULL_HANDLE }

/-- The body of `recordCommands` from the render-pass begin on, given the output
`sorted` of `std::sort`; `endOk` is whether `vkEndCommandBuffer` succeeds. -/
def recordSorted (gp : GraphicsPipeline) (cameraSet : Nat) (imageIndex : Nat)
    (endOk : Bool) (sorted : List RenderObject) : Recording :=
  match recordGlobalBind gp cameraSet sorted with
  | .error e => { cmds := [Cmd.beginRenderPass imageIndex], error := some e }
  | .ok g =>
    let r := recordLoop gp cameraSet LoopState.init sorted
    match r.error with
    | some e => { cmds := Cmd.beginRenderPass imageIndex :: g ++ r.cmds, error := some e }
    | none =>
      { cmds := Cmd.beginRenderPass imageIndex :: g ++ r.cmds ++ [Cmd.endRenderPass],
        error := if endOk then none
                 else some (.runtime_error "failed to record command buffer!") }

/-- `BasicCommandBuffers::recordCommands` for any admissible output `sorted` of the
sort; `beginOk` is whether `vkBeginCommandBuffer` succeeds. -/
def recordCommandsFrom (gp : GraphicsPipeline) (cameraSet : Nat) (imageIndex : Nat)
    (beginOk endOk : Bool) (sorted : List RenderObject) : Recording :=
  if beginOk then recordSorted gp cameraSet imageIndex endOk sorted
  else { cmds := [], error := some (.runtime_error "failed to begin recording command buffer!") }

/-- `BasicCommandBuffers::recordCommands` on the scene `renderObjects`, with `stdSort`
as the sort. -/
def recordCommands (gp : GraphicsPipeline) (renderObjects : List RenderObject)
    (cameraSet : Nat) (imageIndex : Nat) (beginOk endOk : Bool) : Recording :=
  recordCommandsFrom gp cameraSet imageIndex beginOk endOk (stdSort renderObjects)

/-- Whether a command is a pipeline bind. -/
def Cmd.isPipelineBind : Cmd → Bool
  | .bindPipeline _ => true
  | _ => false

/-- Whether a command binds a descriptor set at set index `firstSet`. -/
def Cmd.isSetBind (firstSet : Nat) : Cmd → Bool
  | .bindDescriptorSets _ f _ => f == firstSet
  | _ => false

/-- Whether a command is a draw. -/
def Cmd.isDraw : Cmd → Bool
  | .drawIndexed _ => true
  | .draw _ => true
  | _ => false

/-- The number of pipeline binds in a command list. -/
def pipelineBindCount (cs : List Cmd) : Nat := (cs.filter Cmd.isPipelineBind).length

/-- The number of material-set binds (set index 1) in a command list. -/
def materialBindCount (cs : List Cmd) : Nat := (cs.filter (Cmd.isSetBind 1)).length

/-- The number of global-set binds (set index 0) in a command list. -/
def globalBindCount (cs : List Cmd) : Nat := (cs.filter (Cmd.isSetBind 0)).length

/-- The number of maximal runs of equal adjacent values in a list. -/
def runCount (l : List Nat) : Nat := (l.destutter (· ≠ ·)).length

/-- The number of sort-key groups of a draw list. -/
def sortKeyGroups (objs : List RenderObject) : Nat :=
  runCount (objs.map RenderObject.getSortKey)

/-- The pipeline handle registered for an object's pipeline name (null if none is). -/
def pipelineOf (gp : GraphicsPipeline) (o : RenderObject) : Nat :=
  (gp.m_pipelines.at? o.material.m_pipelineName).getD VK_NULL_HANDLE

/-- Whether a command is a bind or a draw, the commands a binding sequence lists. -/
def Cmd.isBindOrDraw : Cmd → Bool
  | .bindPipeline _ => true
  | .bindDescriptorSets _ _ _ => true
  | .drawIndexed _ => true
  | .draw _ => true
  | _ => false

/-- The binds and draws of a command list, in recording order. -/
def bindingSequence (cs : List Cmd) : List Cmd := cs.filter Cmd.isBindOrDraw

/-- The binds and draws of a command list without the binds of set 0. -/
def bindingSequenceSansGlobal (cs : List Cmd) : List Cmd :=
  cs.filter (fun c => c.isBindOrDraw && !c.isSetBind 0)

/-- The draw command of an object: indexed with a mesh, three vertices without. -/
def drawCmdOf (obj : RenderObject) : Cmd :=
  match obj.model with
  | some m => Cmd.drawIndexed m.m_indexCount
  | none => Cmd.draw 3

/-! ## Re-creation of the registry (GraphicsPipeline.cpp) -/

/-- What the driver answers to the creation calls of one run of `createPipelines`: the new
handle, or `none` when the call does not return `VK_SUCCESS`. The two descriptor-set
layouts are built by `DescriptorSetLayout::Builder::build`, whose result is the identity
of the new shared layout object. -/
structure PipelineDriver where
  globalSetLayout : Option Nat
  materialSetLayout : Option Nat
  baseVertModule : Option Nat
  baseFragModule : Option Nat
  basePipelineLayout : Option Nat
  basePipeline : Option Nat
  sphereVertModule : Option Nat
  sphereFragModule : Option Nat
  spherePipelineLayout : Option Nat
  spherePipeline : Option Nat
  deriving DecidableEq, Repr

/-- A creation call that throws `what` when the driver reports failure. -/
def created (answer : Option Nat) (what : String) : Except Error Nat :=
  match answer with
  | some h => .ok h
  | none => .error (.runtime_error what)

namespace GraphicsPipeline

/-- `GraphicsPipeline::createBasePipeline`: two shader modules, the layout, the pipeline,
then the two stores under "base". -/
def createBasePipeline (d : PipelineDriver) (gp : GraphicsPipeline) :
    Except Error GraphicsPipeline := do
  let _vert ← created d.baseVertModule "failed to create shader module!"
  let _frag ← created d.baseFragModule "failed to create shader module!"
  let pipelineLayout ← created d.basePipelineLayout "Base Pipeline Layout creation failed"
  let pipeline ← created d.basePipeline "Base Graphics Pipeline creation failed"
  pure { gp with m_pipelines := gp.m_pipelines.assign "base" pipeline,
                 m_pipelineLayouts := gp.m_pipelineLayouts.assign "base" pipelineLayout }

/-- `GraphicsPipeline::createSpherePipeline`. -/
def createSpherePipeline (d : PipelineDriver) (gp : GraphicsPipeline) :
    Except Error GraphicsPipeline := do
  let _vert ← created d.sphereVertModule "failed to create shader module!"
  let _frag ← created d.sphereFragModule "failed to create shader module!"
  let pipelineLayout ← created d.spherePipelineLayout "Sphere Pipeline Layout creation failed"
  let pipeline ← created d.spherePipeline "Sphere Graphics Pipeline creation failed"
  pure { gp with m_pipelines := gp.m_pipelines.assign "sphere" pipeline,
                 m_pipelineLayouts := gp.m_pipelineLayouts.assign "sphere" pipelineLayout }

/-- `GraphicsPipeline::createPipelines`. -/
def createPipelines (d : PipelineDriver) (gp : GraphicsPipeline) :
    Except Error GraphicsPipeline := do
  let globalLayout ← created d.globalSetLayout "failed to create descriptor set layout!"
  let gp1 := { gp with
    m_descriptorSetLayouts := gp.m_descriptorSetLayouts.assign "global" globalLayout }
  let materialLayout ← created d.materialSetLayout "failed to create descriptor set layout!"
  let gp2 := { gp1 with
    m_descriptorSetLayouts := gp1.m_descriptorSetLayouts.assign "material" materialLayout }
  let gp3 ← createBasePipeline d gp2
  createSpherePipeline d gp3

/-- The constructor of `GraphicsPipeline`: `createPipelines` on empty registries. -/
def construct (d : PipelineDriver) : Except Error GraphicsPipeline :=
  createPipelines d { m_pipelines := [], m_pipelineLayouts := [], m_descriptorSetLayouts := [] }

/-- A call of `recreate` that releases a Vulkan object. -/
inductive DestroyCall where
  | vkDestroyPipeline (pipeline : Nat)
  | vkDestroyPipelineLayout (pipelineLayout : Nat)
  deriving DecidableEq, Repr

/-- A run of `recreate`: the destroy calls it has made, in order, the registries as they
are when it enters `createPipelines`, and what `createPipelines` yields from there. -/
structure Recreation where
  destroyed : List DestroyCall
  entered : GraphicsPipeline
  result : Except Error GraphicsPipeline

/-- `GraphicsPipeline::recreate`: `vkDestroyPipeline` on every stored pipeline, clear the
pipeline map, `vkDestroyPipelineLayout` on every stored layout, clear the layout map, clear
the map of descriptor-set layouts, then `createPipelines`. -/
def recreate (d : PipelineDriver) (gp : GraphicsPipeline) : Recreation :=
  let pipelinesDestroyed := gp.m_pipelines.map (fun pair => DestroyCall.vkDestroyPipeline pair.2)
  let gp1 := { gp with m_pipelines := gp.m_pipelines.clear }
  let layoutsDestroyed :=
    gp1.m_pipelineLayouts.map (fun pair => DestroyCall.vkDestroyPipelineLayout pair.2)
  let gp2 := { gp1 with m_pipelineLayouts := gp1.m_pipelineLayouts.clear }
  let gp3 := { gp2 with m_descriptorSetLayouts := gp2.m_descriptorSetLayouts.clear }
  { destroyed := pipelinesDestroyed ++ layoutsDestroyed, entered := gp3,
    result := createPipelines d gp3 }

/-- The registries a program run can hold: built by the constructor and rebuilt by any
number of successful `recreate` calls (a throwing call ends the run). -/
inductive Built : GraphicsPipeline → Prop where
  | construct (d : PipelineDriver) (gp : GraphicsPipeline) :
      GraphicsPipeline.construct d = .ok gp → Built gp
  | recreate (d : PipelineDriver) (gp gp1 : GraphicsPipeline) :
      Built gp → (GraphicsPipeline.recreate d gp).result = .ok gp1 → Built gp1

end GraphicsPipeline

/-! ## Buffer (Buffer.cpp) -/

/-- Host memory: the byte stored at each address. -/
abbrev HostMemory := Nat → Nat

/-- The members of `Buffer`; `m_mapped` is the mapped pointer, `0` when not mapped. -/
structure Buffer where
  m_buffer : Nat
  m_memory : Nat
  m_bufferSize : Nat
  m_mapped : Nat
  deriving DecidableEq, Repr

/-- The result code `VK_SUCCESS`. -/
def VK_SUCCESS : Int := 0

/-- The result code `VK_SUBOPTIMAL_KHR`. -/
def VK_SUBOPTIMAL_KHR : Int := 1000001003

/-- The result code `VK_ERROR_OUT_OF_DATE_KHR`. -/
def VK_ERROR_OUT_OF_DATE_KHR : Int := -1000001004

/-- The effect of `memcpy(dst, src, n)` on host memory, `src` giving the source bytes by
their offset from the source pointer. -/
def memcpy (mem : HostMemory) (dst : Nat) (src : Nat → Nat) (n : Nat) : HostMemory :=
  fun a => if dst ≤ a ∧ a < dst + n then src (a - dst) else mem a

namespace Buffer

/-- `Buffer::map`: the assert, then `vkMapMemory(memory, offset, size, ..)`, which on
success stores in `m_mapped` the host address of byte `offset` of the memory; the buffer is
bound at offset 0 of its memory, so this is the address of byte `offset` of the buffer.
`base` is the host address the driver gives to byte 0; `size` tells the driver how far the
mapping extends and does not enter the pointer. The call returns the driver's result
code. -/
def map (b : Buffer) (_size offset : Nat) (result : Int) (base : Nat) :
    Except Error (Int × Buffer) :=
  if b.m_mapped ≠ 0 then .error (.assertion "Buffer is already mapped!")
  else .ok (result, if result = VK_SUCCESS then { b with m_mapped := base + offset } else b)

/-- `Buffer::unmap`. -/
def unmap (b : Buffer) : Except Error Buffer :=
  if b.m_mapped = 0 then .error (.assertion "Buffer is not mapped!")
  else .ok { b with m_mapped := 0 }

/-- `Buffer::writeToBuffer`: the assert, the replacement of `VK_WHOLE_SIZE`, the copy to
`m_mapped + offset`. The result is the host memory after the call. -/
def writeToBuffer (b : Buffer) (mem : HostMemory) (data : Nat → Nat) (size offset : Nat) :
    Except Error HostMemory :=
  if b.m_mapped = 0 then
    .error (.assertion "Cannot write to an unmapped buffer! Call map() first.")
  else
    let size1 := if size = VK_WHOLE_SIZE then b.m_bufferSize else size
    .ok (memcpy mem (b.m_mapped + offset) data size1)

end Buffer

/-- A call on a `Buffer`, with what the driver answers where it is asked. -/
inductive BufferOp where
  | map (size offset : Nat) (result : Int) (base : Nat)
  | unmap
  | writeToBuffer (data : Nat → Nat) (size offset : Nat)

/-- Whether a call is a `map`. -/
def BufferOp.isMap : BufferOp → Bool
  | .map _ _ _ _ => true
  | _ => false

/-- A buffer together with the host memory its mapping points into. -/
structure BufferWorld where
  buffer : Buffer
  memory : HostMemory

/-- The effect of one call; an error ends the program. -/
def BufferOp.apply (w : BufferWorld) : BufferOp → Except Error BufferWorld
  | .map size offset result base =>
    match w.buffer.map size offset result base with
    | .error e => .error e
    | .ok (_, b) => .ok { w with buffer := b }
  | .unmap =>
    match w.buffer.unmap with
    | .error e => .error e
    | .ok b => .ok { w with buffer := b }
  | .writeToBuffer data size offset =>
    match w.buffer.writeToBuffer w.memory data size offset with
    | .error e => .error e
    | .ok mem => .ok { w with memory := mem }

/-- A sequence of calls, stopping at the first error. -/
def runOps : BufferWorld → List BufferOp → Except Error BufferWorld
  | w, [] => .ok w
  | w, op :: rest =>
    match op.apply w with
    | .error e => .error e
    | .ok w1 => runOps w1 rest

/-- The host memory after a `writeToBuffer` call, rejected or not. -/
def memoryAfterWrite (b : Buffer) (mem : HostMemory) (data : Nat → Nat) (size offset : Nat) :
    HostMemory :=
  match b.writeToBuffer mem data size offset with
  | .ok mem1 => mem1
  | .error _ => mem

/-! ## The frame loop (Application.cpp) -/

/-- The constant `MAX_FRAMES_IN_FLIGHT`. -/
def MAX_FRAMES_IN_FLIGHT : Nat := 2

/-- The calls of `drawFrame` and `recreateSwapChain` that the frame loop logs, in the
order in which they happen. -/
inductive Action where
  | waitForFence (slot : Nat)
  | acquireNextImage (slot : Nat)
  | updateUBOs (slot : Nat)
  | recordCommands (imageIndex : Nat)
  | interfaceRecord (imageIndex : Nat)
  | resetFence (slot : Nat)
  | queueSubmit (slot imageIndex : Nat)
  | queuePresent (imageIndex : Nat)
  | framebufferSize (width height : Int)
  | waitEvents
  | deviceWaitIdle
  | swapChainRecreate
  | renderPassRecreate
  | graphicsPipelineRecreate
  | commandBuffersRecreate
  | interfaceRecreate
  | renderPassCleanupOld
  | swapChainCleanupOld
  | syncObjectsRecreate (numImages : Nat)
  deriving DecidableEq, Repr

/-- Whether a logged call is one of the rebuild steps of `recreateSwapChain`. -/
def Action.isRebuild : Action → Bool
  | .swapChainRecreate => true
  | .renderPassRecreate => true
  | .graphicsPipelineRecreate => true
  | .commandBuffersRecreate => true
  | .interfaceRecreate => true
  | _ => false

/-- Whether a logged call is a framebuffer-size observation with both components
non-zero. -/
def Action.isNonZeroSize : Action → Bool
  | .framebufferSize w h => !(w == 0 || h == 0)
  | _ => false

/-- A queue submission the GPU has not finished: the frame slot whose in-flight fence it
signals, and the swapchain image it renders to. -/
structure Submission where
  slot : Nat
  image : Nat
  deriving DecidableEq, Repr

/-- How a call of `drawFrame` or `recreateSwapChain` ends: it returns, it throws, or it
never gets past a wait. -/
inductive Outcome where
  | returned
  | threw (e : Error)
  | blocked
  deriving DecidableEq, Repr

/-- The state the frame loop works on. `fenceSignaled` and `imageInFlight` are the
contents of `SyncObjects` (the in-flight fence of each frame slot; for each swapchain
image the slot whose fence was stored for it, `none` for `VK_NULL_HANDLE`), `pending`
are the submissions the GPU has not finished, `peakPending` is the largest number of
them there has been, `log` are the calls made so far, `running` is false once a call of
`drawFrame` has thrown or cannot return. -/
structure FrameLoop where
  currentFrame : Nat
  framebufferResized : Bool
  numImages : Nat
  fenceSignaled : List Bool
  imageInFlight : List (Option Nat)
  pending : List Submission
  peakPending : Nat
  log : List Action
  running : Bool
  deriving DecidableEq, Repr

/-- What the driver and the window system answer during one call of `drawFrame`. -/
structure TickEnv where
  acquireResult : Int
  imageIndex : Nat
  recordError : Option Error
  submitResult : Int
  presentResult : Int
  sizes : List (Int × Int)
  newNumImages : Nat
  failingRebuild : Option Nat
  deriving DecidableEq, Repr

namespace FrameLoop

/-- Modelled from the spec: the class `SyncObjects` is not among the sources. Its
constructor `SyncObjects(device, numImages, MAX_FRAMES_IN_FLIGHT)` gives one in-flight
fence per frame slot, created signaled, and one image-fence entry per swapchain image,
initially `VK_NULL_HANDLE`. The application starts at frame slot 0. -/
def init (numImages : Nat) : FrameLoop :=
  { currentFrame := 0, framebufferResized := false, numImages := numImages,
    fenceSignaled := List.replicate MAX_FRAMES_IN_FLIGHT true,
    imageInFlight := List.replicate numImages none,
    pending := [], peakPending := 0, log := [], running := true }

/-- Append a call to the log. -/
def logged (s : FrameLoop) (a : Action) : FrameLoop := { s with log := s.log ++ [a] }

/-- The GPU finishes every submission that signals the fence of `slot`. -/
def complete (s : FrameLoop) (slot : Nat) : FrameLoop :=
  { s with pending := s.pending.filter (fun p => p.slot != slot),
           fenceSignaled := s.fenceSignaled.set slot true }

/-- The call `vkWaitForFences` on the in-flight fence of `slot`: it returns at once when
the fence is signaled, it returns after the GPU has finished the submission that signals
the fence when there is one, and it never returns otherwise (`none`). -/
def waitForFence (s : FrameLoop) (slot : Nat) : Option FrameLoop :=
  if s.fenceSignaled.getD slot false then some (s.logged (.waitForFence slot))
  else if s.pending.any (fun p => p.slot == slot) then
    some ((s.complete slot).logged (.waitForFence slot))
  else none

/-- The call `vkDeviceWaitIdle`: it returns when the GPU has finished every submission,
each of which signals its fence. -/
def deviceWaitIdle (s : FrameLoop) : FrameLoop :=
  { s with fenceSignaled :=
             s.pending.foldl (fun fs p => fs.set p.slot true) s.fenceSignaled,
           pending := [],
           log := s.log ++ [.deviceWaitIdle] }

/-- Whether a framebuffer size has a zero component. -/
def isZeroSize (size : Int × Int) : Bool := size.1 == 0 || size.2 == 0

/-- The loop `while (size[0] == 0 || size[1] == 0)` of `recreateSwapChain`: `size` is the
size read last, the list holds the sizes the next reads will give. The result is the calls
made and whether the loop was left. -/
def pollSize : Int × Int → List (Int × Int) → List Action × Bool
  | size, [] => ([], !isZeroSize size)
  | size, next :: later =>
    if isZeroSize size then
      let r := pollSize next later
      (Action.framebufferSize next.1 next.2 :: Action.waitEvents :: r.1, r.2)
    else ([], true)

/-- The rebuild calls of `recreateSwapChain`, in source order. -/
def rebuildSteps : List Action :=
  [.swapChainRecreate, .renderPassRecreate, .graphicsPipelineRecreate,
   .commandBuffersRecreate, .interfaceRecreate]

/-- `Application::recreateSwapChain`. The sizes that `window.framebufferSize` reads are
`env.sizes`; when they run out while the size is still zero the call has not returned.
`env.failingRebuild` names the rebuild step that throws, if one does, and
`env.newNumImages` is the image count of the new swapchain. -/
def recreateSwapChain (env : TickEnv) (s : FrameLoop) : FrameLoop × Outcome :=
  let s1 := { s with framebufferResized := true }
  match env.sizes with
  | [] => (s1, .blocked)
  | size :: later =>
    let polled := pollSize size later
    let s2 := { s1 with log := s1.log ++ Action.framebufferSize size.1 size.2 :: polled.1 }
    if polled.2 then
      let s3 := s2.deviceWaitIdle
      match env.failingRebuild with
      | some k =>
        if k < rebuildSteps.length then
          ({ s3 with log := s3.log ++ rebuildSteps.take (k + 1) },
            .threw (.runtime_error "recreation failed"))
        else
          ({ s3 with numImages := env.newNumImages,
                     log := s3.log ++ rebuildSteps ++
                       [.renderPassCleanupOld, .swapChainCleanupOld] }, .returned)
      | none =>
        ({ s3 with numImages := env.newNumImages,
                   log := s3.log ++ rebuildSteps ++
                     [.renderPassCleanupOld, .swapChainCleanupOld] }, .returned)
    else (s2, .blocked)

/-- Modelled from the spec: `SyncObjects::recreate(numImages)` is not among the sources.
It rebuilds the synchronization objects sized to the image count: fresh signaled in-flight
fences and one cleared image-fence entry per image. -/
def syncObjectsRecreate (s : FrameLoop) : FrameLoop :=
  { s with fenceSignaled := List.replicate MAX_FRAMES_IN_FLIGHT true,
           imageInFlight := List.replicate s.numImages none,
           log := s.log ++ [.syncObjectsRecreate s.numImages] }

/-- The wait on `imageInFlight(imageIndex)` when it is not `VK_NULL_HANDLE`
(source lines 197-200). -/
def waitForImage (s : FrameLoop) (imageIndex : Nat) : Option FrameLoop :=
  match s.imageInFlight.getD imageIndex none with
  | some slot => s.waitForFence slot
  | none => some s

/-- The end of `drawFrame` from `vkQueuePresentKHR` on (source lines 252-262). -/
def presentAndAdvance (env : TickEnv) (s : FrameLoop) : FrameLoop × Outcome :=
  let s1 := s.logged (.queuePresent env.imageIndex)
  if env.presentResult = VK_ERROR_OUT_OF_DATE_KHR ∨ env.presentResult = VK_SUBOPTIMAL_KHR ∨
      s1.framebufferResized = true then
    match recreateSwapChain env s1 with
    | (s2, .returned) =>
      let s3 := { s2.syncObjectsRecreate with framebufferResized := false }
      ({ s3 with currentFrame := (s3.currentFrame + 1) % MAX_FRAMES_IN_FLIGHT }, .returned)
    | (s2, out) => (s2, out)
  else if env.presentResult ≠ VK_SUCCESS then
    (s1, .threw (.runtime_error "Failed to present swap chain image"))
  else ({ s1 with currentFrame := (s1.currentFrame + 1) % MAX_FRAMES_IN_FLIGHT }, .returned)

/-- The middle of `drawFrame`: record, reset the fence, submit (source lines 204-237),
then present. -/
def recordSubmitPresent (env : TickEnv) (s : FrameLoop) : FrameLoop × Outcome :=
  let s1 := s.logged (.recordCommands env.imageIndex)
  match env.recordError with
  | some e => (s1, .threw e)
  | none =>
    let s2 := s1.logged (.interfaceRecord env.imageIndex)
    let s3 := { s2 with fenceSignaled := s2.fenceSignaled.set s2.currentFrame false,
                        log := s2.log ++ [.resetFence s2.currentFrame] }
    if env.submitResult ≠ VK_SUCCESS then
      (s3, .threw (.runtime_error "failed to submit draw command buffer!"))
    else
      let pending := s3.pending ++ [{ slot := s3.currentFrame, image := env.imageIndex }]
      let s4 := { s3 with pending := pending,
                          peakPending := max s3.peakPending pending.length,
                          log := s3.log ++ [.queueSubmit s3.currentFrame env.imageIndex] }
      presentAndAdvance env s4

/-- `Application::drawFrame`, with the flag `framebufferResized` kept in the state. -/
def drawFrame (env : TickEnv) (s : FrameLoop) : FrameLoop × Outcome :=
  match s.waitForFence s.currentFrame with
  | none => (s, .blocked)
  | some s1 =>
    let s2 := s1.logged (.acquireNextImage s1.currentFrame)
    if env.acquireResult = VK_ERROR_OUT_OF_DATE_KHR then recreateSwapChain env s2
    else if env.acquireResult ≠ VK_SUCCESS ∧ env.acquireResult ≠ VK_SUBOPTIMAL_KHR then
      (s2, .threw (.runtime_error "Failed to acquire swapchain image"))
    else
      let s3 := s2.logged (.updateUBOs s2.currentFrame)
      match s3.waitForImage env.imageIndex with
      | none => (s3, .blocked)
      | some s4 =>
        let s5 := { s4 with imageInFlight :=
                      s4.imageInFlight.set env.imageIndex (some s4.currentFrame) }
        recordSubmitPresent env s5

end FrameLoop

/-- What can happen to the frame loop: the window calls `drawFrame`, the GPU finishes
the pending submission at position `k`, or the window sets the resize flag. -/
inductive Event where
  | tick (env : TickEnv)
  | gpuFinish (k : Nat)
  | resize
  deriving DecidableEq, Repr

/-- The effect of one event. A call of `drawFrame` that throws or cannot return stops the
loop, and no further call is made. -/
def FrameLoop.step (s : FrameLoop) : Event → FrameLoop
  | .tick env =>
    if s.running then
      match s.drawFrame env with
      | (s1, .returned) => s1
      | (s1, _) => { s1 with running := false }
    else s
  | .gpuFinish k =>
    match s.pending.get? k with
    | some p => { s with pending := s.pending.eraseIdx k,
                         fenceSignaled := s.fenceSignaled.set p.slot true }
    | none => s
  | .resize => { s with framebufferResized := true }

/-- The state after a sequence of events. -/
def FrameLoop.run (s : FrameLoop) (events : List Event) : FrameLoop :=
  events.foldl FrameLoop.step s

/-- The number of frames submitted whose in-flight fence has not signaled. -/
def FrameLoop.framesInFlight (s : FrameLoop) : Nat := s.pending.length

/-- An object whose pipeline name is registered with a non-null pipeline handle and with
a pipeline layout. -/
def Registered (gp : GraphicsPipeline) (o : RenderObject) : Prop :=
  ∃ p l, gp.getPipeline o.material.m_pipelineName = .ok p ∧ p ≠ VK_NULL_HANDLE ∧
    gp.getLayout o.material.m_pipelineName = .ok l

/-- The material descriptor set of an object. -/
def materialSetOf (o : RenderObject) : Nat := o.material.m_materialDescriptorSet

/-- The invariant of the frame loop behind the frame-fence bound, on the frame slot, the
fence states, the pending submissions and their peak: the slot index is below
`MAX_FRAMES_IN_FLIGHT`, there is one fence per slot, no two pending submissions signal the
same fence, the fence of a pending submission is unsignaled, and the peak is at most
`MAX_FRAMES_IN_FLIGHT`. -/
def FenceInv (currentFrame : Nat) (fenceSignaled : List Bool) (pending : List Submission)
    (peakPending : Nat) : Prop :=
  currentFrame < MAX_FRAMES_IN_FLIGHT ∧
  fenceSignaled.length = MAX_FRAMES_IN_FLIGHT ∧
  (pending.map Submission.slot).Nodup ∧
  (∀ p ∈ pending, p.slot < MAX_FRAMES_IN_FLIGHT ∧ fenceSignaled.getD p.slot false = false) ∧
  peakPending ≤ MAX_FRAMES_IN_FLIGHT

/-- The invariant `FenceInv` of a state. -/
def FrameLoop.Inv (s : FrameLoop) : Prop :=
  FenceInv s.currentFrame s.fenceSignaled s.pending s.peakPending

/-- No pending submission signals the fence of `slot`. -/
def FrameLoop.NoPending (s : FrameLoop) (slot : Nat) : Prop :=
  ∀ p ∈ s.pending, p.slot ≠ slot

/-- The framebuffer size a logged call observed, if it is a size observation. -/
def Action.observedSize : Action → Option (Int × Int)
  | .framebufferSize w h => some (w, h)
  | _ => none

/-- The framebuffer sizes observed in a log, in order. -/
def sizesObserved (log : List Action) : List (Int × Int) :=
  log.filterMap Action.observedSize

/-- The answers of a tick in which everything succeeds and the window is minimized for
the first two size reads of a recreation. -/
def minimizedEnv : TickEnv :=
  { acquireResult := VK_SUCCESS, imageIndex := 0, recordError := none,
    submitResult := VK_SUCCESS, presentResult := VK_SUCCESS,
    sizes := [(0, 0), (0, 600), (800, 600)], newNumImages := 3, failingRebuild := none }


/-- Driver answers that hand out, for every creation call, the handle value that
`exampleRegistry` holds: what a driver does that reuses the values of destroyed handles. -/
def reusingDriver : PipelineDriver :=
  { globalSetLayout := some 15, materialSetLayout := some 16,
    baseVertModule := some 1, baseFragModule := some 2,
    basePipelineLayout := some 13, basePipeline := some 11,
    sphereVertModule := some 3, sphereFragModule := some 4,
    spherePipelineLayout := some 14, spherePipeline := some 12 }

/-- Driver answers with handle values that `exampleRegistry` does not hold. -/
def freshDriver : PipelineDriver :=
  { globalSetLayout := some 55, materialSetLayout := some 56,
    baseVertModule := some 5, baseFragModule := some 6,
    basePipelineLayout := some 53, basePipeline := some 51,
    sphereVertModule := some 7, sphereFragModule := some 8,
    spherePipelineLayout := some 54, spherePipeline := some 52 }

/-- A buffer of 16 bytes mapped from its first byte, which is at host address 1000. -/
def mappedBuffer : Buffer :=
  { m_buffer := 61, m_memory := 62, m_bufferSize := 16, m_mapped := 1000 }

/-- Host memory that holds zero everywhere. -/
def zeroMemory : HostMemory := fun _ => 0

/-- Source bytes 100, 101, 102, ... -/
def sampleData : Nat → Nat := fun i => 100 + i

/-! ## Buffer: memory type choice and construction (Buffer.cpp) -/

/-- The test of one iteration of the loop of `findMemoryType`:
`(typeFilter & (1 << i)) && (propertyFlags & properties) == properties`. -/
def memoryTypeMatches (typeFilter properties i propertyFlags : Nat) : Bool :=
  (typeFilter &&& (1 <<< i)) != 0 && (propertyFlags &&& properties) == properties

/-- The loop `for (uint32_t i = 0; i < memoryTypeCount; i++)` from index `i` on, over the
property flags of the memory types not yet visited. -/
def findMemoryTypeLoop (typeFilter properties : Nat) : Nat → List Nat → Option Nat
  | _, [] => none
  | i, flags :: rest =>
    if memoryTypeMatches typeFilter properties i flags then some i
    else findMemoryTypeLoop typeFilter properties (i + 1) rest

/-- `Buffer::findMemoryType`; `memoryTypes` are the property flags of the
`memoryTypeCount` memory types the physical device reports. -/
def Buffer.findMemoryType (memoryTypes : List Nat) (typeFilter properties : Nat) :
    Except Error Nat :=
  match findMemoryTypeLoop typeFilter properties 0 memoryTypes with
  | some i => .ok i
  | none => .error (.runtime_error "Failed to find suitable memory type!")

/-- A memory type index as the specification describes a suitable one: bit `i` of the type
filter is set and the flags of memory type `i` contain every bit of `properties`. -/
def SuitableMemoryType (memoryTypes : List Nat) (typeFilter properties i : Nat) : Prop :=
  typeFilter.testBit i = true ∧
    ∀ k, properties.testBit k = true → (memoryTypes.getD i 0).testBit k = true

/-- What the driver answers during the constructor of `Buffer`: the handle from
`vkCreateBuffer` (`none`: failure), the memory requirements, the memory types of the
physical device, the handle from `vkAllocateMemory`, and whether `vkBindBufferMemory`
succeeds. -/
structure BufferDriver where
  createBuffer : Option Nat
  memoryTypeBits : Nat
  allocationSize : Nat
  memoryTypes : List Nat
  allocateMemory : Option Nat
  bindOk : Bool
  deriving DecidableEq, Repr

/-- How a constructor call of `Buffer` ends: the object or the exception, and the buffer
handles and memory allocations that were created during the call and not released by the
time it ends. -/
structure Construction where
  result : Except Error Buffer
  liveBuffers : List Nat
  liveMemory : List Nat

/-- `Buffer::Buffer`. The constructor has no handler around its steps, and C++ does not run
the destructor of an object whose constructor throws, so on each `throw` the handles
created so far stay live. -/
def Buffer.construct (d : BufferDriver) (size _usageFlags memoryPropertyFlags : Nat) :
    Construction :=
  match d.createBuffer with
  | none =>
    { result := .error (.runtime_error "Failed to create VkBuffer!"),
      liveBuffers := [], liveMemory := [] }
  | some buffer =>
    match Buffer.findMemoryType d.memoryTypes d.memoryTypeBits memoryPropertyFlags with
    | .error e => { result := .error e, liveBuffers := [buffer], liveMemory := [] }
    | .ok _ =>
      match d.allocateMemory with
      | none =>
        { result := .error (.runtime_error "Failed to allocate buffer memory!"),
          liveBuffers := [buffer], liveMemory := [] }
      | some memory =>
        if d.bindOk then
          { result := .ok { m_buffer := buffer, m_memory := memory, m_bufferSize := size,
                            m_mapped := 0 },
            liveBuffers := [buffer], liveMemory := [memory] }
        else
          { result := .error (.runtime_error "Failed to bind buffer memory!"),
            liveBuffers := [buffer], liveMemory := [memory] }

/-- The handles `Buffer::~Buffer` passes to `vkDestroyBuffer` and `vkFreeMemory`. -/
def Buffer.destroyed (b : Buffer) : List Nat × List Nat := ([b.m_buffer], [b.m_memory])

/-- Whether the buffer counts as mapped after a sequence of calls, as the specification
puts it: mapped from a successful `map` to the next `unmap`. -/
def mappedAfter : Bool → List BufferOp → Bool
  | m, [] => m
  | m, .map _ _ result _ :: rest => mappedAfter (m || decide (result = VK_SUCCESS)) rest
  | _, .unmap :: rest => mappedAfter false rest
  | m, .writeToBuffer _ _ _ :: rest => mappedAfter m rest

/-- The pointer a successful `vkMapMemory` stores is not null. -/
def BufferOp.mapsToNonNull : BufferOp → Prop
  | .map _ offset result base => result = VK_SUCCESS → base + offset ≠ 0
  | _ => True

/-- A device with a device-local memory type (flags 1) and a host-visible, host-coherent
one (flags 6), on which buffer creation succeeds with handles 71 and 72. -/
def twoTypeDriver : BufferDriver :=
  { createBuffer := some 71, memoryTypeBits := 3, allocationSize := 64,
    memoryTypes := [1, 6], allocateMemory := some 72, bindOk := true }

/-- The same device when the buffer may only live in memory type 0. -/
def deviceLocalOnlyDriver : BufferDriver := { twoTypeDriver with memoryTypeBits := 1 }

/-- Whether a logged call belongs to the work on a frame: the update step, the recording
of a command buffer, the fence reset, the submission, the presentation. -/
def Action.isFrameWork : Action → Bool
  | .updateUBOs _ => true
  | .recordCommands _ => true
  | .interfaceRecord _ => true
  | .resetFence _ => true
  | .queueSubmit _ _ => true
  | .queuePresent _ => true
  | _ => false

/-- Whether a logged call is the rebuild of the synchronization objects. -/
def Action.isSyncRebuild : Action → Bool
  | .syncObjectsRecreate _ => true
  | _ => false

/-- The result code `VK_ERROR_DEVICE_LOST`. -/
def VK_ERROR_DEVICE_LOST : Int := -4

/-- The answers of a tick in which everything succeeds; a recreation, if one runs, reads
the size (800, 600) and gets a swapchain of 4 images. -/
def okEnv : TickEnv :=
  { acquireResult := VK_SUCCESS, imageIndex := 0, recordError := none,
    submitResult := VK_SUCCESS, presentResult := VK_SUCCESS,
    sizes := [(800, 600)], newNumImages := 4, failingRebuild := none }

/-- The answers of a tick whose image acquisition reports out of date. -/
def staleEnv : TickEnv := { okEnv with acquireResult := VK_ERROR_OUT_OF_DATE_KHR }

/-- The image-fence entry of every pending submission that has one is set. -/
def FrameLoop.ImageInv (s : FrameLoop) : Prop :=
  ∀ p ∈ s.pending, p.image < s.imageInFlight.length →
    (s.imageInFlight.getD p.image none).isSome = true

/-- The image-fence entry of every pending submission whose image has an entry is the
in-flight fence that the submission signals (the fence of its frame slot). -/
def FrameLoop.ImageFenceInv (s : FrameLoop) : Prop :=
  ∀ p ∈ s.pending, p.image < s.imageInFlight.length →
    s.imageInFlight.getD p.image none = some p.slot

/-- Whether a command is a push of constants. -/
def Cmd.isPush : Cmd → Bool
  | .pushConstants _ _ _ _ _ => true
  | _ => false

/-- Whether a command is a push of constants or a draw. -/
def Cmd.isPushOrDraw : Cmd → Bool
  | .pushConstants _ _ _ _ _ => true
  | .drawIndexed _ => true
  | .draw _ => true
  | _ => false

/-- The pipeline layout registered for an object's pipeline name (null if none is). -/
def layoutOf (gp : GraphicsPipeline) (o : RenderObject) : Nat :=
  (gp.m_pipelineLayouts.at? o.material.m_pipelineName).getD VK_NULL_HANDLE

/-- The push and the draw expected for an object: with a mesh, the transform pushed for
the vertex stage (64 bytes at offset 0) and then the indexed draw; without a mesh, the
draw of 3 vertices alone. -/
def pushAndDrawOf (gp : GraphicsPipeline) (o : RenderObject) : List Cmd :=
  match o.model with
  | some m =>
      [Cmd.pushConstants (layoutOf gp o) VK_SHADER_STAGE_VERTEX_BIT 0 64 o.transform,
       Cmd.drawIndexed m.m_indexCount]
  | none => [Cmd.draw 3]

/-! ## Loading the assets (Application.cpp, Material.hpp) -/

/-- Modelled from the spec: `DescriptorWriter::build(set)` is declared in Descriptors.hpp
and defined outside the sources. It allocates a fresh set from the pool and applies the
accumulated writes to it; when the allocation fails it applies nothing, leaves `set` as it
is and returns `false`. `allocated` is the set the pool hands out, if it does. -/
def DescriptorWriter.build (allocated : Option Nat) (set : Nat) : Bool × Nat :=
  match allocated with
  | some fresh => (true, fresh)
  | none => (false, set)

/-- What the driver answers during the constructor of a `Material`. -/
structure MaterialDriver where
  uboBuffer : BufferDriver
  mapResult : Int
  mapPointer : Nat
  descriptorSet : Option Nat
  deriving DecidableEq, Repr

/-- The value of `sizeof(MaterialUBO)`. -/
def sizeofMaterialUBO : Nat := 16

/-- The value of `sizeof(CameraUBO)`. -/
def sizeofCameraUBO : Nat := 128

/-- The usage flag `VK_BUFFER_USAGE_UNIFORM_BUFFER_BIT`. -/
def VK_BUFFER_USAGE_UNIFORM_BUFFER_BIT : Nat := 16

/-- The flags `VK_MEMORY_PROPERTY_HOST_VISIBLE_BIT | VK_MEMORY_PROPERTY_HOST_COHERENT_BIT`. -/
def hostVisibleCoherent : Nat := 6

/-- The constructor of `Material`: the lookup of the "material" layout, the uniform
buffer, map, write, unmap, and the descriptor set, with a `throw` when `build` returns
`false`. `addrOfName` is where the member `m_pipelineName` of the object ends up. -/
def Material.construct (gp : GraphicsPipeline) (d : MaterialDriver) (addrOfName : Nat)
    (pipelineName : String) (color : Nat → Nat) : Except Error Material := do
  let _materialLayout ← gp.getDescriptorSetLayout "material"
  let ubo ← (Buffer.construct d.uboBuffer sizeofMaterialUBO
    VK_BUFFER_USAGE_UNIFORM_BUFFER_BIT hostVisibleCoherent).result
  let mapped ← ubo.map VK_WHOLE_SIZE 0 d.mapResult d.mapPointer
  let _memory ← mapped.2.writeToBuffer (fun _ => 0) color VK_WHOLE_SIZE 0
  let _unmapped ← mapped.2.unmap
  let built := DescriptorWriter.build d.descriptorSet VK_NULL_HANDLE
  if built.1 then
    pure { addrOfName := addrOfName, m_pipelineName := pipelineName,
           m_materialDescriptorSet := built.2 }
  else throw (.runtime_error "Failed to build material descriptor set!")

/-- What the driver answers during `Application::loadAssets`: the exception of the pool
builder, if it throws; the answers for the camera buffer and its mapping; the set the pool
hands out for the camera, if it does; the model `Model::createSphere` yields or the
exception it throws; the answers for the two materials and the addresses they end up at. -/
structure LoadDriver where
  poolError : Option Error
  cameraBuffer : BufferDriver
  cameraMapResult : Int
  cameraMapPointer : Nat
  cameraSet : Option Nat
  sphere : Except Error Model
  red : MaterialDriver
  redAddr : Nat
  blue : MaterialDriver
  blueAddr : Nat

/-- The members of `Application` that `loadAssets` fills. -/
structure Assets where
  m_cameraUboBuffer : Buffer
  m_cameraDescriptorSet : Nat
  m_models : StdMap Model
  m_materials : StdMap Material
  deriving DecidableEq, Repr

/-- `Application::loadAssets`. The value `build` returns for the camera set is not looked
at. -/
def loadAssets (gp : GraphicsPipeline) (d : LoadDriver) : Except Error Assets := do
  match d.poolError with
  | some e => throw e
  | none =>
    let ubo ← (Buffer.construct d.cameraBuffer sizeofCameraUBO
      VK_BUFFER_USAGE_UNIFORM_BUFFER_BIT hostVisibleCoherent).result
    let mapped ← ubo.map VK_WHOLE_SIZE 0 d.cameraMapResult d.cameraMapPointer
    let _globalSetLayout ← gp.getDescriptorSetLayout "global"
    let built := DescriptorWriter.build d.cameraSet VK_NULL_HANDLE
    let sphere ← d.sphere
    let red ← Material.construct gp d.red d.redAddr "sphere" (fun _ => 0)
    let blue ← Material.construct gp d.blue d.blueAddr "sphere" (fun _ => 0)
    pure { m_cameraUboBuffer := mapped.2, m_cameraDescriptorSet := built.2,
           m_models := StdMap.assign [] "sphere" sphere,
           m_materials := StdMap.assign (StdMap.assign [] "red_sphere" red) "blue_sphere" blue }


/-- An object whose pipeline name both lookups of the recording loop find: it is a key of
the pipeline map and of the pipeline-layout map. -/
def Lookupable (gp : GraphicsPipeline) (o : RenderObject) : Prop :=
  ∃ p l, gp.getPipeline o.material.m_pipelineName = .ok p ∧
    gp.getLayout o.material.m_pipelineName = .ok l

/-- The descriptor set a command binds at set index 1, if it is such a bind. -/
def Cmd.materialSetBound : Cmd → Option Nat
  | .bindDescriptorSets _ 1 s => some s
  | _ => none

/-- The material descriptor sets a command list binds, in recording order. -/
def materialSetsBound (cs : List Cmd) : List Nat := cs.filterMap Cmd.materialSetBound

/-- The non-null material descriptor sets of a draw list, in order. -/
def nonNullMaterialSets (objs : List RenderObject) : List Nat :=
  (objs.map materialSetOf).filter (fun s => s ≠ VK_NULL_HANDLE)

/-- Whether a logged call discards the resources of the previous generation. -/
def Action.isCleanup : Action → Bool
  | .renderPassCleanupOld => true
  | .swapChainCleanupOld => true
  | _ => false

/-- Whether a logged call belongs to the size-polling loop of `recreateSwapChain`. -/
def Action.isPolling : Action → Bool
  | .framebufferSize _ _ => true
  | .waitEvents => true
  | _ => false

/-- The calls of `recreateSwapChain` from `vkDeviceWaitIdle` on, in source order. -/
def FrameLoop.recreationCalls : List Action :=
  Action.deviceWaitIdle ::
    (FrameLoop.rebuildSteps ++ [Action.renderPassCleanupOld, Action.swapChainCleanupOld])

/-! ## The sphere mesh (Geometry.cpp, Model.cpp) -/

/-- A value reduced to the range of `uint32_t`. -/
def u32 (n : Nat) : Nat := n % 2 ^ 32

/-- The effect of `std::vector::clear`. -/
def vectorClear {α : Type} (_v : List α) : List α := []

namespace geometry

/-- A vertex of the sphere, named by the stack `i` and the sector `j` it is pushed for.
Its position, normal and texture coordinates are floating-point values computed from `i`,
`j`, the radius and the two counts; they are not interpreted. -/
structure Vertex where
  stack : Nat
  sector : Nat
  deriving DecidableEq, Repr

/-- The values `i` takes in a loop `for (uint32_t i = 0; i <= n; ++i)`. For
`n = 2^32 - 1` the test holds for every `uint32_t` value and the loop never ends:
`none`. -/
def countedThrough (n : Nat) : Option (List Nat) :=
  if n = 2 ^ 32 - 1 then none else some (List.range (n + 1))

/-- The index pushes of one iteration of the inner index loop (source lines 95-107);
`stackCount` is the parameter `stacks`, and `stacks - 1` is a `uint32_t` subtraction. -/
def cellIndices (stackCount i k1 k2 : Nat) : List Nat :=
  (if i ≠ 0 then [k1, k2, u32 (k1 + 1)] else []) ++
    (if i ≠ u32 (stackCount + (2 ^ 32 - 1)) then [u32 (k1 + 1), k2, u32 (k2 + 1)] else [])

/-- The loop `for (uint32_t j = 0; j < sectors; ++j, ++k1, ++k2)` with `n` iterations
left and the current values of `k1` and `k2`. -/
def rowIndices (stackCount i : Nat) : Nat → Nat → Nat → List Nat
  | 0, _, _ => []
  | n + 1, k1, k2 =>
    cellIndices stackCount i k1 k2 ++
      rowIndices stackCount i n (u32 (k1 + 1)) (u32 (k2 + 1))

/-- `geometry::createSphere` on `uint32_t` arguments (`stackCount` is the parameter
`stacks`): the contents of the two output vectors when it returns, `none` when one of the
vertex loops never ends. The radius only enters the floating-point attributes of the
vertices. -/
def createSphere (vertices : List Vertex) (indices : List Nat) (sectors stackCount : Nat) :
    Option (List Vertex × List Nat) := do
  let vertices0 := vectorClear vertices
  let indices0 := vectorClear indices
  let is ← countedThrough stackCount
  let js ← countedThrough sectors
  let vertices1 := vertices0 ++
    is.flatMap (fun i => js.map (fun j => ({ stack := i, sector := j } : Vertex)))
  let indices1 := indices0 ++
    (List.range stackCount).flatMap (fun i =>
      rowIndices stackCount i sectors (u32 (i * (sectors + 1)))
        (u32 (u32 (i * (sectors + 1)) + sectors + 1)))
  pure (vertices1, indices1)

end geometry

/-- What the two uploads of `Model::createSphere` yield: the handle of the buffer that
`createBufferFromData` leaves in `m_vertexBuffer`, respectively `m_indexBuffer`, or the
exception it throws. -/
structure UploadDriver where
  vertexUpload : Except Error Nat
  indexUpload : Except Error Nat

/-- `Model::createSphere`: the mesh is generated into two empty local vectors, the
counts are the vector sizes cast to `uint32_t`, then the two uploads follow. The result
is `none` when the generation never ends. -/
def Model.createSphere (d : UploadDriver) (sectors stackCount : Nat) :
    Option (Except Error Model) :=
  match geometry.createSphere [] [] sectors stackCount with
  | none => none
  | some (vertices, indices) =>
    let m_vertexCount := u32 vertices.length
    let m_indexCount := u32 indices.length
    some (do
      let vertexBuffer ← d.vertexUpload
      let indexBuffer ← d.indexUpload
      pure { vertexBuffer := vertexBuffer, indexBuffer := indexBuffer,
             m_indexCount := m_indexCount, m_vertexCount := m_vertexCount })

namespace glm

/-- The matrix `glm::translate(glm::mat4(1.0f), {x, y, z})`, kept as its arguments. -/
def translate (x y z : Nat) : Mat4 := [0, x, y, z]

/-- The matrix `glm::rotate(glm::mat4(1.0f), 1000 * time * glm::radians(45.0f),
{0, 0, 1})`, kept as the time it is computed from. -/
def rotate (time : Nat) : Mat4 := [1, time]

end glm

/-- `Application::buildScene` on the list `m_renderObjects`. The pointers
`&m_models.at(..)` and `&m_materials.at(..)` are kept as the values they point to; `none`
stands for the `std::out_of_range` of `at`. -/
def buildScene (a : Assets) (m_renderObjects : List RenderObject) :
    Option (List RenderObject) := do
  let sphere ← a.m_models.at? "sphere"
  let red ← a.m_materials.at? "red_sphere"
  let pushed := m_renderObjects ++
    [{ model := some sphere, material := red, transform := glm.translate 0 0 0 }]
  let sphere1 ← a.m_models.at? "sphere"
  let blue ← a.m_materials.at? "blue_sphere"
  pure (pushed ++
    [{ model := some sphere1, material := blue, transform := glm.translate 2 0 0 }])

/-- The assignment `m_renderObjects[i].transform = t`. `std::vector::operator[]` does not
check its index; an index out of bounds is undefined behaviour, `none`. -/
def setTransform (m_renderObjects : List RenderObject) (i : Nat) (t : Mat4) :
    Option (List RenderObject) :=
  match m_renderObjects[i]? with
  | some o => some (m_renderObjects.set i { o with transform := t })
  | none => none

/-- The writes of `Application::updateUBOs` to the scene list (source lines 154-159);
`time` stands for the seconds since the first call. -/
def updateUBOs (time : Nat) (m_renderObjects : List RenderObject) :
    Option (List RenderObject) := do
  let rotated ← setTransform m_renderObjects 0 (glm.rotate time)
  setTransform rotated 1 (glm.translate 2 0 0)

/-- The vectors of render objects a call works on, each at its location in the store. -/
abbrev VectorStore := List (List RenderObject)

/-- `auto renderObjects = m_app.getRenderObjects();` with the vector of the application
at `src`: the initialiser is a `const std::vector<RenderObject>&` and `auto` deduces the
value type, so a new vector is copy-constructed from it. The result is the store with the
new vector, and the location of the new vector. -/
def VectorStore.declareAuto (st : VectorStore) (src : Nat) : VectorStore × Nat :=
  (st ++ [st.getD src []], st.length)

/-- `std::sort(v.begin(), v.end(), comp)` on the vector at `loc`: that vector is
rearranged in place, `sort` being the rearrangement the library makes. -/
def VectorStore.sortAt (sort : List RenderObject → List RenderObject) (st : VectorStore)
    (loc : Nat) : VectorStore :=
  st.set loc (sort (st.getD loc []))

/-- The end of the scope of the local declared last: its vector is destroyed. -/
def VectorStore.endScope (st : VectorStore) : VectorStore := st.dropLast

/-- `BasicCommandBuffers::recordCommands` as a step on the store, with the vector
`m_renderObjects` of the application at location `app`: after the begin, the local
`renderObjects` is declared, `std::sort` is applied to it, the loop reads it, and it is
destroyed at the end of the call. The result is the recording and the store after the
call. -/
def recordCommandsOn (gp : GraphicsPipeline) (sort : List RenderObject → List RenderObject)
    (st : VectorStore) (app : Nat) (cameraSet imageIndex : Nat) (beginOk endOk : Bool) :
    Recording × VectorStore :=
  if beginOk then
    let declared := st.declareAuto app
    let renderObjects := declared.2
    let st1 := VectorStore.sortAt sort declared.1 renderObjects
    (recordSorted gp cameraSet imageIndex endOk (st1.getD renderObjects []), st1.endScope)
  else (recordCommandsFrom gp cameraSet imageIndex false endOk [], st)

/-- The scene list over one call of `drawFrame` that records: `updateUBOs`, then
`recordCommands`, the list being the only vector of the store. A frame is the time and
the image index. -/
def sceneFrame (gp : GraphicsPipeline) (sort : List RenderObject → List RenderObject)
    (cameraSet : Nat) (m_renderObjects : List RenderObject) (frame : Nat × Nat) :
    Option (List RenderObject) := do
  let updated ← updateUBOs frame.1 m_renderObjects
  pure ((recordCommandsOn gp sort [updated] 0 cameraSet frame.2 true true).2.getD 0 [])

/-- The scene list over a sequence of frames. -/
def sceneFrames (gp : GraphicsPipeline) (sort : List RenderObject → List RenderObject)
    (cameraSet : Nat) : List RenderObject → List (Nat × Nat) → Option (List RenderObject)
  | objs, [] => some objs
  | objs, frame :: rest =>
    match sceneFrame gp sort cameraSet objs frame with
    | none => none
    | some objs1 => sceneFrames gp sort cameraSet objs1 rest

/-! ## `std::sort` as libstdc++ implements it -/

/-- The algorithm of `std::sort` in libstdc++ (`bits/stl_algo.h`), on a vector kept as a
list with positions for iterators: `__sort` runs `__introsort_loop`, which partitions
ranges of more than `_S_threshold = 16` elements around a median of three, and then
`__final_insertion_sort`. `lt` is the comparator. -/
structure LibstdcxxSort (α : Type) where
  lt : α → α → Bool

namespace LibstdcxxSort

/-- The constant `_S_threshold`. -/
def S_threshold : Nat := 16

/-- The call `__comp(i, j)` on two positions. -/
def compAt {α : Type} (c : LibstdcxxSort α) (v : List α) (i j : Nat) : Bool :=
  match v[i]?, v[j]? with
  | some a, some b => c.lt a b
  | _, _ => false

/-- The call `std::iter_swap(i, j)`. -/
def iterSwap {α : Type} (v : List α) (i j : Nat) : List α :=
  match v[i]?, v[j]? with
  | some a, some b => (v.set i b).set j a
  | _, _ => v

/-- `__move_median_to_first(result, a, b, c, comp)`. -/
def moveMedianToFirst {α : Type} (c : LibstdcxxSort α) (v : List α) (result a b cc : Nat) : List α :=
  if c.compAt v a b then
    if c.compAt v b cc then iterSwap v result b
    else if c.compAt v a cc then iterSwap v result cc
    else iterSwap v result a
  else if c.compAt v a cc then iterSwap v result a
  else if c.compAt v b cc then iterSwap v result cc
  else iterSwap v result b

/-- The loop `while (__comp(first, pivot)) ++first;`, given a bound on its steps. -/
def advanceFirst {α : Type} (c : LibstdcxxSort α) (v : List α) (pivot : Nat) : Nat → Nat → Nat
  | 0, first => first
  | fuel + 1, first =>
    if c.compAt v first pivot then advanceFirst c v pivot fuel (first + 1) else first

/-- The loop `while (__comp(pivot, last)) --last;`, given a bound on its steps. -/
def retreatLast {α : Type} (c : LibstdcxxSort α) (v : List α) (pivot : Nat) : Nat → Nat → Nat
  | 0, last => last
  | fuel + 1, last =>
    if c.compAt v pivot last then retreatLast c v pivot fuel (last - 1) else last

/-- `__unguarded_partition(first, last, pivot, comp)`, given a bound on the iterations of
its outer loop: the vector after the call and the position returned. -/
def unguardedPartition {α : Type} (c : LibstdcxxSort α) (pivot : Nat) :
    Nat → List α → Nat → Nat → List α × Nat
  | 0, v, first, _ => (v, first)
  | fuel + 1, v, first, last =>
    let first1 := advanceFirst c v pivot v.length first
    let last1 := retreatLast c v pivot v.length (last - 1)
    if first1 < last1 then
      unguardedPartition c pivot fuel (iterSwap v first1 last1) (first1 + 1) last1
    else (v, first1)

/-- `__unguarded_partition_pivot(first, last, comp)`. -/
def unguardedPartitionPivot {α : Type} (c : LibstdcxxSort α) (v : List α) (first last : Nat) :
    List α × Nat :=
  let mid := first + (last - first) / 2
  let v1 := moveMedianToFirst c v first (first + 1) mid (last - 1)
  unguardedPartition c first v1.length v1 (first + 1) last

/-- `__introsort_loop(first, last, depth_limit, comp)`, given a bound on the number of
partitions. The heap sort that takes over at `depth_limit == 0` is not modelled:
`none`. -/
def introsortLoop {α : Type} (c : LibstdcxxSort α) : Nat → List α → Nat → Nat → Nat → Option (List α)
  | 0, v, _, _, _ => some v
  | fuel + 1, v, first, last, depthLimit =>
    if last - first > S_threshold then
      if depthLimit = 0 then none
      else
        let cut := unguardedPartitionPivot c v first last
        match introsortLoop c fuel cut.1 cut.2 last (depthLimit - 1) with
        | none => none
        | some v1 => introsortLoop c fuel v1 first cut.2 (depthLimit - 1)
    else some v

/-- `__unguarded_linear_insert(last, comp)`: the element at `i` moves left past the
elements it compares less than; the guarded variant of `__insertion_sort` does the same
within a sorted prefix. -/
def linearInsert {α : Type} (c : LibstdcxxSort α) : Nat → List α → Nat → List α
  | 0, v, _ => v
  | fuel + 1, v, i =>
    if 0 < i ∧ c.compAt v i (i - 1) then linearInsert c fuel (iterSwap v i (i - 1)) (i - 1)
    else v

/-- `__final_insertion_sort(first, last, comp)` on the whole vector: `__insertion_sort` on
the first 16 elements and `__unguarded_insertion_sort` on the rest insert the elements
one after the other. -/
def finalInsertionSort {α : Type} (c : LibstdcxxSort α) (v : List α) : List α :=
  (List.range v.length).foldl (fun acc i => linearInsert c acc.length acc i) v

/-- `std::__lg(n)`: the position of the highest set bit, given a bound on the steps. -/
def lg : Nat → Nat → Nat
  | 0, _ => 0
  | fuel + 1, n => if 2 ≤ n then lg fuel (n / 2) + 1 else 0

/-- `std::__sort(first, last, comp)` on the whole vector. -/
def sort {α : Type} (c : LibstdcxxSort α) (v : List α) : Option (List α) :=
  if v.isEmpty then some v
  else
    match introsortLoop c v.length v 0 v.length (lg v.length v.length * 2) with
    | none => none
    | some v1 => some (finalInsertionSort c v1)

end LibstdcxxSort

/-- The comparator of `recordCommands`: `a.getSortKey() < b.getSortKey()`. -/
def sortKeyLess : LibstdcxxSort RenderObject :=
  { lt := fun a b => decide (a.getSortKey < b.getSortKey) }

/-! ## Example scenes -/

/-- A registry as `createPipelines` leaves it, with handles 11 to 16. -/
def exampleRegistry : GraphicsPipeline :=
  { m_pipelines := [("base", 11), ("sphere", 12)],
    m_pipelineLayouts := [("base", 13), ("sphere", 14)],
    m_descriptorSetLayouts := [("global", 15), ("material", 16)] }

/-- The sphere mesh of the application: 2880 indices, 561 vertices. -/
def sphereModel : Model :=
  { vertexBuffer := 21, indexBuffer := 22, m_indexCount := 2880, m_vertexCount := 561 }

/-- The red material: pipeline "sphere", descriptor set 31. -/
def redMaterial : Material :=
  { addrOfName := 4096, m_pipelineName := "sphere", m_materialDescriptorSet := 31 }

/-- The blue material: pipeline "sphere", descriptor set 32, at a higher address. -/
def blueMaterial : Material :=
  { addrOfName := 8192, m_pipelineName := "sphere", m_materialDescriptorSet := 32 }

/-- A material of the "base" pipeline stored between the two sphere materials. -/
def baseMaterial : Material :=
  { addrOfName := 6144, m_pipelineName := "base", m_materialDescriptorSet := 33 }

/-- The red sphere of `buildScene`. -/
def redSphere : RenderObject :=
  { model := some sphereModel, material := redMaterial, transform := [1] }

/-- The blue sphere of `buildScene`. -/
def blueSphere : RenderObject :=
  { model := some sphereModel, material := blueMaterial, transform := [2] }

/-- A full-screen object of the "base" pipeline, drawn without a mesh. -/
def background : RenderObject :=
  { model := none, material := baseMaterial, transform := [3] }

/-- Driver answers for a material on `twoTypeDriver`, mapped at 5000, with set 31. -/
def redDriver : MaterialDriver :=
  { uboBuffer := twoTypeDriver, mapResult := VK_SUCCESS, mapPointer := 5000,
    descriptorSet := some 31 }

/-- Driver answers for `loadAssets` in which everything succeeds except the allocation of
the camera descriptor set. -/
def cameraSetExhausted : LoadDriver :=
  { poolError := none, cameraBuffer := twoTypeDriver, cameraMapResult := VK_SUCCESS,
    cameraMapPointer := 4000, cameraSet := none, sphere := .ok sphereModel,
    red := redDriver, redAddr := 4096,
    blue := { redDriver with descriptorSet := some 32 }, blueAddr := 8192 }

/-- A material whose pipeline name was removed from the registry. -/
def staleMaterial : Material :=
  { addrOfName := 10240, m_pipelineName := "wireframe", m_materialDescriptorSet := 34 }

/-- A sphere drawn with the stale material. -/
def staleSphere : RenderObject :=
  { model := some sphereModel, material := staleMaterial, transform := [3] }

/-- Assets in which the blue material is stored at a lower address than the red one, so
that sorting by key puts the blue sphere first. -/
def blueFirstAssets : Assets :=
  { m_cameraUboBuffer := mappedBuffer, m_cameraDescriptorSet := 41,
    m_models := [("sphere", sphereModel)],
    m_materials := [("blue_sphere", { blueMaterial with addrOfName := 4096 }),
                    ("red_sphere", { redMaterial with addrOfName := 8192 })] }

/-- Seventeen spheres that share the red material, with the transforms 0 to 16. -/
def seventeenSpheres : List RenderObject :=
  (List.range 17).map (fun i => { redSphere with transform := [i] })

/-! ## Facts about command recording -/

theorem pipelineBindCount_append (a b : List Cmd) :
    pipelineBindCount (a ++ b) = pipelineBindCount a + pipelineBindCount b := by
  simp [pipelineBindCount]

theorem materialBindCount_append (a b : List Cmd) :
    materialBindCount (a ++ b) = materialBindCount a + materialBindCount b := by
  simp [materialBindCount]

theorem pipelineOf_eq_of_getPipeline {gp : GraphicsPipeline} {o : RenderObject} {p : Nat}
    (h : gp.getPipeline o.material.m_pipelineName = .ok p) : pipelineOf gp o = p := by
  unfold GraphicsPipeline.getPipeline at h
  unfold pipelineOf
  cases hl : gp.m_pipelines.at? o.material.m_pipelineName with
  | none => rw [hl] at h; cases h
  | some q => rw [hl] at h; cases h; rfl

theorem recordObject_ok {gp : GraphicsPipeline} {cam : Nat} {st : LoopState}
    {o : RenderObject} {p l : Nat}
    (hp : gp.getPipeline o.material.m_pipelineName = .ok p)
    (hl : gp.getLayout o.material.m_pipelineName = .ok l) :
    recordObject gp cam st o =
      .ok ((bindPipelineCmds cam p l st).1 ++
            (bindMaterialCmds l o.material.m_materialDescriptorSet
              (bindPipelineCmds cam p l st).2).1 ++ drawCmds l o,
          (bindMaterialCmds l o.material.m_materialDescriptorSet
            (bindPipelineCmds cam p l st).2).2) := by
  simp [recordObject, hp, hl]

theorem pipelineBindCount_bindPipelineCmds (cam p l : Nat) (st : LoopState) :
    pipelineBindCount (bindPipelineCmds cam p l st).1 = if p ≠ st.lastPipeline then 1 else 0 := by
  unfold bindPipelineCmds pipelineBindCount
  by_cases h : p = st.lastPipeline <;> by_cases hc : cam = VK_NULL_HANDLE <;>
    simp [h, hc, Cmd.isPipelineBind]

theorem pipelineBindCount_bindMaterialCmds (l m : Nat) (st : LoopState) :
    pipelineBindCount (bindMaterialCmds l m st).1 = 0 := by
  unfold bindMaterialCmds pipelineBindCount
  split <;> simp [Cmd.isPipelineBind]

theorem pipelineBindCount_drawCmds (l : Nat) (o : RenderObject) :
    pipelineBindCount (drawCmds l o) = 0 := by
  unfold drawCmds pipelineBindCount
  cases o.model <;> simp [Cmd.isPipelineBind]

theorem bindMaterialCmds_lastPipeline (l m : Nat) (st : LoopState) :
    (bindMaterialCmds l m st).2.lastPipeline = st.lastPipeline := by
  unfold bindMaterialCmds
  split <;> rfl

theorem bindPipelineCmds_lastPipeline (cam p l : Nat) (st : LoopState) :
    (bindPipelineCmds cam p l st).2.lastPipeline = p := by
  unfold bindPipelineCmds
  by_cases h : p = st.lastPipeline
  · simp [h]
  · simp [h]

theorem lastPipeline_after (cam p l m : Nat) (st : LoopState) :
    (bindMaterialCmds l m (bindPipelineCmds cam p l st).2).2.lastPipeline = p := by
  rw [bindMaterialCmds_lastPipeline, bindPipelineCmds_lastPipeline]

theorem recordLoop_pipelineBinds (gp : GraphicsPipeline) (cam : Nat) :
    ∀ (objs : List RenderObject) (st : LoopState), (∀ o ∈ objs, Registered gp o) →
      (recordLoop gp cam st objs).error = none ∧
      pipelineBindCount (recordLoop gp cam st objs).cmds + 1 =
        (List.destutter' (· ≠ ·) st.lastPipeline (objs.map (pipelineOf gp))).length := by
  intro objs
  induction objs with
  | nil => intro st _; simp [recordLoop, pipelineBindCount]
  | cons o rest ih =>
    intro st hreg
    obtain ⟨p, l, hp, _, hl⟩ := hreg o (List.mem_cons_self _ _)
    have hrest : ∀ x ∈ rest, Registered gp x := fun x hx => hreg x (List.mem_cons_of_mem _ hx)
    have hstep := @recordObject_ok gp cam st o p l hp hl
    have hih := ih (bindMaterialCmds l o.material.m_materialDescriptorSet
            (bindPipelineCmds cam p l st).2).2 hrest
    rw [lastPipeline_after] at hih
    simp only [recordLoop, hstep, List.map_cons, pipelineOf_eq_of_getPipeline hp]
    refine ⟨hih.1, ?_⟩
    rw [pipelineBindCount_append, pipelineBindCount_append, pipelineBindCount_append,
      pipelineBindCount_bindPipelineCmds, pipelineBindCount_bindMaterialCmds,
      pipelineBindCount_drawCmds, List.destutter'_cons]
    by_cases h : p = st.lastPipeline
    · have h2 : ¬ (st.lastPipeline ≠ p) := fun hh => hh h.symm
      have h3 : ¬ (p ≠ st.lastPipeline) := fun hh => hh h
      rw [if_neg h2, if_neg h3, ← h, ← hih.2]
      omega
    · have h2 : st.lastPipeline ≠ p := fun hh => h hh.symm
      rw [if_pos h2, if_pos h, List.length_cons, ← hih.2]
      omega


theorem materialBindCount_bindPipelineCmds (cam p l : Nat) (st : LoopState) :
    materialBindCount (bindPipelineCmds cam p l st).1 = 0 := by
  unfold bindPipelineCmds materialBindCount
  by_cases h : p = st.lastPipeline <;> by_cases hc : cam = VK_NULL_HANDLE <;>
    simp [h, hc, Cmd.isSetBind]

theorem materialBindCount_bindMaterialCmds (l m : Nat) (st : LoopState) :
    materialBindCount (bindMaterialCmds l m st).1 =
      if m ≠ st.lastMaterialSet ∧ m ≠ VK_NULL_HANDLE then 1 else 0 := by
  unfold bindMaterialCmds materialBindCount
  split <;> simp [Cmd.isSetBind]

theorem materialBindCount_drawCmds (l : Nat) (o : RenderObject) :
    materialBindCount (drawCmds l o) = 0 := by
  unfold drawCmds materialBindCount
  cases o.model <;> simp [Cmd.isSetBind]

theorem bindPipelineCmds_lastMaterialSet (cam p l : Nat) (st : LoopState) :
    (bindPipelineCmds cam p l st).2.lastMaterialSet = st.lastMaterialSet := by
  unfold bindPipelineCmds
  split <;> rfl

theorem bindMaterialCmds_lastMaterialSet (l m : Nat) (st : LoopState) :
    (bindMaterialCmds l m st).2.lastMaterialSet =
      if m ≠ st.lastMaterialSet ∧ m ≠ VK_NULL_HANDLE then m else st.lastMaterialSet := by
  unfold bindMaterialCmds
  split <;> rfl

theorem recordLoop_materialBinds (gp : GraphicsPipeline) (cam : Nat) :
    ∀ (objs : List RenderObject) (st : LoopState), (∀ o ∈ objs, Registered gp o) →
      materialBindCount (recordLoop gp cam st objs).cmds + 1 =
        (List.destutter' (· ≠ ·) st.lastMaterialSet
          ((objs.map materialSetOf).filter (fun s => s ≠ VK_NULL_HANDLE))).length := by
  intro objs
  induction objs with
  | nil => intro st _; simp [recordLoop, materialBindCount]
  | cons o rest ih =>
    intro st hreg
    obtain ⟨p, l, hp, _, hl⟩ := hreg o (List.mem_cons_self _ _)
    have hrest : ∀ x ∈ rest, Registered gp x := fun x hx => hreg x (List.mem_cons_of_mem _ hx)
    have hstep := @recordObject_ok gp cam st o p l hp hl
    have hih := ih (bindMaterialCmds l o.material.m_materialDescriptorSet
            (bindPipelineCmds cam p l st).2).2 hrest
    rw [bindMaterialCmds_lastMaterialSet, bindPipelineCmds_lastMaterialSet] at hih
    simp only [recordLoop, hstep, List.map_cons]
    rw [materialBindCount_append, materialBindCount_append, materialBindCount_append,
      materialBindCount_bindPipelineCmds, materialBindCount_bindMaterialCmds,
      materialBindCount_drawCmds, bindPipelineCmds_lastMaterialSet]
    by_cases hz : o.material.m_materialDescriptorSet = VK_NULL_HANDLE
    · have hc : ¬ (o.material.m_materialDescriptorSet ≠ st.lastMaterialSet ∧
          o.material.m_materialDescriptorSet ≠ VK_NULL_HANDLE) := fun hh => hh.2 hz
      rw [if_neg hc] at hih ⊢
      have hf : List.filter (fun s => decide (s ≠ VK_NULL_HANDLE))
          (materialSetOf o :: List.map materialSetOf rest) =
          List.filter (fun s => decide (s ≠ VK_NULL_HANDLE)) (List.map materialSetOf rest) := by
        apply List.filter_cons_of_neg
        simp [materialSetOf, hz]
      rw [hf, ← hih]
      omega
    · have hf : List.filter (fun s => decide (s ≠ VK_NULL_HANDLE))
          (materialSetOf o :: List.map materialSetOf rest) =
          materialSetOf o ::
            List.filter (fun s => decide (s ≠ VK_NULL_HANDLE)) (List.map materialSetOf rest) := by
        apply List.filter_cons_of_pos
        simp [materialSetOf, hz]
      rw [hf, List.destutter'_cons]
      by_cases he : o.material.m_materialDescriptorSet = st.lastMaterialSet
      · have hc : ¬ (o.material.m_materialDescriptorSet ≠ st.lastMaterialSet ∧
            o.material.m_materialDescriptorSet ≠ VK_NULL_HANDLE) := fun hh => hh.1 he
        rw [if_neg hc] at hih ⊢
        have h2 : ¬ (st.lastMaterialSet ≠ materialSetOf o) := fun hh => hh he.symm
        rw [if_neg h2, ← hih]
        omega
      · have hc : o.material.m_materialDescriptorSet ≠ st.lastMaterialSet ∧
            o.material.m_materialDescriptorSet ≠ VK_NULL_HANDLE := ⟨he, hz⟩
        rw [if_pos hc] at hih ⊢
        have h2 : st.lastMaterialSet ≠ materialSetOf o := fun hh => he hh.symm
        rw [if_pos h2, List.length_cons]
        rw [show materialSetOf o = o.material.m_materialDescriptorSet from rfl, ← hih]
        omega

theorem perm_pair_cases {α : Type} {a b : α} {l : List α} (h : l.Perm [a, b]) :
    l = [a, b] ∨ l = [b, a] := by
  have hlen := h.length_eq
  match l, hlen with
  | [x, y], _ =>
    have hx : x ∈ [a, b] := h.subset (List.mem_cons_self _ _)
    simp only [List.mem_cons, List.mem_singleton, List.not_mem_nil, or_false] at hx
    rcases hx with rfl | rfl
    · have h1 : [y].Perm [b] := (List.perm_cons x).1 h
      rw [List.perm_singleton] at h1
      left; simp [List.cons.inj h1]
    · have h1 : [x, y].Perm [x, a] := h.trans (List.Perm.swap _ _ _)
      have h2 : [y].Perm [a] := (List.perm_cons x).1 h1
      rw [List.perm_singleton] at h2
      right; simp [List.cons.inj h2]

theorem stdSort_isStdSortResult (objs : List RenderObject) :
    IsStdSortResult objs (stdSort objs) := by
  refine ⟨List.perm_insertionSort _ objs, ?_⟩
  have : IsTotal RenderObject (fun a b => a.getSortKey ≤ b.getSortKey) :=
    ⟨fun a b => Nat.le_total _ _⟩
  have : IsTrans RenderObject (fun a b => a.getSortKey ≤ b.getSortKey) :=
    ⟨fun a b c hab hbc => Nat.le_trans hab hbc⟩
  exact List.sorted_insertionSort (fun a b => a.getSortKey ≤ b.getSortKey) objs

theorem recordGlobalBind_ok (gp : GraphicsPipeline) (cam : Nat) (sorted : List RenderObject)
    (hreg : ∀ o ∈ sorted, Registered gp o) :
    ∃ g, recordGlobalBind gp cam sorted = .ok g ∧ ∀ c ∈ g, c.isSetBind 0 = true := by
  cases sorted with
  | nil => exact ⟨[], rfl, by simp⟩
  | cons first rest =>
    obtain ⟨p, l, _, _, hl⟩ := hreg first (List.mem_cons_self _ _)
    by_cases hc : cam = VK_NULL_HANDLE
    · exact ⟨[], by simp [recordGlobalBind, hc], by simp⟩
    · exact ⟨[Cmd.bindDescriptorSets l 0 cam], by simp [recordGlobalBind, hc, hl],
        by simp [Cmd.isSetBind]⟩

theorem recordSorted_cmds (gp : GraphicsPipeline) (cam i : Nat) (endOk : Bool)
    (sorted : List RenderObject) (hreg : ∀ o ∈ sorted, Registered gp o) :
    ∃ g, (∀ c ∈ g, c.isSetBind 0 = true) ∧
      (recordSorted gp cam i endOk sorted).cmds =
        Cmd.beginRenderPass i :: g ++ (recordLoop gp cam LoopState.init sorted).cmds ++
          [Cmd.endRenderPass] := by
  obtain ⟨g, hg, hall⟩ := recordGlobalBind_ok gp cam sorted hreg
  have herr := (recordLoop_pipelineBinds gp cam sorted LoopState.init hreg).1
  refine ⟨g, hall, ?_⟩
  simp [recordSorted, hg, herr]

theorem pipelineBindCount_of_setBinds (g : List Cmd) (h : ∀ c ∈ g, c.isSetBind 0 = true) :
    pipelineBindCount g = 0 := by
  unfold pipelineBindCount
  rw [List.length_eq_zero, List.filter_eq_nil_iff]
  intro c hc
  have := h c hc
  cases c <;> simp_all [Cmd.isSetBind, Cmd.isPipelineBind]

theorem materialBindCount_of_setBinds (g : List Cmd) (h : ∀ c ∈ g, c.isSetBind 0 = true) :
    materialBindCount g = 0 := by
  unfold materialBindCount
  rw [List.length_eq_zero, List.filter_eq_nil_iff]
  intro c hc
  have := h c hc
  cases c <;> simp_all [Cmd.isSetBind]

theorem recordSorted_pipelineBindCount (gp : GraphicsPipeline) (cam i : Nat) (endOk : Bool)
    (sorted : List RenderObject) (hreg : ∀ o ∈ sorted, Registered gp o) :
    pipelineBindCount (recordSorted gp cam i endOk sorted).cmds =
      pipelineBindCount (recordLoop gp cam LoopState.init sorted).cmds := by
  obtain ⟨g, hall, hc⟩ := recordSorted_cmds gp cam i endOk sorted hreg
  rw [hc, ← List.singleton_append, List.append_assoc, List.append_assoc,
    pipelineBindCount_append, pipelineBindCount_append, pipelineBindCount_append,
    pipelineBindCount_of_setBinds g hall]
  simp [pipelineBindCount, Cmd.isPipelineBind]

theorem recordSorted_materialBindCount (gp : GraphicsPipeline) (cam i : Nat) (endOk : Bool)
    (sorted : List RenderObject) (hreg : ∀ o ∈ sorted, Registered gp o) :
    materialBindCount (recordSorted gp cam i endOk sorted).cmds =
      materialBindCount (recordLoop gp cam LoopState.init sorted).cmds := by
  obtain ⟨g, hall, hc⟩ := recordSorted_cmds gp cam i endOk sorted hreg
  rw [hc, ← List.singleton_append, List.append_assoc, List.append_assoc,
    materialBindCount_append, materialBindCount_append, materialBindCount_append,
    materialBindCount_of_setBinds g hall]
  simp [materialBindCount, Cmd.isSetBind]

theorem pipelineOf_ne_null {gp : GraphicsPipeline} {o : RenderObject} (h : Registered gp o) :
    pipelineOf gp o ≠ VK_NULL_HANDLE := by
  obtain ⟨p, l, hp, hne, _⟩ := h
  rw [pipelineOf_eq_of_getPipeline hp]
  exact hne

theorem recordLoop_pipelineBindCount_eq_runCount (gp : GraphicsPipeline) (cam : Nat)
    (sorted : List RenderObject) (hreg : ∀ o ∈ sorted, Registered gp o) :
    pipelineBindCount (recordLoop gp cam LoopState.init sorted).cmds =
      runCount (sorted.map (pipelineOf gp)) := by
  have h := (recordLoop_pipelineBinds gp cam sorted LoopState.init hreg).2
  cases sorted with
  | nil => simp [recordLoop, pipelineBindCount, runCount]
  | cons o rest =>
    have hne : VK_NULL_HANDLE ≠ pipelineOf gp o :=
      fun hh => pipelineOf_ne_null (hreg o (List.mem_cons_self _ _)) hh.symm
    have h2 : (List.destutter' (· ≠ ·) LoopState.init.lastPipeline
        ((o :: rest).map (pipelineOf gp))).length =
        (List.destutter' (· ≠ ·) (pipelineOf gp o) (rest.map (pipelineOf gp))).length + 1 := by
      show (List.destutter' (· ≠ ·) VK_NULL_HANDLE
        (pipelineOf gp o :: rest.map (pipelineOf gp))).length = _
      rw [List.destutter'_cons, if_pos hne, List.length_cons]
    rw [h2] at h
    simp only [runCount, List.map_cons, List.destutter_cons']
    omega

/-- C1 (as stated, refuted): the scene of `buildScene`, two spheres that share the
pipeline "sphere" and have different materials, has two sort-key groups, and one pipeline
bind is recorded for it. -/
theorem C1_counterexample :
    pipelineBindCount
        (recordCommands exampleRegistry [redSphere, blueSphere] 41 0 true true).cmds ≠
      sortKeyGroups (stdSort [redSphere, blueSphere]) ∧
    pipelineBindCount
        (recordCommands exampleRegistry [redSphere, blueSphere] 41 0 true true).cmds = 1 ∧
    sortKeyGroups (stdSort [redSphere, blueSphere]) = 2 := by
  decide

/-- C1 (amended): when every pipeline name of the draw list is registered with a non-null
handle, the number of pipeline binds recorded equals the number of maximal runs of equal
pipeline handles in the sorted list; and two objects that share one material whose
descriptor set is non-null yield exactly 1 pipeline bind and 1 material-set bind. -/
theorem C1_pipeline_binds_are_pipeline_runs (gp : GraphicsPipeline)
    (cam imageIndex : Nat) (endOk : Bool) (scene sorted : List RenderObject)
    (hsort : IsStdSortResult scene sorted) (hreg : ∀ o ∈ scene, Registered gp o) :
    pipelineBindCount (recordCommandsFrom gp cam imageIndex true endOk sorted).cmds =
        runCount (sorted.map (pipelineOf gp)) ∧
      ∀ a b, scene = [a, b] → a.material = b.material →
        a.material.m_materialDescriptorSet ≠ VK_NULL_HANDLE →
        pipelineBindCount (recordCommandsFrom gp cam imageIndex true endOk sorted).cmds = 1 ∧
          materialBindCount (recordCommandsFrom gp cam imageIndex true endOk sorted).cmds = 1 := by
  have hreg1 : ∀ o ∈ sorted, Registered gp o := fun o ho => hreg o (hsort.1.subset ho)
  have hp : pipelineBindCount (recordCommandsFrom gp cam imageIndex true endOk sorted).cmds =
      runCount (sorted.map (pipelineOf gp)) := by
    simp only [recordCommandsFrom, if_true]
    rw [recordSorted_pipelineBindCount gp cam imageIndex endOk sorted hreg1,
      recordLoop_pipelineBindCount_eq_runCount gp cam sorted hreg1]
  refine ⟨hp, ?_⟩
  intro a b hscene hmat hset
  have hm : materialBindCount (recordCommandsFrom gp cam imageIndex true endOk sorted).cmds + 1 =
      (List.destutter' (· ≠ ·) VK_NULL_HANDLE
        ((sorted.map materialSetOf).filter (fun s => s ≠ VK_NULL_HANDLE))).length := by
    simp only [recordCommandsFrom, if_true]
    rw [recordSorted_materialBindCount gp cam imageIndex endOk sorted hreg1]
    exact recordLoop_materialBinds gp cam sorted LoopState.init hreg1
  have hperm : sorted.Perm [a, b] := hscene ▸ hsort.1
  have hsets : sorted.map materialSetOf =
      [a.material.m_materialDescriptorSet, a.material.m_materialDescriptorSet] := by
    rcases perm_pair_cases hperm with h | h <;> simp [h, materialSetOf, hmat]
  have hpipes : sorted.map (pipelineOf gp) = [pipelineOf gp a, pipelineOf gp a] := by
    rcases perm_pair_cases hperm with h | h <;> simp [h, pipelineOf, hmat]
  constructor
  · rw [hp, hpipes]
    simp [runCount, List.destutter, List.destutter']
  · rw [hsets] at hm
    have hne : VK_NULL_HANDLE ≠ a.material.m_materialDescriptorSet := fun hh => hset hh.symm
    simp [List.destutter', hset, hne] at hm
    exact hm

/-- C1 witness: two red spheres that share the red material. -/
theorem C1_pipeline_binds_are_pipeline_runs_witness :
    pipelineBindCount
        (recordCommandsFrom exampleRegistry 41 0 true true [redSphere, redSphere]).cmds = 1 ∧
      materialBindCount
        (recordCommandsFrom exampleRegistry 41 0 true true [redSphere, redSphere]).cmds = 1 :=
  (C1_pipeline_binds_are_pipeline_runs exampleRegistry 41 0 true [redSphere, redSphere]
      [redSphere, redSphere] ⟨List.Perm.refl _, by decide⟩
      (by
        intro o ho
        simp only [List.mem_cons, List.mem_singleton, List.not_mem_nil, or_false, or_self] at ho
        subst ho
        exact ⟨12, 14, rfl, by decide, rfl⟩)).2
    redSphere redSphere rfl rfl (by decide)

/-- C2 (as stated, refuted): for the red and the blue sphere with camera set 41 the
recorded binds and draws are not the claimed sequence, because the camera set is bound
twice; and when the object listed first has the larger sort key, the other object is
bound and drawn first. -/
theorem C2_counterexample :
    bindingSequence
        (recordCommands exampleRegistry [redSphere, blueSphere] 41 0 true true).cmds ≠
      [Cmd.bindDescriptorSets 14 0 41, Cmd.bindPipeline 12,
        Cmd.bindDescriptorSets 14 1 31, Cmd.drawIndexed 2880,
        Cmd.bindDescriptorSets 14 1 32, Cmd.drawIndexed 2880] ∧
    globalBindCount
        (recordCommands exampleRegistry [redSphere, blueSphere] 41 0 true true).cmds = 2 ∧
    bindingSequenceSansGlobal
        (recordCommands exampleRegistry [blueSphere, redSphere] 41 0 true true).cmds =
      [Cmd.bindPipeline 12,
        Cmd.bindDescriptorSets 14 1 31, Cmd.drawIndexed 2880,
        Cmd.bindDescriptorSets 14 1 32, Cmd.drawIndexed 2880] := by
  decide

theorem bindingSequenceSansGlobal_drawCmds (l : Nat) (o : RenderObject) :
    (drawCmds l o).filter (fun c => c.isBindOrDraw && !c.isSetBind 0) = [drawCmdOf o] := by
  unfold drawCmds drawCmdOf
  cases o.model <;> simp [Cmd.isBindOrDraw, Cmd.isSetBind]

theorem twoSpheres_sequence (gp : GraphicsPipeline) (cam imageIndex : Nat) (endOk : Bool)
    (X Y : RenderObject) (P L : Nat)
    (hX : X.material.m_pipelineName = "sphere") (hY : Y.material.m_pipelineName = "sphere")
    (hP : gp.getPipeline "sphere" = .ok P) (hPn : P ≠ VK_NULL_HANDLE)
    (hL : gp.getLayout "sphere" = .ok L)
    (hSx : X.material.m_materialDescriptorSet ≠ VK_NULL_HANDLE)
    (hSy : Y.material.m_materialDescriptorSet ≠ VK_NULL_HANDLE)
    (hne : X.material.m_materialDescriptorSet ≠ Y.material.m_materialDescriptorSet)
    (hcam : cam ≠ VK_NULL_HANDLE) :
    (bindingSequence (recordCommandsFrom gp cam imageIndex true endOk [X, Y]).cmds).head? =
        some (Cmd.bindDescriptorSets L 0 cam) ∧
      bindingSequenceSansGlobal (recordCommandsFrom gp cam imageIndex true endOk [X, Y]).cmds =
        [Cmd.bindPipeline P,
          Cmd.bindDescriptorSets L 1 X.material.m_materialDescriptorSet, drawCmdOf X,
          Cmd.bindDescriptorSets L 1 Y.material.m_materialDescriptorSet, drawCmdOf Y] := by
  have hPn2 : ¬ (P = VK_NULL_HANDLE) := hPn
  have hne2 : ¬ (Y.material.m_materialDescriptorSet = X.material.m_materialDescriptorSet) :=
    fun h => hne h.symm
  have e1 : recordObject gp cam LoopState.init X =
      .ok ([Cmd.bindPipeline P, Cmd.bindDescriptorSets L 0 cam,
            Cmd.bindDescriptorSets L 1 X.material.m_materialDescriptorSet] ++ drawCmds L X,
          { lastPipeline := P, lastLayout := L,
            lastMaterialSet := X.material.m_materialDescriptorSet }) := by
    rw [recordObject_ok (hX ▸ hP) (hX ▸ hL)]
    simp [bindPipelineCmds, bindMaterialCmds, LoopState.init, hPn2, hcam, hSx]
  have e2 : recordObject gp cam (LoopState.mk P L X.material.m_materialDescriptorSet) Y =
      .ok ([Cmd.bindDescriptorSets L 1 Y.material.m_materialDescriptorSet] ++ drawCmds L Y,
          { lastPipeline := P, lastLayout := L,
            lastMaterialSet := Y.material.m_materialDescriptorSet }) := by
    rw [recordObject_ok (hY ▸ hP) (hY ▸ hL)]
    simp [bindPipelineCmds, bindMaterialCmds, hne2, hSy]
  have e3 : recordGlobalBind gp cam [X, Y] = .ok [Cmd.bindDescriptorSets L 0 cam] := by
    simp [recordGlobalBind, hcam, hX, hL]
  have e4 : (recordCommandsFrom gp cam imageIndex true endOk [X, Y]).cmds =
      Cmd.beginRenderPass imageIndex :: Cmd.bindDescriptorSets L 0 cam ::
        Cmd.bindPipeline P :: Cmd.bindDescriptorSets L 0 cam ::
        Cmd.bindDescriptorSets L 1 X.material.m_materialDescriptorSet :: (drawCmds L X ++
        Cmd.bindDescriptorSets L 1 Y.material.m_materialDescriptorSet :: (drawCmds L Y ++
        [Cmd.endRenderPass])) := by
    simp [recordCommandsFrom, recordSorted, recordLoop, e1, e2, e3]
  rw [e4]
  constructor
  · simp [bindingSequence, Cmd.isBindOrDraw]
  · simp only [bindingSequenceSansGlobal, List.filter_cons, List.filter_append,
      bindingSequenceSansGlobal_drawCmds, List.filter_nil]
    simp [Cmd.isBindOrDraw, Cmd.isSetBind]

/-- C2 (amended): for the scene of two objects A and B that both name the pipeline
"sphere", registered with a non-null handle, with non-null and different material sets Sa
and Sb and a non-null camera set, the sorted list is A, B or B, A (it is A, B when the sort
key of A is the smaller one), and for the sorted order X, Y the recorded binds and draws
start with a bind of the camera set and are otherwise, binds of the camera set left aside:
bind pipeline "sphere" once, bind the set of X, draw X, bind the set of Y, draw Y. -/
theorem C2_two_spheres_binding_sequence (gp : GraphicsPipeline) (cam imageIndex : Nat)
    (endOk : Bool) (A B : RenderObject) (sorted : List RenderObject) (P L : Nat)
    (hA : A.material.m_pipelineName = "sphere") (hB : B.material.m_pipelineName = "sphere")
    (hP : gp.getPipeline "sphere" = .ok P) (hPn : P ≠ VK_NULL_HANDLE)
    (hL : gp.getLayout "sphere" = .ok L)
    (hSa : A.material.m_materialDescriptorSet ≠ VK_NULL_HANDLE)
    (hSb : B.material.m_materialDescriptorSet ≠ VK_NULL_HANDLE)
    (hne : A.material.m_materialDescriptorSet ≠ B.material.m_materialDescriptorSet)
    (hcam : cam ≠ VK_NULL_HANDLE)
    (hsort : IsStdSortResult [A, B] sorted) :
    (∃ X Y, sorted = [X, Y] ∧ ((X = A ∧ Y = B) ∨ (X = B ∧ Y = A)) ∧
      (bindingSequence (recordCommandsFrom gp cam imageIndex true endOk sorted).cmds).head? =
        some (Cmd.bindDescriptorSets L 0 cam) ∧
      bindingSequenceSansGlobal (recordCommandsFrom gp cam imageIndex true endOk sorted).cmds =
        [Cmd.bindPipeline P,
          Cmd.bindDescriptorSets L 1 X.material.m_materialDescriptorSet, drawCmdOf X,
          Cmd.bindDescriptorSets L 1 Y.material.m_materialDescriptorSet, drawCmdOf Y]) ∧
    (A.getSortKey < B.getSortKey → sorted = [A, B]) := by
  constructor
  · rcases perm_pair_cases hsort.1 with h | h
    · refine ⟨A, B, h, Or.inl ⟨rfl, rfl⟩, ?_⟩
      rw [h]
      exact twoSpheres_sequence gp cam imageIndex endOk A B P L hA hB hP hPn hL hSa hSb hne hcam
    · refine ⟨B, A, h, Or.inr ⟨rfl, rfl⟩, ?_⟩
      rw [h]
      exact twoSpheres_sequence gp cam imageIndex endOk B A P L hB hA hP hPn hL hSb hSa
        (fun hh => hne hh.symm) hcam
  · intro hlt
    rcases perm_pair_cases hsort.1 with h | h
    · exact h
    · have hpw := hsort.2
      rw [h] at hpw
      have hle : B.getSortKey ≤ A.getSortKey := by
        simpa using hpw
      omega

/-- C2 witness: the red and the blue sphere of `buildScene` with camera set 41. -/
theorem C2_two_spheres_binding_sequence_witness :
    (∃ X Y, stdSort [redSphere, blueSphere] = [X, Y] ∧
      ((X = redSphere ∧ Y = blueSphere) ∨ (X = blueSphere ∧ Y = redSphere)) ∧
      (bindingSequence (recordCommandsFrom exampleRegistry 41 0 true true
          (stdSort [redSphere, blueSphere])).cmds).head? =
        some (Cmd.bindDescriptorSets 14 0 41) ∧
      bindingSequenceSansGlobal (recordCommandsFrom exampleRegistry 41 0 true true
          (stdSort [redSphere, blueSphere])).cmds =
        [Cmd.bindPipeline 12,
          Cmd.bindDescriptorSets 14 1 X.material.m_materialDescriptorSet, drawCmdOf X,
          Cmd.bindDescriptorSets 14 1 Y.material.m_materialDescriptorSet, drawCmdOf Y]) ∧
    (redSphere.getSortKey < blueSphere.getSortKey →
      stdSort [redSphere, blueSphere] = [redSphere, blueSphere]) :=
  C2_two_spheres_binding_sequence exampleRegistry 41 0 true redSphere blueSphere
    (stdSort [redSphere, blueSphere]) 12 14 rfl rfl rfl (by decide) rfl (by decide) (by decide)
    (by decide) (by decide) (stdSort_isStdSortResult _)

/-- C3 (evaluation at the failing input): three materials stored at increasing addresses
that name "sphere", "base", "sphere" have strictly increasing sort keys, so the sorted
order is sphere, base, sphere: the two objects of the pipeline "sphere" are not
contiguous and three pipeline binds are recorded. -/
theorem C3_same_pipeline_not_contiguous :
    redSphere.getSortKey < background.getSortKey ∧
    background.getSortKey < blueSphere.getSortKey ∧
    (stdSort [redSphere, blueSphere, background]).map (fun o => o.material.m_pipelineName) =
      ["sphere", "base", "sphere"] ∧
    pipelineBindCount
      (recordCommands exampleRegistry [redSphere, blueSphere, background] 41 0 true true).cmds
        = 3 := by
  decide

/-! ## The sort key -/

theorem sortKeyOf_eq_of_lt (p m : Nat) (hp : p < 2 ^ 32) (hm : m < 2 ^ 32) :
    sortKeyOf p m = p * 2 ^ 32 + m := by
  unfold sortKeyOf
  have h1 : p % 2 ^ 64 = p := Nat.mod_eq_of_lt (by omega)
  have h2 : m % 2 ^ 64 = m := Nat.mod_eq_of_lt (by omega)
  have h3 : (p <<< 32) % 2 ^ 64 = p * 2 ^ 32 := by
    rw [Nat.shiftLeft_eq]
    exact Nat.mod_eq_of_lt (by omega)
  have h4 : p * 2 ^ 32 ||| m = p * 2 ^ 32 + m := by
    rw [Nat.mul_comm p (2 ^ 32)]
    exact (Nat.mul_add_lt_is_or hm p).symm
  rw [h1, h2, h3, h4]
  exact Nat.mod_eq_of_lt (by omega)

/-- C4 (as stated, refuted): with pipeline identity `2 ^ 32` the shift by 32 loses the
only set bit, so the key of `(2 ^ 32, 0)` is below the key of `(0, 1)` although the pair is
not lexicographically smaller. -/
theorem C4_counterexample :
    ¬ (sortKeyOf (2 ^ 32) 0 < sortKeyOf 0 1 ↔
        (2 ^ 32 < 0 ∨ ((2 : Nat) ^ 32 = 0 ∧ 0 < 1))) := by
  decide

/-- C4 (amended): for pipeline identities and material-set identities below `2 ^ 32`,
the key `(p << 32) | m` is smaller exactly when the pair is lexicographically smaller,
pipeline identity first. -/
theorem C4_sortKey_lex_below_two_pow_32 (pa pb ma mb : Nat)
    (hpa : pa < 2 ^ 32) (hpb : pb < 2 ^ 32) (hma : ma < 2 ^ 32) (hmb : mb < 2 ^ 32) :
    sortKeyOf pa ma < sortKeyOf pb mb ↔ (pa < pb ∨ (pa = pb ∧ ma < mb)) := by
  rw [sortKeyOf_eq_of_lt pa ma hpa hma, sortKeyOf_eq_of_lt pb mb hpb hmb]
  omega

/-- C4 witness: the pairs `(1, 7)` and `(2, 3)`. -/
theorem C4_sortKey_lex_below_two_pow_32_witness :
    (1 < 2 ^ 32 ∧ 2 < 2 ^ 32 ∧ 7 < 2 ^ 32 ∧ 3 < 2 ^ 32) ∧
      (sortKeyOf 1 7 < sortKeyOf 2 3 ↔ (1 < 2 ∨ (1 = 2 ∧ 7 < 3))) :=
  ⟨by decide,
    C4_sortKey_lex_below_two_pow_32 1 2 7 3 (by decide) (by decide) (by decide) (by decide)⟩

/-! ## The frame-fence invariant -/

theorem getD_set_bool (l : List Bool) (i j : Nat) (v d : Bool) :
    (l.set i v).getD j d = if i = j ∧ i < l.length then v else l.getD j d := by
  rw [List.getD_eq_getElem?_getD, List.getD_eq_getElem?_getD, List.getElem?_set]
  by_cases hij : i = j
  · subst hij
    by_cases hlt : i < l.length
    · simp [hlt]
    · have hn : l[i]? = none := by
        rw [List.getElem?_eq_none_iff]; omega
      simp [hlt, hn]
  · simp [hij]

theorem length_le_of_nodup_of_lt (l : List Nat) (n : Nat) (hnd : l.Nodup)
    (hlt : ∀ x ∈ l, x < n) : l.length ≤ n := by
  have hsub : l ⊆ List.range n := fun x hx => List.mem_range.2 (hlt x hx)
  have := (List.subperm_of_subset hnd hsub).length_le
  simpa using this

theorem FenceInv.pending_length_le {c : Nat} {fs : List Bool} {pend : List Submission}
    {peak : Nat} (h : FenceInv c fs pend peak) : pend.length ≤ MAX_FRAMES_IN_FLIGHT := by
  obtain ⟨_, _, hnd, hp, _⟩ := h
  have := length_le_of_nodup_of_lt (pend.map Submission.slot) MAX_FRAMES_IN_FLIGHT hnd
    (by
      intro x hx
      obtain ⟨p, hpm, rfl⟩ := List.mem_map.1 hx
      exact (hp p hpm).1)
  simpa using this

theorem length_foldl_set (pend : List Submission) (fs : List Bool) :
    (pend.foldl (fun fs p => fs.set p.slot true) fs).length = fs.length := by
  induction pend generalizing fs with
  | nil => rfl
  | cons p rest ih => simp [List.foldl_cons, ih]

theorem FrameLoop.init_inv (n : Nat) : (FrameLoop.init n).Inv := by
  simp [FrameLoop.Inv, FenceInv, FrameLoop.init, MAX_FRAMES_IN_FLIGHT]

theorem FrameLoop.complete_inv (s : FrameLoop) (slot : Nat) (h : s.Inv) :
    (s.complete slot).Inv ∧ (s.complete slot).NoPending slot := by
  obtain ⟨h1, h2, h3, h4, h5⟩ := h
  refine ⟨⟨h1, ?_, ?_, ?_, h5⟩, ?_⟩
  · simp [FrameLoop.complete, h2]
  · exact (List.filter_sublist _).map _ |>.nodup h3
  · intro p hp
    have hp1 : p ∈ s.pending := List.mem_of_mem_filter hp
    have hp2 : p.slot ≠ slot := by
      have := List.of_mem_filter hp
      simpa using this
    refine ⟨(h4 p hp1).1, ?_⟩
    show (s.fenceSignaled.set slot true).getD p.slot false = false
    rw [getD_set_bool]
    have : ¬ (slot = p.slot ∧ slot < s.fenceSignaled.length) := fun hh => hp2 hh.1.symm
    rw [if_neg this]
    exact (h4 p hp1).2
  · intro p hp
    have := List.of_mem_filter hp
    simpa using this

theorem FrameLoop.waitForFence_inv (s s1 : FrameLoop) (slot : Nat) (h : s.Inv)
    (hw : s.waitForFence slot = some s1) :
    s1.Inv ∧ s1.NoPending slot ∧ s1.currentFrame = s.currentFrame ∧
      (∀ c, s.NoPending c → s1.NoPending c) := by
  unfold FrameLoop.waitForFence at hw
  by_cases hs : s.fenceSignaled.getD slot false = true
  · rw [if_pos hs] at hw
    cases hw
    refine ⟨h, ?_, rfl, fun c hc => hc⟩
    intro p hp hslot
    have := (h.2.2.2.1 p hp).2
    rw [hslot, hs] at this
    cases this
  · rw [if_neg hs] at hw
    by_cases ha : (s.pending.any fun p => p.slot == slot) = true
    · rw [if_pos ha] at hw
      cases hw
      have := FrameLoop.complete_inv s slot h
      refine ⟨this.1, this.2, rfl, ?_⟩
      intro c hc p hp
      exact hc p (List.mem_of_mem_filter hp)
    · rw [if_neg ha] at hw
      cases hw

theorem FrameLoop.deviceWaitIdle_inv (s : FrameLoop) (h : s.Inv) :
    s.deviceWaitIdle.Inv ∧ s.deviceWaitIdle.pending = [] := by
  obtain ⟨h1, h2, _, _, h5⟩ := h
  refine ⟨⟨h1, ?_, ?_, ?_, h5⟩, rfl⟩
  · show (s.pending.foldl (fun fs p => fs.set p.slot true) s.fenceSignaled).length = _
    rw [length_foldl_set, h2]
  · exact List.nodup_nil
  · intro p hp
    cases hp

theorem FrameLoop.recreateSwapChain_inv (env : TickEnv) (s : FrameLoop) (h : s.Inv) :
    (FrameLoop.recreateSwapChain env s).1.Inv ∧
      ((FrameLoop.recreateSwapChain env s).2 = .returned →
        (FrameLoop.recreateSwapChain env s).1.pending = []) := by
  unfold FrameLoop.recreateSwapChain
  cases hsz : env.sizes with
  | nil => exact ⟨h, fun hh => by cases hh⟩
  | cons size later =>
    simp only
    by_cases hp : (FrameLoop.pollSize size later).2 = true
    · rw [if_pos hp]
      have hd := FrameLoop.deviceWaitIdle_inv
        { s with framebufferResized := true,
                 log := s.log ++ Action.framebufferSize size.1 size.2 ::
                   (FrameLoop.pollSize size later).1 } h
      cases hf : env.failingRebuild with
      | none => exact ⟨hd.1, fun _ => hd.2⟩
      | some k =>
        simp only
        by_cases hk : k < FrameLoop.rebuildSteps.length
        · rw [if_pos hk]; exact ⟨hd.1, fun hh => by cases hh⟩
        · rw [if_neg hk]; exact ⟨hd.1, fun _ => hd.2⟩
    · rw [if_neg hp]
      exact ⟨h, fun hh => by cases hh⟩

theorem mod_two_lt (c : Nat) : (c + 1) % MAX_FRAMES_IN_FLIGHT < MAX_FRAMES_IN_FLIGHT :=
  Nat.mod_lt _ (by decide)

theorem FrameLoop.presentAndAdvance_inv (env : TickEnv) (s : FrameLoop) (h : s.Inv) :
    (FrameLoop.presentAndAdvance env s).1.Inv := by
  unfold FrameLoop.presentAndAdvance
  simp only
  split
  · have hr := FrameLoop.recreateSwapChain_inv env (s.logged (.queuePresent env.imageIndex)) h
    split
    · next s2 heq =>
      rw [heq] at hr
      have hpend : s2.pending = [] := hr.2 rfl
      refine ⟨mod_two_lt _, ?_, ?_, ?_, hr.1.2.2.2.2⟩
      · simp [FrameLoop.syncObjectsRecreate]
      · show (s2.pending.map Submission.slot).Nodup
        rw [hpend]; exact List.nodup_nil
      · intro p hp
        have hp1 : p ∈ s2.pending := hp
        rw [hpend] at hp1
        cases hp1
    · next s2 out hne heq =>
      rw [heq] at hr
      exact hr.1
  · split
    · exact h
    · exact ⟨mod_two_lt _, h.2.1, h.2.2.1, h.2.2.2.1, h.2.2.2.2⟩

theorem FrameLoop.recordSubmitPresent_inv (env : TickEnv) (s : FrameLoop) (h : s.Inv)
    (hno : s.NoPending s.currentFrame) : (FrameLoop.recordSubmitPresent env s).1.Inv := by
  obtain ⟨h1, h2, h3, h4, h5⟩ := h
  have hreset : ∀ p ∈ s.pending, p.slot < MAX_FRAMES_IN_FLIGHT ∧
      (s.fenceSignaled.set s.currentFrame false).getD p.slot false = false := by
    intro p hp
    refine ⟨(h4 p hp).1, ?_⟩
    rw [getD_set_bool]
    split
    · rfl
    · exact (h4 p hp).2
  unfold FrameLoop.recordSubmitPresent
  simp only
  cases env.recordError with
  | some e => exact ⟨h1, h2, h3, h4, h5⟩
  | none =>
    simp only
    split
    · exact ⟨h1, by simp [FrameLoop.logged, h2], h3, hreset, h5⟩
    · apply FrameLoop.presentAndAdvance_inv
      have hinv : FenceInv s.currentFrame (s.fenceSignaled.set s.currentFrame false)
          (s.pending ++ [{ slot := s.currentFrame, image := env.imageIndex }])
          s.peakPending := by
        refine ⟨h1, by simp [h2], ?_, ?_, h5⟩
        · rw [List.map_append, List.nodup_append]
          refine ⟨h3, by simp, ?_⟩
          intro a ha hb
          obtain ⟨p, hp, rfl⟩ := List.mem_map.1 ha
          simp only [List.map_cons, List.map_nil, List.mem_singleton] at hb
          exact hno p hp hb
        · intro p hp
          rcases List.mem_append.1 hp with hp | hp
          · exact hreset p hp
          · simp only [List.mem_singleton] at hp
            subst hp
            refine ⟨h1, ?_⟩
            rw [getD_set_bool]
            have hc : s.currentFrame < s.fenceSignaled.length := by rw [h2]; exact h1
            simp [hc]
      refine ⟨hinv.1, hinv.2.1, hinv.2.2.1, hinv.2.2.2.1, ?_⟩
      exact max_le h5 hinv.pending_length_le

theorem FrameLoop.drawFrame_inv (env : TickEnv) (s : FrameLoop) (h : s.Inv) :
    (FrameLoop.drawFrame env s).1.Inv := by
  unfold FrameLoop.drawFrame
  cases hw : s.waitForFence s.currentFrame with
  | none => exact h
  | some s1 =>
    obtain ⟨hi1, hn1, hc1, _⟩ := FrameLoop.waitForFence_inv s s1 s.currentFrame h hw
    simp only
    split
    · exact (FrameLoop.recreateSwapChain_inv env
        (s1.logged (.acquireNextImage s1.currentFrame)) hi1).1
    · split
      · exact hi1
      · have hn1c : s1.NoPending s1.currentFrame := by rw [hc1]; exact hn1
        cases hwi : FrameLoop.waitForImage
            ((s1.logged (.acquireNextImage s1.currentFrame)).logged
              (.updateUBOs (s1.logged (.acquireNextImage s1.currentFrame)).currentFrame))
            env.imageIndex with
        | none => exact hi1
        | some s4 =>
          simp only
          have h4 : s4.Inv ∧ s4.NoPending s1.currentFrame ∧ s4.currentFrame = s1.currentFrame := by
            unfold FrameLoop.waitForImage at hwi
            split at hwi
            · next slot _ =>
              obtain ⟨a, _, c, d⟩ := FrameLoop.waitForFence_inv
                ((s1.logged (.acquireNextImage s1.currentFrame)).logged
                  (.updateUBOs (s1.logged (.acquireNextImage s1.currentFrame)).currentFrame))
                s4 slot hi1 hwi
              exact ⟨a, d _ hn1c, c⟩
            · cases hwi
              exact ⟨hi1, hn1c, rfl⟩
          apply FrameLoop.recordSubmitPresent_inv
          · exact h4.1
          · show ∀ p ∈ s4.pending, p.slot ≠ s4.currentFrame
            rw [h4.2.2]
            exact h4.2.1

theorem nodup_slots_eraseIdx (pend : List Submission) (k : Nat) (p : Submission)
    (hnd : (pend.map Submission.slot).Nodup) (hk : pend.get? k = some p) :
    ((pend.eraseIdx k).map Submission.slot).Nodup ∧
      ∀ q ∈ pend.eraseIdx k, q ∈ pend ∧ q.slot ≠ p.slot := by
  induction pend generalizing k with
  | nil => simp at hk
  | cons a rest ih =>
    rw [List.map_cons, List.nodup_cons] at hnd
    cases k with
    | zero =>
      simp only [List.get?_cons_zero, Option.some.injEq] at hk
      subst hk
      refine ⟨hnd.2, ?_⟩
      intro q hq
      simp only [List.eraseIdx_cons_zero] at hq
      refine ⟨List.mem_cons_of_mem _ hq, ?_⟩
      intro he
      exact hnd.1 (he ▸ List.mem_map_of_mem _ hq)
    | succ k =>
      simp only [List.get?_cons_succ] at hk
      obtain ⟨i1, i2⟩ := ih k hnd.2 hk
      simp only [List.eraseIdx_cons_succ, List.map_cons, List.nodup_cons]
      refine ⟨⟨?_, i1⟩, ?_⟩
      · intro hm
        obtain ⟨q, hq, hqa⟩ := List.mem_map.1 hm
        exact hnd.1 (hqa ▸ List.mem_map_of_mem _ (i2 q hq).1)
      · intro q hq
        rcases List.mem_cons.1 hq with rfl | hq
        · refine ⟨List.mem_cons_self _ _, ?_⟩
          intro he
          have hp : p ∈ rest := List.get?_mem hk
          exact hnd.1 (he ▸ List.mem_map_of_mem _ hp)
        · exact ⟨List.mem_cons_of_mem _ (i2 q hq).1, (i2 q hq).2⟩

theorem FrameLoop.step_inv (s : FrameLoop) (e : Event) (h : s.Inv) : (s.step e).Inv := by
  cases e with
  | tick env =>
    unfold FrameLoop.step
    simp only
    split
    · have hd := FrameLoop.drawFrame_inv env s h
      split
      · next s1 heq => rw [heq] at hd; exact hd
      · next s1 out hne heq => rw [heq] at hd; exact hd
    · exact h
  | gpuFinish k =>
    unfold FrameLoop.step
    simp only
    split
    · next p hk =>
      obtain ⟨h1, h2, h3, h4, h5⟩ := h
      obtain ⟨n1, n2⟩ := nodup_slots_eraseIdx s.pending k p h3 hk
      refine ⟨h1, by simp [h2], n1, ?_, h5⟩
      intro q hq
      refine ⟨(h4 q (n2 q hq).1).1, ?_⟩
      rw [getD_set_bool]
      have : ¬ (p.slot = q.slot ∧ p.slot < s.fenceSignaled.length) :=
        fun hh => (n2 q hq).2 hh.1.symm
      rw [if_neg this]
      exact (h4 q (n2 q hq).1).2
    · exact h
  | resize => exact h

theorem FrameLoop.run_inv (events : List Event) (s : FrameLoop) (h : s.Inv) :
    (s.run events).Inv := by
  induction events generalizing s with
  | nil => exact h
  | cons e rest ih => exact ih (s.step e) (FrameLoop.step_inv s e h)

/-- C5: in every state the frame loop reaches from its initial state by any sequence of
`drawFrame` calls (with any acquire, submit and present results), fence signals by the GPU
and resize requests, the number of frames submitted and not yet fence-signaled is at most
`MAX_FRAMES_IN_FLIGHT = 2`, and it never exceeded 2 on the way. -/
theorem C5_frames_in_flight_le_max (numImages : Nat) (events : List Event) :
    ((FrameLoop.init numImages).run events).framesInFlight ≤ MAX_FRAMES_IN_FLIGHT ∧
      ((FrameLoop.init numImages).run events).peakPending ≤ MAX_FRAMES_IN_FLIGHT ∧
      MAX_FRAMES_IN_FLIGHT = 2 := by
  have h := FrameLoop.run_inv events (FrameLoop.init numImages) (FrameLoop.init_inv numImages)
  exact ⟨h.pending_length_le, h.2.2.2.2, rfl⟩

/-! ## Recreation waits for a non-zero framebuffer size -/

theorem pollSize_spec : ∀ (later : List (Int × Int)) (size : Int × Int),
    (∀ a ∈ (FrameLoop.pollSize size later).1, a.isRebuild = false) ∧
    ((FrameLoop.pollSize size later).2 = true →
      ∃ w h, (sizesObserved (Action.framebufferSize size.1 size.2 ::
          (FrameLoop.pollSize size later).1)).getLast? = some (w, h) ∧ w ≠ 0 ∧ h ≠ 0) := by
  intro later
  induction later with
  | nil =>
    intro size
    refine ⟨by simp [FrameLoop.pollSize], ?_⟩
    intro h
    simp only [FrameLoop.pollSize, Bool.not_eq_true', FrameLoop.isZeroSize,
      Bool.or_eq_false_iff, beq_eq_false_iff_ne] at h
    exact ⟨size.1, size.2, by simp [FrameLoop.pollSize, sizesObserved, Action.observedSize],
      h.1, h.2⟩
  | cons next rest ih =>
    intro size
    obtain ⟨ih1, ih2⟩ := ih next
    unfold FrameLoop.pollSize
    by_cases hz : FrameLoop.isZeroSize size = true
    · rw [if_pos hz]
      refine ⟨?_, ?_⟩
      · intro a ha
        simp only [List.mem_cons] at ha
        rcases ha with rfl | rfl | ha
        · rfl
        · rfl
        · exact ih1 a ha
      · intro h
        obtain ⟨w, h1, hl, hw, hh⟩ := ih2 h
        refine ⟨w, h1, ?_, hw, hh⟩
        simp only [sizesObserved, List.filterMap_cons, Action.observedSize] at hl ⊢
        rw [List.getLast?_cons_cons]
        exact hl
    · rw [if_neg hz]
      refine ⟨by simp, ?_⟩
      intro _
      simp only [FrameLoop.isZeroSize, Bool.or_eq_true, beq_iff_eq, not_or] at hz
      exact ⟨size.1, size.2, by simp [sizesObserved, Action.observedSize], hz.1, hz.2⟩

theorem rebuildSteps_no_size : ∀ x ∈ FrameLoop.rebuildSteps, x.observedSize = none := by
  decide

theorem recreateSwapChain_log (env : TickEnv) (s : FrameLoop) :
    ∃ P T, (FrameLoop.recreateSwapChain env s).1.log = s.log ++ (P ++ T) ∧
      (∀ x ∈ P, x.isRebuild = false) ∧ (∀ x ∈ T, x.observedSize = none) ∧
      (T ≠ [] → ∃ w h, (sizesObserved P).getLast? = some (w, h) ∧ w ≠ 0 ∧ h ≠ 0) := by
  unfold FrameLoop.recreateSwapChain
  cases hsz : env.sizes with
  | nil => exact ⟨[], [], by simp, by simp, by simp, by simp⟩
  | cons size later =>
    obtain ⟨hp1, hp2⟩ := pollSize_spec later size
    have hP : ∀ x ∈ Action.framebufferSize size.1 size.2 :: (FrameLoop.pollSize size later).1,
        x.isRebuild = false := by
      intro x hx
      rcases List.mem_cons.1 hx with rfl | hx
      · rfl
      · exact hp1 x hx
    simp only
    by_cases hp : (FrameLoop.pollSize size later).2 = true
    · rw [if_pos hp]
      have hfull : ∀ x ∈ Action.deviceWaitIdle :: (FrameLoop.rebuildSteps ++
          [Action.renderPassCleanupOld, Action.swapChainCleanupOld]), x.observedSize = none := by
        decide
      cases hf : env.failingRebuild with
      | none =>
        refine ⟨_, Action.deviceWaitIdle :: (FrameLoop.rebuildSteps ++
          [Action.renderPassCleanupOld, Action.swapChainCleanupOld]), ?_, hP, hfull,
          fun _ => hp2 hp⟩
        simp [FrameLoop.deviceWaitIdle]
      | some k =>
        simp only
        by_cases hk : k < FrameLoop.rebuildSteps.length
        · rw [if_pos hk]
          refine ⟨_, Action.deviceWaitIdle :: FrameLoop.rebuildSteps.take (k + 1), ?_, hP, ?_,
            fun _ => hp2 hp⟩
          · simp [FrameLoop.deviceWaitIdle]
          · intro x hx
            rcases List.mem_cons.1 hx with rfl | hx
            · rfl
            · exact rebuildSteps_no_size x (List.mem_of_mem_take hx)
        · rw [if_neg hk]
          refine ⟨_, Action.deviceWaitIdle :: (FrameLoop.rebuildSteps ++
            [Action.renderPassCleanupOld, Action.swapChainCleanupOld]), ?_, hP, hfull,
            fun _ => hp2 hp⟩
          simp [FrameLoop.deviceWaitIdle]
    · rw [if_neg hp]
      exact ⟨_, [], by simp, hP, by simp, by simp⟩

theorem split_after_prefix (P : List Action) :
    ∀ (T before after : List Action) (a : Action), (∀ x ∈ P, x.isRebuild = false) →
      a.isRebuild = true → P ++ T = before ++ a :: after →
      ∃ T1, before = P ++ T1 ∧ T = T1 ++ a :: after := by
  induction P with
  | nil => intro T before after a _ _ h; exact ⟨before, rfl, h⟩
  | cons x P ih =>
    intro T before after a hP ha h
    cases before with
    | nil =>
      simp only [List.cons_append, List.nil_append, List.cons.injEq] at h
      have := hP x (List.mem_cons_self _ _)
      rw [h.1, ha] at this
      cases this
    | cons b before =>
      simp only [List.cons_append, List.cons.injEq] at h
      obtain ⟨T1, h1, h2⟩ := ih T before after a
        (fun y hy => hP y (List.mem_cons_of_mem _ hy)) ha h.2
      exact ⟨T1, by rw [h.1, h1]; rfl, h2⟩

/-- C6: in every run of `recreateSwapChain`, each rebuild call (swapchain, render pass,
pipeline registry, command buffers, interface) comes after a framebuffer-size observation,
and the size observed last before it has both components non-zero; so while the observed
size has a zero component no rebuild call is made. -/
theorem C6_no_rebuild_while_size_zero (env : TickEnv) (s : FrameLoop)
    (before after : List Action) (a : Action)
    (hlog : (FrameLoop.recreateSwapChain env s).1.log = s.log ++ before ++ a :: after)
    (ha : a.isRebuild = true) :
    ∃ w h, (sizesObserved before).getLast? = some (w, h) ∧ w ≠ 0 ∧ h ≠ 0 := by
  obtain ⟨P, T, hl, hP, hT, hlast⟩ := recreateSwapChain_log env s
  rw [hl, List.append_assoc] at hlog
  have hsplit := List.append_cancel_left hlog
  obtain ⟨T1, h1, h2⟩ := split_after_prefix P T before after a hP ha hsplit
  have hTne : T ≠ [] := by
    rw [h2]; simp
  obtain ⟨w, h, hwh, hw, hh⟩ := hlast hTne
  refine ⟨w, h, ?_, hw, hh⟩
  have hT1 : sizesObserved T1 = [] := by
    unfold sizesObserved
    rw [List.filterMap_eq_nil_iff]
    intro x hx
    exact hT x (by rw [h2]; exact List.mem_append_left _ hx)
  rw [h1]
  unfold sizesObserved at hT1 hwh ⊢
  rw [List.filterMap_append, hT1, List.append_nil]
  exact hwh

/-- C6 witness: the window reports (0, 0), then (0, 600), then (800, 600); the swapchain
is recreated after the size (800, 600) has been read. -/
theorem C6_no_rebuild_while_size_zero_witness :
    ∃ w h, (sizesObserved
        [Action.framebufferSize 0 0, Action.framebufferSize 0 600, Action.waitEvents,
          Action.framebufferSize 800 600, Action.waitEvents, Action.deviceWaitIdle]).getLast? =
          some (w, h) ∧ w ≠ 0 ∧ h ≠ 0 :=
  C6_no_rebuild_while_size_zero minimizedEnv (FrameLoop.init 3)
    [Action.framebufferSize 0 0, Action.framebufferSize 0 600, Action.waitEvents,
      Action.framebufferSize 800 600, Action.waitEvents, Action.deviceWaitIdle]
    [Action.renderPassRecreate, Action.graphicsPipelineRecreate,
      Action.commandBuffersRecreate, Action.interfaceRecreate,
      Action.renderPassCleanupOld, Action.swapChainCleanupOld]
    Action.swapChainRecreate (by decide) rfl

/-! ## Registry lookups -/

theorem StdMap.at?_eq_none_iff {V : Type} (m : StdMap V) (name : String) :
    m.at? name = none ↔ name ∉ m.keys := by
  unfold StdMap.at? StdMap.keys
  induction m with
  | nil => simp [List.lookup]
  | cons kv rest ih =>
    obtain ⟨k, v⟩ := kv
    by_cases h : name = k
    · subst h
      simp [List.lookup]
    · have hb : (name == k) = false := by simpa using h
      simp [List.lookup, hb, ih, h]

theorem StdMap.mem_of_at?_eq_some {V : Type} (m : StdMap V) (name : String) (v : V)
    (h : m.at? name = some v) : (name, v) ∈ m := by
  unfold StdMap.at? at h
  induction m with
  | nil => simp [List.lookup] at h
  | cons kv rest ih =>
    obtain ⟨k, w⟩ := kv
    by_cases hk : name = k
    · subst hk
      simp [List.lookup] at h
      subst h
      exact List.mem_cons_self _ _
    · have hb : (name == k) = false := by simpa using hk
      simp only [List.lookup, hb] at h
      exact List.mem_cons_of_mem _ (ih h)

theorem lookup_cases (m : StdMap Nat) (name : String) (what : String) :
    (name ∉ m.keys ∧
        (match m.at? name with
          | some h => (Except.ok h : Except Error Nat)
          | none => .error (.runtime_error (what ++ name))) =
          .error (.runtime_error (what ++ name))) ∨
      (name ∈ m.keys ∧ ∃ h,
        (match m.at? name with
          | some h => (Except.ok h : Except Error Nat)
          | none => .error (.runtime_error (what ++ name))) = .ok h ∧
        m.at? name = some h ∧ (name, h) ∈ m) := by
  cases hl : m.at? name with
  | none => exact Or.inl ⟨(StdMap.at?_eq_none_iff m name).1 hl, rfl⟩
  | some h =>
    refine Or.inr ⟨?_, h, rfl, rfl, StdMap.mem_of_at?_eq_some m name h hl⟩
    by_contra hn
    rw [← StdMap.at?_eq_none_iff, hl] at hn
    cases hn

/-- C7: for every name, each of `getPipeline`, `getLayout` and `getDescriptorSetLayout`
either throws its `std::runtime_error` and the name is not a key of its map, or the name
is a key and the getter returns the handle stored under it. The getters are functions of
the registry that return a value only, so the registry is the same after the call. -/
theorem C7_getters_fail_exactly_on_unregistered_names (gp : GraphicsPipeline)
    (name : String) :
    ((name ∉ gp.m_pipelines.keys ∧ gp.getPipeline name =
          .error (.runtime_error ("Failed to find pipeline: " ++ name))) ∨
      (name ∈ gp.m_pipelines.keys ∧ ∃ h, gp.getPipeline name = .ok h ∧
          gp.m_pipelines.at? name = some h ∧ (name, h) ∈ gp.m_pipelines)) ∧
    ((name ∉ gp.m_pipelineLayouts.keys ∧ gp.getLayout name =
          .error (.runtime_error ("Failed to find pipeline layout: " ++ name))) ∨
      (name ∈ gp.m_pipelineLayouts.keys ∧ ∃ h, gp.getLayout name = .ok h ∧
          gp.m_pipelineLayouts.at? name = some h ∧ (name, h) ∈ gp.m_pipelineLayouts)) ∧
    ((name ∉ gp.m_descriptorSetLayouts.keys ∧ gp.getDescriptorSetLayout name =
          .error (.runtime_error ("Failed to find descriptor set layout: " ++ name))) ∨
      (name ∈ gp.m_descriptorSetLayouts.keys ∧ ∃ h, gp.getDescriptorSetLayout name = .ok h ∧
          gp.m_descriptorSetLayouts.at? name = some h ∧
          (name, h) ∈ gp.m_descriptorSetLayouts)) :=
  ⟨lookup_cases gp.m_pipelines name "Failed to find pipeline: ",
    lookup_cases gp.m_pipelineLayouts name "Failed to find pipeline layout: ",
    lookup_cases gp.m_descriptorSetLayouts name "Failed to find descriptor set layout: "⟩

/-! ## Re-creation of the registry -/

theorem created_bind_ok {α : Type} (a : Option Nat) (w : String) (f : Nat → Except Error α)
    (r : α) : (created a w >>= f) = .ok r ↔ ∃ h, a = some h ∧ f h = .ok r := by
  cases a <;> simp [created, bind, Except.bind]

theorem createPipelines_empty_ok (d : PipelineDriver) (gp : GraphicsPipeline)
    (h : GraphicsPipeline.createPipelines d
      { m_pipelines := [], m_pipelineLayouts := [], m_descriptorSetLayouts := [] } = .ok gp) :
    ∃ g m bl bp sl sp, d.globalSetLayout = some g ∧ d.materialSetLayout = some m ∧
      d.basePipelineLayout = some bl ∧ d.basePipeline = some bp ∧
      d.spherePipelineLayout = some sl ∧ d.spherePipeline = some sp ∧
      gp = { m_pipelines := [("base", bp), ("sphere", sp)],
             m_pipelineLayouts := [("base", bl), ("sphere", sl)],
             m_descriptorSetLayouts := [("global", g), ("material", m)] } := by
  simp only [GraphicsPipeline.createPipelines, GraphicsPipeline.createBasePipeline,
    GraphicsPipeline.createSpherePipeline, bind_assoc, created_bind_ok, pure_bind] at h
  obtain ⟨g, hg, m, hm, _, _, _, _, bl, hbl, bp, hbp, _, _, _, _, sl, hsl, sp, hsp, h⟩ := h
  refine ⟨g, m, bl, bp, sl, sp, hg, hm, hbl, hbp, hsl, hsp, ?_⟩
  simp only [pure, Except.pure, Except.ok.injEq] at h
  rw [← h]
  simp [StdMap.assign]

theorem Built.shape (gp : GraphicsPipeline) (h : GraphicsPipeline.Built gp) :
    gp.m_pipelines.keys = ["base", "sphere"] ∧ gp.m_pipelineLayouts.keys = ["base", "sphere"] ∧
      gp.m_descriptorSetLayouts.keys = ["global", "material"] := by
  have key : ∀ d, GraphicsPipeline.createPipelines d
      { m_pipelines := [], m_pipelineLayouts := [], m_descriptorSetLayouts := [] } = .ok gp →
      gp.m_pipelines.keys = ["base", "sphere"] ∧
        gp.m_pipelineLayouts.keys = ["base", "sphere"] ∧
        gp.m_descriptorSetLayouts.keys = ["global", "material"] := by
    intro d hd
    obtain ⟨g, m, bl, bp, sl, sp, _, _, _, _, _, _, rfl⟩ := createPipelines_empty_ok d gp hd
    simp [StdMap.keys]
  cases h with
  | construct d _ hc => exact key d hc
  | recreate d gp0 _ _ hr => exact key d hr

/-- C8 (as stated, refuted): a driver that gives the new objects the handle values of the
destroyed ones leaves the registry as it was, so after a successful `recreate` the handle
stored under "sphere" is the one held before, although the old pipeline 12 was destroyed. -/
theorem C8_counterexample :
    GraphicsPipeline.Built exampleRegistry ∧
      (GraphicsPipeline.recreate reusingDriver exampleRegistry).result = .ok exampleRegistry ∧
      exampleRegistry.getPipeline "sphere" = .ok 12 ∧
      GraphicsPipeline.DestroyCall.vkDestroyPipeline 12 ∈
        (GraphicsPipeline.recreate reusingDriver exampleRegistry).destroyed :=
  ⟨GraphicsPipeline.Built.construct reusingDriver exampleRegistry rfl, rfl, rfl, by decide⟩

theorem getPipeline_ok_mem (gp : GraphicsPipeline) (name : String) (h : Nat)
    (hg : gp.getPipeline name = .ok h) : (name, h) ∈ gp.m_pipelines := by
  unfold GraphicsPipeline.getPipeline at hg
  rcases lookup_cases gp.m_pipelines name "Failed to find pipeline: " with
    ⟨_, he⟩ | ⟨_, h1, he, _, hmem⟩
  · rw [he] at hg
    cases hg
  · rw [he] at hg
    cases hg
    exact hmem

theorem getLayout_ok_mem (gp : GraphicsPipeline) (name : String) (h : Nat)
    (hg : gp.getLayout name = .ok h) : (name, h) ∈ gp.m_pipelineLayouts := by
  unfold GraphicsPipeline.getLayout at hg
  rcases lookup_cases gp.m_pipelineLayouts name "Failed to find pipeline layout: " with
    ⟨_, he⟩ | ⟨_, h1, he, _, hmem⟩
  · rw [he] at hg
    cases hg
  · rw [he] at hg
    cases hg
    exact hmem

/-- C8 (amended): a `recreate()` on a registry built by the constructor or by an earlier
successful `recreate()` first passes every pipeline handle it holds to `vkDestroyPipeline`
and every layout handle to `vkDestroyPipelineLayout` (four calls) and enters
`createPipelines` with all three maps empty. When it succeeds, the pipeline names, the
pipeline-layout names and the descriptor-set-layout names are the same as before the call,
and the registry is the one a fresh construction with the same driver answers yields: every
handle stored is the one the driver returned to a creation call of this run. -/
theorem C8_recreate_keeps_names_and_rebuilds (d : PipelineDriver)
    (gp gp1 : GraphicsPipeline) (hb : GraphicsPipeline.Built gp)
    (hr : (GraphicsPipeline.recreate d gp).result = .ok gp1) :
    (∀ name h, gp.getPipeline name = .ok h →
      GraphicsPipeline.DestroyCall.vkDestroyPipeline h ∈ (GraphicsPipeline.recreate d gp).destroyed) ∧
    (∀ name h, gp.getLayout name = .ok h →
      GraphicsPipeline.DestroyCall.vkDestroyPipelineLayout h ∈ (GraphicsPipeline.recreate d gp).destroyed) ∧
    (GraphicsPipeline.recreate d gp).destroyed.length = 4 ∧
    (GraphicsPipeline.recreate d gp).entered =
      { m_pipelines := [], m_pipelineLayouts := [], m_descriptorSetLayouts := [] } ∧
    gp1.m_pipelines.keys = gp.m_pipelines.keys ∧
    gp1.m_pipelineLayouts.keys = gp.m_pipelineLayouts.keys ∧
    gp1.m_descriptorSetLayouts.keys = gp.m_descriptorSetLayouts.keys ∧
    GraphicsPipeline.construct d = .ok gp1 ∧
    gp1.m_pipelines.at? "base" = d.basePipeline ∧
    gp1.m_pipelines.at? "sphere" = d.spherePipeline ∧
    gp1.m_pipelineLayouts.at? "base" = d.basePipelineLayout ∧
    gp1.m_pipelineLayouts.at? "sphere" = d.spherePipelineLayout ∧
    gp1.m_descriptorSetLayouts.at? "global" = d.globalSetLayout ∧
    gp1.m_descriptorSetLayouts.at? "material" = d.materialSetLayout := by
  have h0 := Built.shape gp hb
  have h1 := Built.shape gp1 (GraphicsPipeline.Built.recreate d gp gp1 hb hr)
  obtain ⟨g, m, bl, bp, sl, sp, hg, hm, hbl, hbp, hsl, hsp, hgp⟩ :=
    createPipelines_empty_ok d gp1 hr
  refine ⟨?_, ?_, ?_, rfl, by rw [h0.1, h1.1], by rw [h0.2.1, h1.2.1],
    by rw [h0.2.2, h1.2.2], hr, ?_⟩
  · intro name h hget
    exact List.mem_append_left _
      (List.mem_map.2 ⟨(name, h), getPipeline_ok_mem gp name h hget, rfl⟩)
  · intro name h hget
    exact List.mem_append_right _
      (List.mem_map.2 ⟨(name, h), getLayout_ok_mem gp name h hget, rfl⟩)
  · have e1 : gp.m_pipelines.length = 2 := by
      have := congrArg List.length h0.1
      simpa [StdMap.keys] using this
    have e2 : gp.m_pipelineLayouts.length = 2 := by
      have := congrArg List.length h0.2.1
      simpa [StdMap.keys] using this
    simp [GraphicsPipeline.recreate, e1, e2]
  · rw [hgp, hg, hm, hbl, hbp, hsl, hsp]
    simp [StdMap.at?, List.lookup]

/-- C8 witness: `exampleRegistry` rebuilt with fresh handle values; the old pipeline 12
is destroyed and "sphere" then names the new pipeline 52. -/
theorem C8_recreate_keeps_names_and_rebuilds_witness :
    ∃ gp1, (GraphicsPipeline.recreate freshDriver exampleRegistry).result = .ok gp1 ∧
      GraphicsPipeline.DestroyCall.vkDestroyPipeline 12 ∈
        (GraphicsPipeline.recreate freshDriver exampleRegistry).destroyed ∧
      gp1.m_pipelines.keys = exampleRegistry.m_pipelines.keys ∧
      gp1.m_pipelines.at? "sphere" = some 52 :=
  ⟨_, rfl,
    (C8_recreate_keeps_names_and_rebuilds freshDriver exampleRegistry _
      (GraphicsPipeline.Built.construct reusingDriver exampleRegistry rfl) rfl).1
        "sphere" 12 rfl,
    (C8_recreate_keeps_names_and_rebuilds freshDriver exampleRegistry _
      (GraphicsPipeline.Built.construct reusingDriver exampleRegistry rfl) rfl).2.2.2.2.1,
    (C8_recreate_keeps_names_and_rebuilds freshDriver exampleRegistry _
      (GraphicsPipeline.Built.construct reusingDriver exampleRegistry rfl) rfl
      ).2.2.2.2.2.2.2.2.2.1⟩

/-! ## Buffer: writes need a mapping, and land where they should -/

theorem runOps_append (w : BufferWorld) (a b : List BufferOp) :
    runOps w (a ++ b) =
      match runOps w a with
      | .error e => .error e
      | .ok w1 => runOps w1 b := by
  induction a generalizing w with
  | nil => rfl
  | cons op rest ih =>
    simp only [List.cons_append, runOps]
    cases op.apply w with
    | error e => rfl
    | ok w1 => exact ih w1

theorem unmap_ok_unmapped (w w1 : BufferWorld) (h : BufferOp.unmap.apply w = .ok w1) :
    w1.buffer.m_mapped = 0 := by
  unfold BufferOp.apply Buffer.unmap at h
  by_cases hm : w.buffer.m_mapped = 0
  · simp [hm] at h
  · simp only [hm, if_false] at h
    cases h
    rfl

theorem runOps_no_map_unmapped (mid : List BufferOp) :
    ∀ (w w1 : BufferWorld), w.buffer.m_mapped = 0 → (∀ op ∈ mid, op.isMap = false) →
      runOps w mid = .ok w1 → w1.buffer.m_mapped = 0 := by
  induction mid with
  | nil =>
    intro w w1 h0 _ hr
    cases hr
    exact h0
  | cons op rest _ =>
    intro w w1 h0 hmid hr
    have hop := hmid op (List.mem_cons_self _ _)
    cases op with
    | map size offset result ptr => cases hop
    | unmap => simp [runOps, BufferOp.apply, Buffer.unmap, h0] at hr
    | writeToBuffer data size offset =>
      simp [runOps, BufferOp.apply, Buffer.writeToBuffer, h0] at hr

/-- C9: in every sequence of `map`, `unmap` and `writeToBuffer` calls, a `writeToBuffer`
that follows an `unmap` with no `map` in between fails its assertion, so the run ends with
that error, and the host memory is what it was before the call. -/
theorem C9_write_after_unmap_rejected (w0 w1 : BufferWorld) (pre mid : List BufferOp)
    (data : Nat → Nat) (size offset : Nat)
    (hmid : ∀ op ∈ mid, op.isMap = false)
    (hrun : runOps w0 (pre ++ [BufferOp.unmap] ++ mid) = .ok w1) :
    w1.buffer.writeToBuffer w1.memory data size offset =
        .error (.assertion "Cannot write to an unmapped buffer! Call map() first.") ∧
      memoryAfterWrite w1.buffer w1.memory data size offset = w1.memory ∧
      ∃ e, runOps w0 (pre ++ [BufferOp.unmap] ++ mid ++
          [BufferOp.writeToBuffer data size offset]) = .error e := by
  have hnull : w1.buffer.m_mapped = 0 := by
    rw [List.append_assoc, runOps_append] at hrun
    cases hpre : runOps w0 pre with
    | error e => rw [hpre] at hrun; cases hrun
    | ok wa =>
      rw [hpre] at hrun
      simp only [List.singleton_append, runOps] at hrun
      cases hun : BufferOp.unmap.apply wa with
      | error e => rw [hun] at hrun; cases hrun
      | ok wb =>
        rw [hun] at hrun
        exact runOps_no_map_unmapped mid wb w1 (unmap_ok_unmapped wa wb hun) hmid hrun
  have hw : w1.buffer.writeToBuffer w1.memory data size offset =
      .error (.assertion "Cannot write to an unmapped buffer! Call map() first.") := by
    simp [Buffer.writeToBuffer, hnull]
  refine ⟨hw, ?_, ?_⟩
  · simp [memoryAfterWrite, hw]
  · rw [runOps_append, hrun]
    simp [runOps, BufferOp.apply, hw]

/-- C9 witness: map the 16-byte buffer, unmap it, write 4 bytes. -/
theorem C9_write_after_unmap_rejected_witness :
    Buffer.writeToBuffer { mappedBuffer with m_mapped := 0 } zeroMemory sampleData 4 0 =
        .error (.assertion "Cannot write to an unmapped buffer! Call map() first.") ∧
      memoryAfterWrite { mappedBuffer with m_mapped := 0 } zeroMemory sampleData 4 0 =
        zeroMemory ∧
      ∃ e, runOps { buffer := { mappedBuffer with m_mapped := 0 }, memory := zeroMemory }
        ([BufferOp.map VK_WHOLE_SIZE 0 VK_SUCCESS 1000] ++ [BufferOp.unmap] ++ [] ++
          [BufferOp.writeToBuffer sampleData 4 0]) = .error e :=
  C9_write_after_unmap_rejected
    { buffer := { mappedBuffer with m_mapped := 0 }, memory := zeroMemory }
    { buffer := { mappedBuffer with m_mapped := 0 }, memory := zeroMemory }
    [BufferOp.map VK_WHOLE_SIZE 0 VK_SUCCESS 1000] [] sampleData 4 0
    (by intro op hop; cases hop) rfl

/-- C10: for a mapped buffer and a range with `offset + size ≤ bufferSize`,
`writeToBuffer(data, size, offset)` succeeds, and afterwards the bytes at
`m_mapped + offset + i` for `i < size` are the first `size` bytes of `data`. -/
theorem C10_write_round_trip (b : Buffer) (mem : HostMemory) (data : Nat → Nat)
    (size offset : Nat) (hmapped : b.m_mapped ≠ 0) (hrange : offset + size ≤ b.m_bufferSize) :
    ∃ mem1, b.writeToBuffer mem data size offset = .ok mem1 ∧
      ∀ i, i < size → mem1 (b.m_mapped + offset + i) = data i := by
  refine ⟨memcpy mem (b.m_mapped + offset) data
    (if size = VK_WHOLE_SIZE then b.m_bufferSize else size),
    by simp [Buffer.writeToBuffer, hmapped], ?_⟩
  intro i hi
  have hle : size ≤ (if size = VK_WHOLE_SIZE then b.m_bufferSize else size) := by
    split <;> omega
  simp only [memcpy]
  rw [if_pos ⟨by omega, by omega⟩]
  congr 1
  omega

/-- C10 witness: 4 bytes written at offset 8 of the mapped 16-byte buffer. -/
theorem C10_write_round_trip_witness :
    ∃ mem1, mappedBuffer.writeToBuffer zeroMemory sampleData 4 8 = .ok mem1 ∧
      ∀ i, i < 4 → mem1 (mappedBuffer.m_mapped + 8 + i) = sampleData i :=
  C10_write_round_trip mappedBuffer zeroMemory sampleData 4 8 (by decide) (by decide)

/-! ## Buffer: range of a write, mapping state, memory types, construction -/

theorem runOps_mapped_iff (ops : List BufferOp) :
    ∀ (w0 w1 : BufferWorld) (m : Bool), (w0.buffer.m_mapped ≠ 0 ↔ m = true) →
      (∀ op ∈ ops, op.mapsToNonNull) → runOps w0 ops = .ok w1 →
      (w1.buffer.m_mapped ≠ 0 ↔ mappedAfter m ops = true) := by
  induction ops with
  | nil =>
    intro w0 w1 m hm _ hr
    cases hr
    exact hm
  | cons op rest ih =>
    intro w0 w1 m hm hptr hr
    have hrest : ∀ o ∈ rest, o.mapsToNonNull := fun o ho => hptr o (List.mem_cons_of_mem _ ho)
    have hop := hptr op (List.mem_cons_self _ _)
    cases op with
    | map size offset result ptr =>
      simp only [runOps, BufferOp.apply, Buffer.map] at hr
      by_cases h0 : w0.buffer.m_mapped = 0
      · simp only [h0, ne_eq, not_true_eq_false, if_false] at hr
        have hmf : m = false := by
          cases m with
          | false => rfl
          | true => exact absurd (hm.2 rfl) (by simp [h0])
        subst hmf
        refine ih _ w1 _ ?_ hrest hr
        by_cases hres : result = VK_SUCCESS
        · simp [hres, hop hres]
        · simp [hres, h0]
      · simp [h0] at hr
    | unmap =>
      simp only [runOps, BufferOp.apply, Buffer.unmap] at hr
      by_cases h0 : w0.buffer.m_mapped = 0
      · simp [h0] at hr
      · simp only [h0, if_false] at hr
        exact ih _ w1 false (by simp) hrest hr
    | writeToBuffer data size offset =>
      simp only [runOps, BufferOp.apply, Buffer.writeToBuffer] at hr
      by_cases h0 : w0.buffer.m_mapped = 0
      · simp [h0] at hr
      · simp only [h0, if_false] at hr
        exact ih _ w1 m (by exact hm) hrest hr

/-- C12: over every sequence of `map`, `unmap` and `writeToBuffer` calls on a buffer that
starts unmapped, with the driver storing a non-null pointer on each successful
`vkMapMemory`, the mapped pointer is non-null after the sequence exactly when the
sequence leaves the buffer between a successful `map` and the next `unmap`; and `map` on
a mapped buffer fails its assertion, so the mapping is not replaced. -/
theorem C12_mapped_pointer_tracks_map_unmap (w0 w1 : BufferWorld) (ops : List BufferOp)
    (size offset : Nat) (result : Int) (ptr : Nat)
    (hstart : w0.buffer.m_mapped = 0)
    (hptr : ∀ op ∈ ops, op.mapsToNonNull)
    (hrun : runOps w0 ops = .ok w1) :
    (w1.buffer.m_mapped ≠ 0 ↔ mappedAfter false ops = true) ∧
    (w1.buffer.m_mapped ≠ 0 →
      w1.buffer.map size offset result ptr = .error (.assertion "Buffer is already mapped!") ∧
      ∃ e, runOps w0 (ops ++ [BufferOp.map size offset result ptr]) = .error e) := by
  refine ⟨runOps_mapped_iff ops w0 w1 false (by simp [hstart]) hptr hrun, ?_⟩
  intro hm
  have hmap : w1.buffer.map size offset result ptr =
      .error (.assertion "Buffer is already mapped!") := by
    simp [Buffer.map, hm]
  refine ⟨hmap, ?_⟩
  rw [runOps_append, hrun]
  simp [runOps, BufferOp.apply, hmap]

/-- C12 witness: map, write, unmap, map again; the buffer ends mapped at 2000 and a
further `map` is rejected. -/
theorem C12_mapped_pointer_tracks_map_unmap_witness :
    ((2000 : Nat) ≠ 0 ↔ mappedAfter false
        [BufferOp.map VK_WHOLE_SIZE 0 VK_SUCCESS 1000, BufferOp.writeToBuffer sampleData 4 0,
          BufferOp.unmap, BufferOp.map VK_WHOLE_SIZE 0 VK_SUCCESS 2000] = true) ∧
    ((2000 : Nat) ≠ 0 →
      Buffer.map { mappedBuffer with m_mapped := 2000 } VK_WHOLE_SIZE 0 VK_SUCCESS 3000 =
        .error (.assertion "Buffer is already mapped!") ∧
      ∃ e, runOps { buffer := { mappedBuffer with m_mapped := 0 }, memory := zeroMemory }
        ([BufferOp.map VK_WHOLE_SIZE 0 VK_SUCCESS 1000, BufferOp.writeToBuffer sampleData 4 0,
          BufferOp.unmap, BufferOp.map VK_WHOLE_SIZE 0 VK_SUCCESS 2000] ++
          [BufferOp.map VK_WHOLE_SIZE 0 VK_SUCCESS 3000]) = .error e) :=
  C12_mapped_pointer_tracks_map_unmap
    { buffer := { mappedBuffer with m_mapped := 0 }, memory := zeroMemory }
    { buffer := { mappedBuffer with m_mapped := 2000 },
      memory := memcpy zeroMemory 1000 sampleData 4 }
    [BufferOp.map VK_WHOLE_SIZE 0 VK_SUCCESS 1000, BufferOp.writeToBuffer sampleData 4 0,
      BufferOp.unmap, BufferOp.map VK_WHOLE_SIZE 0 VK_SUCCESS 2000]
    VK_WHOLE_SIZE 0 VK_SUCCESS 3000 rfl
    (by
      intro op hop
      simp only [List.mem_cons, List.mem_singleton, List.not_mem_nil, or_false] at hop
      rcases hop with rfl | rfl | rfl | rfl
      · intro _; decide
      · trivial
      · trivial
      · intro _; decide)
    rfl

theorem and_one_shiftLeft_ne_zero_iff (x i : Nat) :
    ((x &&& (1 <<< i)) != 0) = true ↔ x.testBit i = true := by
  rw [Nat.one_shiftLeft, bne_iff_ne]
  constructor
  · intro h
    obtain ⟨j, hj⟩ := Nat.ne_zero_implies_bit_true h
    rw [Nat.testBit_and, Nat.testBit_two_pow, Bool.and_eq_true, decide_eq_true_eq] at hj
    rw [hj.2]
    exact hj.1
  · intro h h0
    have := congrArg (fun y => Nat.testBit y i) h0
    simp only [Nat.testBit_and, Nat.testBit_two_pow_self, Nat.zero_testBit, h,
      Bool.and_self] at this
    cases this

theorem and_eq_right_iff_bits (flags properties : Nat) :
    ((flags &&& properties) == properties) = true ↔
      ∀ k, properties.testBit k = true → flags.testBit k = true := by
  rw [beq_iff_eq]
  constructor
  · intro h k hk
    have := congrArg (fun y => Nat.testBit y k) h
    simp only [Nat.testBit_and, hk, Bool.and_true] at this
    exact this
  · intro h
    apply Nat.eq_of_testBit_eq
    intro k
    rw [Nat.testBit_and]
    cases hp : properties.testBit k with
    | false => simp
    | true => simp [h k hp]

theorem memoryTypeMatches_iff (typeFilter properties i flags : Nat) :
    memoryTypeMatches typeFilter properties i flags = true ↔
      (typeFilter.testBit i = true ∧
        ∀ k, properties.testBit k = true → flags.testBit k = true) := by
  unfold memoryTypeMatches
  rw [Bool.and_eq_true, and_one_shiftLeft_ne_zero_iff, and_eq_right_iff_bits]

theorem findMemoryTypeLoop_eq_some (typeFilter properties : Nat) (l : List Nat) :
    ∀ (i r : Nat), findMemoryTypeLoop typeFilter properties i l = some r ↔
      ∃ j, r = i + j ∧ j < l.length ∧
        memoryTypeMatches typeFilter properties (i + j) (l.getD j 0) = true ∧
        ∀ j1, j1 < j → memoryTypeMatches typeFilter properties (i + j1) (l.getD j1 0) = false := by
  induction l with
  | nil => intro i r; simp [findMemoryTypeLoop]
  | cons f rest ih =>
    intro i r
    unfold findMemoryTypeLoop
    by_cases hm : memoryTypeMatches typeFilter properties i f = true
    · rw [if_pos hm]
      constructor
      · intro h
        cases h
        exact ⟨0, rfl, by simp, by simpa using hm, by intro j1 hj; omega⟩
      · rintro ⟨j, hr, _, _, hall⟩
        cases j with
        | zero => simp [hr]
        | succ j =>
          have := hall 0 (by omega)
          simp only [Nat.add_zero, List.getD_cons_zero] at this
          rw [this] at hm
          cases hm
    · rw [if_neg hm, ih (i + 1) r]
      have hmf : memoryTypeMatches typeFilter properties i f = false := by
        simpa using hm
      constructor
      · rintro ⟨j, hr, hj, hmj, hall⟩
        refine ⟨j + 1, by omega, by simp; omega, ?_, ?_⟩
        · rw [List.getD_cons_succ, show i + (j + 1) = i + 1 + j by omega]
          exact hmj
        · intro j1 hj1
          cases j1 with
          | zero => simpa using hmf
          | succ j1 =>
            rw [List.getD_cons_succ, show i + (j1 + 1) = i + 1 + j1 by omega]
            exact hall j1 (by omega)
      · rintro ⟨j, hr, hj, hmj, hall⟩
        cases j with
        | zero =>
          simp only [Nat.add_zero, List.getD_cons_zero] at hmj
          rw [hmj] at hmf
          cases hmf
        | succ j =>
          refine ⟨j, by omega, by simpa using hj, ?_, ?_⟩
          · rw [List.getD_cons_succ, show i + (j + 1) = i + 1 + j by omega] at hmj
            exact hmj
          · intro j1 hj1
            have := hall (j1 + 1) (by omega)
            rw [List.getD_cons_succ, show i + (j1 + 1) = i + 1 + j1 by omega] at this
            exact this

theorem findMemoryTypeLoop_eq_none (typeFilter properties : Nat) (l : List Nat) :
    ∀ (i : Nat), findMemoryTypeLoop typeFilter properties i l = none ↔
      ∀ j, j < l.length →
        memoryTypeMatches typeFilter properties (i + j) (l.getD j 0) = false := by
  induction l with
  | nil => intro i; simp [findMemoryTypeLoop]
  | cons f rest ih =>
    intro i
    unfold findMemoryTypeLoop
    by_cases hm : memoryTypeMatches typeFilter properties i f = true
    · rw [if_pos hm]
      constructor
      · intro h; cases h
      · intro h
        have := h 0 (by simp)
        simp only [Nat.add_zero, List.getD_cons_zero] at this
        rw [this] at hm
        cases hm
    · rw [if_neg hm, ih (i + 1)]
      have hmf : memoryTypeMatches typeFilter properties i f = false := by
        simpa using hm
      constructor
      · intro h j hj
        cases j with
        | zero => simpa using hmf
        | succ j =>
          rw [List.getD_cons_succ, show i + (j + 1) = i + 1 + j by omega]
          exact h j (by simpa using hj)
      · intro h j hj
        have := h (j + 1) (by simp; omega)
        rw [List.getD_cons_succ, show i + (j + 1) = i + 1 + j by omega] at this
        exact this

theorem suitable_iff_matches (memoryTypes : List Nat) (typeFilter properties i : Nat) :
    SuitableMemoryType memoryTypes typeFilter properties i ↔
      memoryTypeMatches typeFilter properties i (memoryTypes.getD i 0) = true := by
  rw [memoryTypeMatches_iff]
  rfl

/-- C13: `findMemoryType(typeFilter, properties)` returns `i` exactly when `i` is the least
index below `memoryTypeCount` such that bit `i` of `typeFilter` is set and the flags of
memory type `i` contain every bit of `properties`; it throws its `std::runtime_error`
exactly when no index below `memoryTypeCount` is such. -/
theorem C13_findMemoryType_least_suitable (memoryTypes : List Nat)
    (typeFilter properties : Nat) :
    (∀ i, Buffer.findMemoryType memoryTypes typeFilter properties = .ok i ↔
      (i < memoryTypes.length ∧ SuitableMemoryType memoryTypes typeFilter properties i ∧
        ∀ j, j < i → ¬ SuitableMemoryType memoryTypes typeFilter properties j)) ∧
    (Buffer.findMemoryType memoryTypes typeFilter properties =
        .error (.runtime_error "Failed to find suitable memory type!") ↔
      ∀ i, i < memoryTypes.length →
        ¬ SuitableMemoryType memoryTypes typeFilter properties i) := by
  constructor
  · intro i
    have hs := findMemoryTypeLoop_eq_some typeFilter properties memoryTypes 0 i
    simp only [Nat.zero_add] at hs
    have hfm : Buffer.findMemoryType memoryTypes typeFilter properties = .ok i ↔
        findMemoryTypeLoop typeFilter properties 0 memoryTypes = some i := by
      unfold Buffer.findMemoryType
      cases findMemoryTypeLoop typeFilter properties 0 memoryTypes <;> simp
    rw [hfm, hs]
    constructor
    · rintro ⟨j, rfl, hj, hm, hall⟩
      refine ⟨hj, (suitable_iff_matches _ _ _ _).2 hm, ?_⟩
      intro j1 hj1 hsu
      have := hall j1 hj1
      rw [(suitable_iff_matches _ _ _ _).1 hsu] at this
      cases this
    · rintro ⟨hi, hsu, hall⟩
      refine ⟨i, rfl, hi, (suitable_iff_matches _ _ _ _).1 hsu, ?_⟩
      intro j1 hj1
      have := hall j1 hj1
      rw [suitable_iff_matches] at this
      simpa using this
  · have hn := findMemoryTypeLoop_eq_none typeFilter properties memoryTypes 0
    simp only [Nat.zero_add] at hn
    have hfm : Buffer.findMemoryType memoryTypes typeFilter properties =
        .error (.runtime_error "Failed to find suitable memory type!") ↔
        findMemoryTypeLoop typeFilter properties 0 memoryTypes = none := by
      unfold Buffer.findMemoryType
      cases findMemoryTypeLoop typeFilter properties 0 memoryTypes <;> simp
    rw [hfm, hn]
    constructor
    · intro h i hi hsu
      have := h i hi
      rw [(suitable_iff_matches _ _ _ _).1 hsu] at this
      cases this
    · intro h i hi
      have := h i hi
      rw [suitable_iff_matches] at this
      simpa using this

/-- C14 (evaluation at the failing inputs): when no memory type fits, when the allocation
fails and when the bind fails, the constructor of `Buffer` throws and the buffer handle 71
is still live; in the last case the allocation 72 is live too. -/
theorem C14_failed_construction_leaves_handles :
    (Buffer.construct deviceLocalOnlyDriver 64 16 6).result =
        .error (.runtime_error "Failed to find suitable memory type!") ∧
      (Buffer.construct deviceLocalOnlyDriver 64 16 6).liveBuffers = [71] ∧
    (Buffer.construct { twoTypeDriver with allocateMemory := none } 64 16 6).result =
        .error (.runtime_error "Failed to allocate buffer memory!") ∧
      (Buffer.construct { twoTypeDriver with allocateMemory := none } 64 16 6).liveBuffers =
        [71] ∧
    (Buffer.construct { twoTypeDriver with bindOk := false } 64 16 6).result =
        .error (.runtime_error "Failed to bind buffer memory!") ∧
      (Buffer.construct { twoTypeDriver with bindOk := false } 64 16 6).liveBuffers = [71] ∧
      (Buffer.construct { twoTypeDriver with bindOk := false } 64 16 6).liveMemory = [72] :=
  ⟨rfl, rfl, rfl, rfl, rfl, rfl, rfl⟩

/-! ## The frame loop: stale acquire, present results, rebuilt synchronization objects -/

theorem pollSize_no_frameWork : ∀ (later : List (Int × Int)) (size : Int × Int),
    ∀ a ∈ (FrameLoop.pollSize size later).1, a.isFrameWork = false := by
  intro later
  induction later with
  | nil => intro size a ha; simp [FrameLoop.pollSize] at ha
  | cons next rest ih =>
    intro size a ha
    unfold FrameLoop.pollSize at ha
    split at ha
    · simp only [List.mem_cons] at ha
      rcases ha with rfl | rfl | ha
      · rfl
      · rfl
      · exact ih next a ha
    · cases ha

theorem rebuildSteps_no_frameWork : ∀ x ∈ FrameLoop.rebuildSteps, x.isFrameWork = false := by
  decide

theorem recreateSwapChain_effect (env : TickEnv) (s : FrameLoop) :
    (∃ added, (FrameLoop.recreateSwapChain env s).1.log = s.log ++ added ∧
      ∀ a ∈ added, a.isFrameWork = false) ∧
    (FrameLoop.recreateSwapChain env s).1.currentFrame = s.currentFrame ∧
    (FrameLoop.recreateSwapChain env s).1.peakPending = s.peakPending ∧
    (FrameLoop.recreateSwapChain env s).1.imageInFlight = s.imageInFlight ∧
    (FrameLoop.recreateSwapChain env s).1.framebufferResized = true ∧
    ((FrameLoop.recreateSwapChain env s).1.pending = s.pending ∨
      (FrameLoop.recreateSwapChain env s).1.pending = []) := by
  unfold FrameLoop.recreateSwapChain
  cases hsz : env.sizes with
  | nil => exact ⟨⟨[], by simp, by simp⟩, rfl, rfl, rfl, rfl, Or.inl rfl⟩
  | cons size later =>
    have hP : ∀ x ∈ Action.framebufferSize size.1 size.2 :: (FrameLoop.pollSize size later).1,
        x.isFrameWork = false := by
      intro x hx
      rcases List.mem_cons.1 hx with rfl | hx
      · rfl
      · exact pollSize_no_frameWork later size x hx
    have hfull : ∀ x ∈ [Action.deviceWaitIdle] ++ (FrameLoop.rebuildSteps ++
        [Action.renderPassCleanupOld, Action.swapChainCleanupOld]), x.isFrameWork = false := by
      decide
    simp only
    by_cases hp : (FrameLoop.pollSize size later).2 = true
    · rw [if_pos hp]
      cases hf : env.failingRebuild with
      | none =>
        refine ⟨⟨(Action.framebufferSize size.1 size.2 :: (FrameLoop.pollSize size later).1) ++
          ([Action.deviceWaitIdle] ++ (FrameLoop.rebuildSteps ++
          [Action.renderPassCleanupOld, Action.swapChainCleanupOld])), ?_, ?_⟩,
          rfl, rfl, rfl, rfl, Or.inr rfl⟩
        · simp [FrameLoop.deviceWaitIdle]
        · intro a ha
          rcases List.mem_append.1 ha with h | h
          · exact hP a h
          · exact hfull a h
      | some k =>
        simp only
        by_cases hk : k < FrameLoop.rebuildSteps.length
        · rw [if_pos hk]
          refine ⟨⟨(Action.framebufferSize size.1 size.2 :: (FrameLoop.pollSize size later).1) ++
            ([Action.deviceWaitIdle] ++ FrameLoop.rebuildSteps.take (k + 1)),
            ?_, ?_⟩, rfl, rfl, rfl, rfl, Or.inr rfl⟩
          · simp [FrameLoop.deviceWaitIdle]
          · intro a ha
            rcases List.mem_append.1 ha with h | h
            · exact hP a h
            · rcases List.mem_append.1 h with h | h
              · simp only [List.mem_singleton] at h
                subst h
                rfl
              · exact rebuildSteps_no_frameWork a (List.mem_of_mem_take h)
        · rw [if_neg hk]
          refine ⟨⟨(Action.framebufferSize size.1 size.2 :: (FrameLoop.pollSize size later).1) ++
          ([Action.deviceWaitIdle] ++ (FrameLoop.rebuildSteps ++
            [Action.renderPassCleanupOld, Action.swapChainCleanupOld])), ?_, ?_⟩,
            rfl, rfl, rfl, rfl, Or.inr rfl⟩
          · simp [FrameLoop.deviceWaitIdle]
          · intro a ha
            rcases List.mem_append.1 ha with h | h
            · exact hP a h
            · exact hfull a h
    · rw [if_neg hp]
      exact ⟨⟨Action.framebufferSize size.1 size.2 :: (FrameLoop.pollSize size later).1,
        rfl, hP⟩, rfl, rfl, rfl, rfl, Or.inl rfl⟩

theorem waitForFence_effect (s s1 : FrameLoop) (slot : Nat)
    (hw : s.waitForFence slot = some s1) :
    s1.log = s.log ++ [Action.waitForFence slot] ∧ s1.currentFrame = s.currentFrame ∧
      s1.peakPending = s.peakPending ∧ s1.imageInFlight = s.imageInFlight ∧
      s1.framebufferResized = s.framebufferResized ∧ s1.pending ⊆ s.pending := by
  unfold FrameLoop.waitForFence at hw
  split at hw
  · cases hw
    exact ⟨rfl, rfl, rfl, rfl, rfl, fun _ h => h⟩
  · split at hw
    · cases hw
      exact ⟨rfl, rfl, rfl, rfl, rfl, fun _ h => List.mem_of_mem_filter h⟩
    · cases hw

/-- C15: when image acquisition reports out of date, `drawFrame` is the run of
`recreateSwapChain` that follows the fence wait and the acquire: the calls it makes
after the acquire contain no update step, no recording, no fence reset, no submission
and no presentation, the frame slot index and the number of submissions are as before,
and the call returns when recreation returns (the first size read is non-zero and no
rebuild step throws). -/
theorem C15_stale_acquire_only_recreates (env : TickEnv) (s s1 : FrameLoop)
    (hw : s.waitForFence s.currentFrame = some s1)
    (hacq : env.acquireResult = VK_ERROR_OUT_OF_DATE_KHR) :
    s.drawFrame env =
        FrameLoop.recreateSwapChain env (s1.logged (.acquireNextImage s1.currentFrame)) ∧
    (s.drawFrame env).1.currentFrame = s.currentFrame ∧
    (s.drawFrame env).1.peakPending = s.peakPending ∧
    (s.drawFrame env).1.pending ⊆ s.pending ∧
    (∃ added, (s.drawFrame env).1.log =
        s.log ++ [Action.waitForFence s.currentFrame,
          Action.acquireNextImage s.currentFrame] ++ added ∧
      ∀ a ∈ added, a.isFrameWork = false) ∧
    (∀ size later, env.sizes = size :: later → FrameLoop.isZeroSize size = false →
      env.failingRebuild = none →
      (s.drawFrame env).2 = .returned ∧
        Action.swapChainRecreate ∈ (s.drawFrame env).1.log) := by
  have hd : s.drawFrame env =
      FrameLoop.recreateSwapChain env (s1.logged (.acquireNextImage s1.currentFrame)) := by
    unfold FrameLoop.drawFrame
    rw [hw]
    simp only [hacq, if_true]
  obtain ⟨hl1, hc1, hp1, _, _, hsub⟩ := waitForFence_effect s s1 s.currentFrame hw
  obtain ⟨⟨added, hlog, hadded⟩, hc, hp, _, _, hpend⟩ :=
    recreateSwapChain_effect env (s1.logged (.acquireNextImage s1.currentFrame))
  rw [hd]
  refine ⟨rfl, by rw [hc]; exact hc1, by rw [hp]; exact hp1, ?_, ⟨added, ?_, hadded⟩, ?_⟩
  · rcases hpend with h | h
    · rw [h]; exact hsub
    · rw [h]; exact List.nil_subset _
  · rw [hlog]
    show (s1.log ++ [Action.acquireNextImage s1.currentFrame]) ++ added = _
    rw [hl1, hc1]
    simp
  · intro size later hsz hz hf
    unfold FrameLoop.recreateSwapChain
    rw [hsz]
    have hpoll : (FrameLoop.pollSize size later).2 = true := by
      cases later with
      | nil => simp [FrameLoop.pollSize, hz]
      | cons a b => simp [FrameLoop.pollSize, hz]
    simp only [hpoll, if_true, hf]
    refine ⟨trivial, ?_⟩
    simp [FrameLoop.rebuildSteps]

/-- C15 witness: the first tick of the loop with a stale acquire. -/
theorem C15_stale_acquire_only_recreates_witness :
    ((FrameLoop.init 3).drawFrame staleEnv).1.currentFrame = (FrameLoop.init 3).currentFrame ∧
      ((FrameLoop.init 3).drawFrame staleEnv).1.peakPending = 0 :=
  ⟨(C15_stale_acquire_only_recreates staleEnv (FrameLoop.init 3)
      ((FrameLoop.init 3).logged (.waitForFence 0)) rfl rfl).2.1,
    (C15_stale_acquire_only_recreates staleEnv (FrameLoop.init 3)
      ((FrameLoop.init 3).logged (.waitForFence 0)) rfl rfl).2.2.1⟩

/-- C17 (as stated, refuted): after a resize request, a tick whose presentation reports
`VK_ERROR_DEVICE_LOST` returns normally and has recreated the swapchain. -/
theorem C17_counterexample :
    (((FrameLoop.init 3).step .resize).drawFrame
        { okEnv with presentResult := VK_ERROR_DEVICE_LOST }).2 = .returned ∧
      Action.swapChainRecreate ∈ (((FrameLoop.init 3).step .resize).drawFrame
        { okEnv with presentResult := VK_ERROR_DEVICE_LOST }).1.log := by
  decide

/-- C17 (amended): at present, with the resize flag clear, every result other than
success, out-of-date or suboptimal makes `drawFrame` throw without running recreation;
with the resize flag set, or for out-of-date or suboptimal, `drawFrame` runs recreation
whatever the present result, and ends as recreation ends, so it does not fail on account
of the present result. -/
theorem C17_present_failure_unless_recreation (env : TickEnv) (s : FrameLoop) :
    ((env.presentResult ≠ VK_SUCCESS ∧ env.presentResult ≠ VK_ERROR_OUT_OF_DATE_KHR ∧
        env.presentResult ≠ VK_SUBOPTIMAL_KHR ∧ s.framebufferResized = false) →
      FrameLoop.presentAndAdvance env s =
        (s.logged (.queuePresent env.imageIndex),
          .threw (.runtime_error "Failed to present swap chain image"))) ∧
    ((env.presentResult = VK_ERROR_OUT_OF_DATE_KHR ∨ env.presentResult = VK_SUBOPTIMAL_KHR ∨
        s.framebufferResized = true) →
      (FrameLoop.presentAndAdvance env s).2 =
          (FrameLoop.recreateSwapChain env (s.logged (.queuePresent env.imageIndex))).2 ∧
        ∃ more, (FrameLoop.presentAndAdvance env s).1.log =
          (FrameLoop.recreateSwapChain env (s.logged (.queuePresent env.imageIndex))).1.log ++
            more) := by
  constructor
  · rintro ⟨h1, h2, h3, h4⟩
    unfold FrameLoop.presentAndAdvance
    have hc : ¬ (env.presentResult = VK_ERROR_OUT_OF_DATE_KHR ∨
        env.presentResult = VK_SUBOPTIMAL_KHR ∨
        (s.logged (.queuePresent env.imageIndex)).framebufferResized = true) := by
      rintro (h | h | h)
      · exact h2 h
      · exact h3 h
      · have : s.framebufferResized = true := h
        rw [h4] at this
        cases this
    simp only [hc, if_false, h1, ne_eq, not_false_eq_true, if_true]
  · intro h
    unfold FrameLoop.presentAndAdvance
    have hc : env.presentResult = VK_ERROR_OUT_OF_DATE_KHR ∨
        env.presentResult = VK_SUBOPTIMAL_KHR ∨
        (s.logged (.queuePresent env.imageIndex)).framebufferResized = true := h
    simp only [hc, if_true]
    cases hr : FrameLoop.recreateSwapChain env (s.logged (.queuePresent env.imageIndex)) with
    | mk s2 out =>
      cases out with
      | returned => exact ⟨rfl, [Action.syncObjectsRecreate s2.numImages], rfl⟩
      | threw e => exact ⟨rfl, [], by simp⟩
      | blocked => exact ⟨rfl, [], by simp⟩

/-- C17 witness: with the flag clear `VK_ERROR_DEVICE_LOST` at present is thrown; with
`VK_SUBOPTIMAL_KHR` the tick ends as the recreation does. -/
theorem C17_present_failure_unless_recreation_witness :
    FrameLoop.presentAndAdvance { okEnv with presentResult := VK_ERROR_DEVICE_LOST }
        (FrameLoop.init 3) =
      ((FrameLoop.init 3).logged (.queuePresent 0),
        .threw (.runtime_error "Failed to present swap chain image")) ∧
    (FrameLoop.presentAndAdvance { okEnv with presentResult := VK_SUBOPTIMAL_KHR }
        (FrameLoop.init 3)).2 =
      (FrameLoop.recreateSwapChain { okEnv with presentResult := VK_SUBOPTIMAL_KHR }
        ((FrameLoop.init 3).logged (.queuePresent 0))).2 :=
  ⟨(C17_present_failure_unless_recreation { okEnv with presentResult := VK_ERROR_DEVICE_LOST }
      (FrameLoop.init 3)).1 ⟨by decide, by decide, by decide, rfl⟩,
    ((C17_present_failure_unless_recreation { okEnv with presentResult := VK_SUBOPTIMAL_KHR }
      (FrameLoop.init 3)).2 (Or.inr (Or.inl rfl))).1⟩

/-- C20 (evaluation at the failing input): a tick whose acquire reports out of date, with a
new swapchain of 4 images in place of 3, returns after the swapchain was recreated
without any rebuild of the synchronization objects: the image-fence table still has 3
entries. The same recreation started at present rebuilds them, with 4 entries. -/
theorem C20_stale_acquire_skips_sync_rebuild :
    ((FrameLoop.init 3).drawFrame staleEnv).2 = .returned ∧
    Action.swapChainRecreate ∈ ((FrameLoop.init 3).drawFrame staleEnv).1.log ∧
    ((FrameLoop.init 3).drawFrame staleEnv).1.log.filter Action.isSyncRebuild = [] ∧
    ((FrameLoop.init 3).drawFrame staleEnv).1.numImages = 4 ∧
    ((FrameLoop.init 3).drawFrame staleEnv).1.imageInFlight.length = 3 ∧
    ((FrameLoop.init 3).drawFrame
        { okEnv with presentResult := VK_ERROR_OUT_OF_DATE_KHR }).1.log.filter
          Action.isSyncRebuild = [Action.syncObjectsRecreate 4] ∧
    ((FrameLoop.init 3).drawFrame
        { okEnv with presentResult := VK_ERROR_OUT_OF_DATE_KHR }).1.imageInFlight.length = 4 := by
  decide

/-! ## The image-fence table -/

theorem getD_set_option (l : List (Option Nat)) (i j : Nat) (v : Option Nat) :
    (l.set i v).getD j none = if i = j ∧ i < l.length then v else l.getD j none := by
  rw [List.getD_eq_getElem?_getD, List.getD_eq_getElem?_getD, List.getElem?_set]
  by_cases hij : i = j
  · subst hij
    by_cases hlt : i < l.length
    · simp [hlt]
    · have hn : l[i]? = none := by
        rw [List.getElem?_eq_none_iff]; omega
      simp [hlt, hn]
  · simp [hij]

theorem recreateSwapChain_returned_pending (env : TickEnv) (s : FrameLoop)
    (h : (FrameLoop.recreateSwapChain env s).2 = .returned) :
    (FrameLoop.recreateSwapChain env s).1.pending = [] := by
  unfold FrameLoop.recreateSwapChain at h ⊢
  cases hsz : env.sizes with
  | nil => rw [hsz] at h; cases h
  | cons size later =>
    rw [hsz] at h
    simp only at h ⊢
    by_cases hp : (FrameLoop.pollSize size later).2 = true
    · rw [if_pos hp] at h ⊢
      cases hf : env.failingRebuild with
      | none => rfl
      | some k =>
        rw [hf] at h
        simp only at h ⊢
        by_cases hk : k < FrameLoop.rebuildSteps.length
        · rw [if_pos hk] at h; cases h
        · rw [if_neg hk]; rfl
    · rw [if_neg hp] at h; cases h

theorem presentAndAdvance_image (env : TickEnv) (s : FrameLoop) :
    ((FrameLoop.presentAndAdvance env s).1.imageInFlight = s.imageInFlight ∧
        ((FrameLoop.presentAndAdvance env s).1.pending = s.pending ∨
          (FrameLoop.presentAndAdvance env s).1.pending = [])) ∨
      ((FrameLoop.presentAndAdvance env s).1.imageInFlight =
          List.replicate (FrameLoop.presentAndAdvance env s).1.numImages none ∧
        (FrameLoop.presentAndAdvance env s).1.pending = []) := by
  unfold FrameLoop.presentAndAdvance
  simp only
  split
  · obtain ⟨_, _, _, him, _, hpend⟩ :=
      recreateSwapChain_effect env (s.logged (.queuePresent env.imageIndex))
    have hret := recreateSwapChain_returned_pending env
      (s.logged (.queuePresent env.imageIndex))
    split
    · next s2 heq =>
      rw [heq] at hret
      exact Or.inr ⟨rfl, hret rfl⟩
    · next s2 out hne heq =>
      rw [heq] at him hpend
      exact Or.inl ⟨him, hpend⟩
  · split
    · exact Or.inl ⟨rfl, Or.inl rfl⟩
    · exact Or.inl ⟨rfl, Or.inl rfl⟩

theorem presentAndAdvance_image_from (env : TickEnv) (s0 : FrameLoop)
    (im : List (Option Nat)) (pend : List Submission)
    (hi : s0.imageInFlight = im) (hp : s0.pending = pend) :
    ((FrameLoop.presentAndAdvance env s0).1.imageInFlight = im ∧
        (FrameLoop.presentAndAdvance env s0).1.pending ⊆ pend) ∨
      ((FrameLoop.presentAndAdvance env s0).1.imageInFlight =
          List.replicate (FrameLoop.presentAndAdvance env s0).1.numImages none ∧
        (FrameLoop.presentAndAdvance env s0).1.pending = []) := by
  subst hi hp
  rcases presentAndAdvance_image env s0 with h | h
  · left
    refine ⟨h.1, ?_⟩
    rcases h.2 with h2 | h2
    · rw [h2]; exact fun _ hx => hx
    · rw [h2]; exact List.nil_subset _
  · exact Or.inr h

theorem recordSubmitPresent_image (env : TickEnv) (s : FrameLoop) :
    ((FrameLoop.recordSubmitPresent env s).1.imageInFlight = s.imageInFlight ∧
        (FrameLoop.recordSubmitPresent env s).1.pending ⊆
          s.pending ++ [{ slot := s.currentFrame, image := env.imageIndex }]) ∨
      ((FrameLoop.recordSubmitPresent env s).1.imageInFlight =
          List.replicate (FrameLoop.recordSubmitPresent env s).1.numImages none ∧
        (FrameLoop.recordSubmitPresent env s).1.pending = []) := by
  unfold FrameLoop.recordSubmitPresent
  simp only
  cases env.recordError with
  | some e => exact Or.inl ⟨rfl, List.subset_append_left _ _⟩
  | none =>
    simp only
    split
    · exact Or.inl ⟨rfl, List.subset_append_left _ _⟩
    · exact presentAndAdvance_image_from env _ _ _ rfl rfl

theorem drawFrame_image (env : TickEnv) (s : FrameLoop) :
    ((FrameLoop.drawFrame env s).1.imageInFlight.length = s.imageInFlight.length ∧
        (∀ i, (s.imageInFlight.getD i none).isSome = true →
          ((FrameLoop.drawFrame env s).1.imageInFlight.getD i none).isSome = true) ∧
        (s.ImageInv → (FrameLoop.drawFrame env s).1.ImageInv)) ∨
      ((FrameLoop.drawFrame env s).1.imageInFlight =
          List.replicate (FrameLoop.drawFrame env s).1.numImages none ∧
        (FrameLoop.drawFrame env s).1.pending = []) := by
  have keep : ∀ (s1 : FrameLoop), s1.imageInFlight = s.imageInFlight →
      s1.pending ⊆ s.pending →
      s1.imageInFlight.length = s.imageInFlight.length ∧
        (∀ i, (s.imageInFlight.getD i none).isSome = true →
          (s1.imageInFlight.getD i none).isSome = true) ∧
        (s.ImageInv → s1.ImageInv) := by
    intro s1 h1 h2
    refine ⟨by rw [h1], fun i hi => by rw [h1]; exact hi, ?_⟩
    intro hinv p hp hlt
    rw [h1] at hlt ⊢
    exact hinv p (h2 hp) hlt
  unfold FrameLoop.drawFrame
  cases hw : s.waitForFence s.currentFrame with
  | none => exact Or.inl (keep s rfl (fun _ h => h))
  | some s1 =>
    obtain ⟨_, hc1, _, him1, _, hsub1⟩ := waitForFence_effect s s1 s.currentFrame hw
    simp only
    split
    · obtain ⟨_, _, _, him, _, hpend⟩ :=
        recreateSwapChain_effect env (s1.logged (.acquireNextImage s1.currentFrame))
      left
      apply keep
      · rw [him]; exact him1
      · rcases hpend with h | h
        · rw [h]; exact hsub1
        · rw [h]; exact List.nil_subset _
    · split
      · exact Or.inl (keep _ him1 hsub1)
      · cases hwi : FrameLoop.waitForImage
            ((s1.logged (.acquireNextImage s1.currentFrame)).logged
              (.updateUBOs (s1.logged (.acquireNextImage s1.currentFrame)).currentFrame))
            env.imageIndex with
        | none => exact Or.inl (keep _ him1 hsub1)
        | some s4 =>
          simp only
          have h4 : s4.imageInFlight = s.imageInFlight ∧ s4.pending ⊆ s.pending := by
            unfold FrameLoop.waitForImage at hwi
            split at hwi
            · next slot _ =>
              obtain ⟨_, _, _, him4, _, hsub4⟩ := waitForFence_effect _ s4 slot hwi
              exact ⟨him4.trans him1, fun x hx => hsub1 (hsub4 hx)⟩
            · cases hwi
              exact ⟨him1, hsub1⟩
          rcases recordSubmitPresent_image env
            ({ s4 with imageInFlight :=
                s4.imageInFlight.set env.imageIndex (some s4.currentFrame) } : FrameLoop)
            with h | h
          · left
            obtain ⟨hi, hp⟩ := h
            have hi2 : (FrameLoop.recordSubmitPresent env
                ({ s4 with imageInFlight :=
                    s4.imageInFlight.set env.imageIndex (some s4.currentFrame) } :
                  FrameLoop)).1.imageInFlight =
                s.imageInFlight.set env.imageIndex (some s4.currentFrame) := by
              rw [hi, ← h4.1]
            refine ⟨by rw [hi2, List.length_set], ?_, ?_⟩
            · intro i hset
              rw [hi2, getD_set_option]
              split
              · rfl
              · exact hset
            · intro hinv p hp1 hlt
              rw [hi2, List.length_set] at hlt
              rw [hi2, getD_set_option]
              rcases List.mem_append.1 (hp hp1) with hmem | hmem
              · split
                · rfl
                · exact hinv p (h4.2 hmem) hlt
              · simp only [List.mem_singleton] at hmem
                subst hmem
                simp [hlt]
          · right
            exact h

theorem FrameLoop.step_image (s : FrameLoop) (e : Event) :
    (((s.step e).imageInFlight.length = s.imageInFlight.length ∧
        ∀ i, (s.imageInFlight.getD i none).isSome = true →
          ((s.step e).imageInFlight.getD i none).isSome = true) ∨
      (s.step e).imageInFlight = List.replicate (s.step e).numImages none) ∧
    (s.ImageInv → (s.step e).ImageInv) := by
  cases e with
  | tick env =>
    unfold FrameLoop.step
    simp only
    split
    · have hd := drawFrame_image env s
      split
      · next s1 heq =>
        rw [heq] at hd
        rcases hd with h | h
        · exact ⟨Or.inl ⟨h.1, h.2.1⟩, h.2.2⟩
        · refine ⟨Or.inr h.1, ?_⟩
          intro _ p hp
          have hp1 : p ∈ s1.pending := hp
          rw [h.2] at hp1
          cases hp1
      · next s1 out hne heq =>
        rw [heq] at hd
        rcases hd with h | h
        · exact ⟨Or.inl ⟨h.1, h.2.1⟩, h.2.2⟩
        · refine ⟨Or.inr h.1, ?_⟩
          intro _ p hp
          have hp1 : p ∈ s1.pending := hp
          rw [h.2] at hp1
          cases hp1
    · exact ⟨Or.inl ⟨rfl, fun _ h => h⟩, fun h => h⟩
  | gpuFinish k =>
    unfold FrameLoop.step
    simp only
    split
    · refine ⟨Or.inl ⟨rfl, fun _ h => h⟩, ?_⟩
      intro hinv p hp hlt
      exact hinv p (List.mem_of_mem_eraseIdx hp) hlt
    · exact ⟨Or.inl ⟨rfl, fun _ h => h⟩, fun h => h⟩
  | resize => exact ⟨Or.inl ⟨rfl, fun _ h => h⟩, fun h => h⟩

theorem FrameLoop.run_imageInv (events : List Event) (s : FrameLoop) (h : s.ImageInv) :
    (s.run events).ImageInv := by
  induction events generalizing s with
  | nil => exact h
  | cons e rest ih => exact ih (s.step e) ((FrameLoop.step_image s e).2 h)

/-- C16 (as stated, refuted): after one tick on image 0 and the signal of its fence, the
entry of image 0 is still set although no submission is outstanding. -/
theorem C16_counterexample :
    (((FrameLoop.init 3).run [.tick okEnv, .gpuFinish 0]).imageInFlight.getD 0 none) =
        some 0 ∧
      ((FrameLoop.init 3).run [.tick okEnv, .gpuFinish 0]).pending = [] := by
  decide

theorem imageFenceInv_of_same (s t : FrameLoop) (him : s.ImageFenceInv)
    (h1 : t.imageInFlight = s.imageInFlight) (h2 : t.pending ⊆ s.pending) :
    t.ImageFenceInv := by
  intro p hp hlt
  rw [h1] at hlt ⊢
  exact him p (h2 hp) hlt

theorem waitForImage_effect (s s4 : FrameLoop) (idx : Nat) (hinv : s.Inv)
    (hw : s.waitForImage idx = some s4) :
    s4.imageInFlight = s.imageInFlight ∧ s4.pending ⊆ s.pending ∧
      s4.currentFrame = s.currentFrame ∧
      s4.log = s.log ++ (s.imageInFlight.getD idx none).toList.map Action.waitForFence ∧
      (∀ slot, s.imageInFlight.getD idx none = some slot → s4.NoPending slot) := by
  unfold FrameLoop.waitForImage at hw
  cases he : s.imageInFlight.getD idx none with
  | none =>
    rw [he] at hw
    cases hw
    exact ⟨rfl, fun _ h => h, rfl, by simp, fun slot h => by cases h⟩
  | some slot =>
    rw [he] at hw
    obtain ⟨hl, hc, _, him, _, hsub⟩ := waitForFence_effect s s4 slot hw
    obtain ⟨_, hn, _, _⟩ := FrameLoop.waitForFence_inv s s4 slot hinv hw
    refine ⟨him, hsub, hc, by simpa using hl, ?_⟩
    intro slot1 h1
    cases h1
    exact hn

theorem presentAndAdvance_log (env : TickEnv) (s : FrameLoop) :
    ∃ post, (FrameLoop.presentAndAdvance env s).1.log =
      s.log ++ Action.queuePresent env.imageIndex :: post := by
  unfold FrameLoop.presentAndAdvance
  simp only
  split
  · obtain ⟨⟨added, hlog, _⟩, _⟩ :=
      recreateSwapChain_effect env (s.logged (.queuePresent env.imageIndex))
    split
    · next s2 heq =>
      rw [heq] at hlog
      refine ⟨added ++ [Action.syncObjectsRecreate s2.numImages], ?_⟩
      show s2.log ++ [Action.syncObjectsRecreate s2.numImages] = _
      rw [hlog]
      simp [FrameLoop.logged]
    · next s2 out hne heq =>
      rw [heq] at hlog
      refine ⟨added, ?_⟩
      show s2.log = _
      rw [hlog]
      simp [FrameLoop.logged]
  · split
    · exact ⟨[], rfl⟩
    · exact ⟨[], rfl⟩

theorem recordSubmitPresent_log (env : TickEnv) (s : FrameLoop) :
    ∃ post, (FrameLoop.recordSubmitPresent env s).1.log =
      s.log ++ Action.recordCommands env.imageIndex :: post := by
  unfold FrameLoop.recordSubmitPresent
  simp only
  cases env.recordError with
  | some e => exact ⟨[], rfl⟩
  | none =>
    simp only
    split
    · exact ⟨[Action.interfaceRecord env.imageIndex, Action.resetFence s.currentFrame],
        by simp [FrameLoop.logged]⟩
    · obtain ⟨post, hp⟩ := presentAndAdvance_log env
        ({ s with
            fenceSignaled := s.fenceSignaled.set s.currentFrame false,
            pending := s.pending ++ [Submission.mk s.currentFrame env.imageIndex],
            peakPending := max s.peakPending
              (s.pending ++ [Submission.mk s.currentFrame env.imageIndex]).length,
            log := s.log ++ [Action.recordCommands env.imageIndex,
              Action.interfaceRecord env.imageIndex, Action.resetFence s.currentFrame,
              Action.queueSubmit s.currentFrame env.imageIndex] } : FrameLoop)
      refine ⟨[Action.interfaceRecord env.imageIndex, Action.resetFence s.currentFrame,
        Action.queueSubmit s.currentFrame env.imageIndex,
        Action.queuePresent env.imageIndex] ++ post, ?_⟩
      simp only [FrameLoop.logged, List.append_assoc, List.singleton_append,
        List.cons_append, List.nil_append] at hp ⊢
      exact hp

/-- What a call of `drawFrame` that gets past the acquire and both waits does to the
image-fence table, and in which order. -/
theorem drawFrame_overwrites_after_wait (env : TickEnv) (s : FrameLoop) (hinv : s.Inv)
    (hacq : env.acquireResult = VK_SUCCESS ∨ env.acquireResult = VK_SUBOPTIMAL_KHR)
    (hnb : (s.drawFrame env).2 ≠ .blocked) :
    (∃ post, (s.drawFrame env).1.log =
      s.log ++ [Action.waitForFence s.currentFrame, Action.acquireNextImage s.currentFrame,
          Action.updateUBOs s.currentFrame] ++
        (s.imageInFlight.getD env.imageIndex none).toList.map Action.waitForFence ++
        Action.recordCommands env.imageIndex :: post) ∧
    ((s.drawFrame env).1.imageInFlight =
        s.imageInFlight.set env.imageIndex (some s.currentFrame) ∨
      (s.drawFrame env).1.imageInFlight =
        List.replicate (s.drawFrame env).1.numImages none) := by
  have hood : env.acquireResult ≠ VK_ERROR_OUT_OF_DATE_KHR := by
    rcases hacq with h | h <;> rw [h] <;> decide
  have hgood : ¬ (env.acquireResult ≠ VK_SUCCESS ∧ env.acquireResult ≠ VK_SUBOPTIMAL_KHR) := by
    rcases hacq with h | h
    · exact fun hh => hh.1 h
    · exact fun hh => hh.2 h
  unfold FrameLoop.drawFrame at hnb ⊢
  cases hw : s.waitForFence s.currentFrame with
  | none =>
    rw [hw] at hnb
    exact absurd rfl hnb
  | some s1 =>
    obtain ⟨hl1, hc1, _, him1, _, _⟩ := waitForFence_effect s s1 s.currentFrame hw
    obtain ⟨hi1, _, _, _⟩ := FrameLoop.waitForFence_inv s s1 s.currentFrame hinv hw
    rw [hw] at hnb
    simp only [hood, if_false, hgood] at hnb ⊢
    cases hwi : FrameLoop.waitForImage
        ((s1.logged (.acquireNextImage s1.currentFrame)).logged
          (.updateUBOs (s1.logged (.acquireNextImage s1.currentFrame)).currentFrame))
        env.imageIndex with
    | none =>
      rw [hwi] at hnb
      exact absurd rfl hnb
    | some s4 =>
      simp only
      obtain ⟨him4, _, hc4, hl4, _⟩ := waitForImage_effect _ s4 env.imageIndex (by exact hi1) hwi
      have him : s4.imageInFlight = s.imageInFlight := him4.trans him1
      have hc : s4.currentFrame = s.currentFrame := hc4.trans hc1
      obtain ⟨post, hpost⟩ := recordSubmitPresent_log env
        ({ s4 with imageInFlight :=
            s4.imageInFlight.set env.imageIndex (some s4.currentFrame) } : FrameLoop)
      constructor
      · refine ⟨post, ?_⟩
        rw [hpost]
        show s4.log ++ _ = _
        rw [hl4]
        have e1 : ((s1.logged (.acquireNextImage s1.currentFrame)).logged
            (.updateUBOs (s1.logged (.acquireNextImage s1.currentFrame)).currentFrame)
            ).imageInFlight = s.imageInFlight := him1
        rw [e1]
        simp [FrameLoop.logged, hl1, hc1]
      · rcases recordSubmitPresent_image env
          ({ s4 with imageInFlight :=
              s4.imageInFlight.set env.imageIndex (some s4.currentFrame) } : FrameLoop)
          with h | h
        · left
          rw [h.1]
          show s4.imageInFlight.set env.imageIndex (some s4.currentFrame) = _
          rw [him, hc]
        · exact Or.inr h.1

theorem drawFrame_imageFence (env : TickEnv) (s : FrameLoop) (hinv : s.Inv)
    (him : s.ImageFenceInv) : (s.drawFrame env).1.ImageFenceInv := by
  unfold FrameLoop.drawFrame
  cases hw : s.waitForFence s.currentFrame with
  | none => exact him
  | some s1 =>
    obtain ⟨_, hc1, _, him1, _, hsub1⟩ := waitForFence_effect s s1 s.currentFrame hw
    obtain ⟨hi1, _, _, _⟩ := FrameLoop.waitForFence_inv s s1 s.currentFrame hinv hw
    simp only
    split
    · obtain ⟨_, _, _, himr, _, hpend⟩ :=
        recreateSwapChain_effect env (s1.logged (.acquireNextImage s1.currentFrame))
      apply imageFenceInv_of_same s _ him
      · rw [himr]; exact him1
      · rcases hpend with h | h
        · rw [h]; exact hsub1
        · rw [h]; exact List.nil_subset _
    · split
      · exact imageFenceInv_of_same s _ him him1 hsub1
      · cases hwi : FrameLoop.waitForImage
            ((s1.logged (.acquireNextImage s1.currentFrame)).logged
              (.updateUBOs (s1.logged (.acquireNextImage s1.currentFrame)).currentFrame))
            env.imageIndex with
        | none => exact imageFenceInv_of_same s _ him him1 hsub1
        | some s4 =>
          simp only
          obtain ⟨him4, hsub4, _, _, hno⟩ := waitForImage_effect _ s4 env.imageIndex (by exact hi1) hwi
          have himS : s4.imageInFlight = s.imageInFlight := him4.trans him1
          have hsubS : s4.pending ⊆ s.pending := fun x hx => hsub1 (hsub4 hx)
          have hnoS : ∀ slot, s.imageInFlight.getD env.imageIndex none = some slot →
              s4.NoPending slot := by
            intro slot hs
            apply hno slot
            have e1 : ((s1.logged (.acquireNextImage s1.currentFrame)).logged
                (.updateUBOs (s1.logged (.acquireNextImage s1.currentFrame)).currentFrame)
                ).imageInFlight = s.imageInFlight := him1
            rw [e1]
            exact hs
          rcases recordSubmitPresent_image env
            ({ s4 with imageInFlight :=
                s4.imageInFlight.set env.imageIndex (some s4.currentFrame) } : FrameLoop)
            with h | h
          · obtain ⟨hi, hp⟩ := h
            intro p hp1 hlt
            rw [hi] at hlt ⊢
            have hlt1 : p.image < s.imageInFlight.length := by
              have : p.image < (s4.imageInFlight.set env.imageIndex
                  (some s4.currentFrame)).length := hlt
              rwa [List.length_set, himS] at this
            show (s4.imageInFlight.set env.imageIndex (some s4.currentFrame)).getD
              p.image none = some p.slot
            rw [getD_set_option, himS]
            rcases List.mem_append.1 (hp hp1) with hmem | hmem
            · have hmem4 : p ∈ s4.pending := hmem
              have hold := him p (hsubS hmem4) hlt1
              by_cases hidx : env.imageIndex = p.image
              · rw [hidx] at hnoS
                exact absurd rfl (hnoS p.slot hold p hmem4)
              · rw [if_neg (fun hh => hidx hh.1)]
                exact hold
            · simp only [List.mem_singleton] at hmem
              subst hmem
              rw [if_pos ⟨rfl, hlt1⟩]
          · intro p hp1
            rw [h.2] at hp1
            cases hp1

theorem FrameLoop.step_imageFence (s : FrameLoop) (e : Event) (hinv : s.Inv)
    (him : s.ImageFenceInv) : (s.step e).ImageFenceInv := by
  cases e with
  | tick env =>
    unfold FrameLoop.step
    simp only
    split
    · have hd := drawFrame_imageFence env s hinv him
      split
      · next s1 heq => rw [heq] at hd; exact hd
      · next s1 out hne heq => rw [heq] at hd; exact hd
    · exact him
  | gpuFinish k =>
    unfold FrameLoop.step
    simp only
    split
    · intro p hp hlt
      exact him p (List.mem_of_mem_eraseIdx hp) hlt
    · exact him
  | resize => exact him

theorem FrameLoop.run_imageFence (events : List Event) (s : FrameLoop) (hinv : s.Inv)
    (him : s.ImageFenceInv) : (s.run events).ImageFenceInv := by
  induction events generalizing s with
  | nil => exact him
  | cons e rest ih =>
    exact ih (s.step e) (FrameLoop.step_inv s e hinv) (FrameLoop.step_imageFence s e hinv him)

/-- C16 (amended): in every reachable state of the frame loop, the image-fence entry of
every outstanding submission whose image has an entry is set, and it is the fence that
this submission signals (the entry may stay set after the fence has signaled). No step
clears an entry: after a step every entry that was set is still set, unless the step
rebuilt the synchronization objects, which leaves every entry cleared. A call of
`drawFrame` that gets past the acquire and is not held up in a wait has waited on the
fence stored for the acquired image, if one was stored, after the update step and before
recording, and leaves the entry of that image overwritten with the in-flight fence of the
current frame, the other entries as they were. -/
theorem C16_image_fence_set_while_outstanding (numImages : Nat) (events : List Event)
    (e : Event) (env : TickEnv) :
    (∀ p ∈ ((FrameLoop.init numImages).run events).pending,
      p.image < ((FrameLoop.init numImages).run events).imageInFlight.length →
      ((FrameLoop.init numImages).run events).imageInFlight.getD p.image none =
        some p.slot) ∧
    ((∀ i, (((FrameLoop.init numImages).run events).imageInFlight.getD i none).isSome = true →
        ((((FrameLoop.init numImages).run events).step e).imageInFlight.getD i none).isSome
          = true) ∨
      (((FrameLoop.init numImages).run events).step e).imageInFlight =
        List.replicate (((FrameLoop.init numImages).run events).step e).numImages none) ∧
    ((env.acquireResult = VK_SUCCESS ∨ env.acquireResult = VK_SUBOPTIMAL_KHR) →
      (((FrameLoop.init numImages).run events).drawFrame env).2 ≠ .blocked →
      (∃ post, (((FrameLoop.init numImages).run events).drawFrame env).1.log =
        ((FrameLoop.init numImages).run events).log ++
          [Action.waitForFence ((FrameLoop.init numImages).run events).currentFrame,
            Action.acquireNextImage ((FrameLoop.init numImages).run events).currentFrame,
            Action.updateUBOs ((FrameLoop.init numImages).run events).currentFrame] ++
          (((FrameLoop.init numImages).run events).imageInFlight.getD
            env.imageIndex none).toList.map Action.waitForFence ++
          Action.recordCommands env.imageIndex :: post) ∧
      ((((FrameLoop.init numImages).run events).drawFrame env).1.imageInFlight =
          ((FrameLoop.init numImages).run events).imageInFlight.set env.imageIndex
            (some ((FrameLoop.init numImages).run events).currentFrame) ∨
        (((FrameLoop.init numImages).run events).drawFrame env).1.imageInFlight =
          List.replicate
            (((FrameLoop.init numImages).run events).drawFrame env).1.numImages none)) := by
  have hinv := FrameLoop.run_inv events (FrameLoop.init numImages)
    (FrameLoop.init_inv numImages)
  refine ⟨?_, ?_, ?_⟩
  · exact FrameLoop.run_imageFence events (FrameLoop.init numImages)
      (FrameLoop.init_inv numImages) (by intro p hp; cases hp)
  · rcases (FrameLoop.step_image ((FrameLoop.init numImages).run events) e).1 with h | h
    · exact Or.inl h.2
    · exact Or.inr h
  · intro hacq hnb
    exact drawFrame_overwrites_after_wait env _ hinv hacq hnb

/-! ## Push constants and draws -/

theorem filter_pushOrDraw_bindPipelineCmds (cam p l : Nat) (st : LoopState) :
    (bindPipelineCmds cam p l st).1.filter Cmd.isPushOrDraw = [] := by
  unfold bindPipelineCmds
  by_cases h : p = st.lastPipeline <;> by_cases hc : cam = VK_NULL_HANDLE <;>
    simp [h, hc, Cmd.isPushOrDraw]

theorem filter_pushOrDraw_bindMaterialCmds (l m : Nat) (st : LoopState) :
    (bindMaterialCmds l m st).1.filter Cmd.isPushOrDraw = [] := by
  unfold bindMaterialCmds
  split <;> simp [Cmd.isPushOrDraw]

theorem layoutOf_eq_of_getLayout {gp : GraphicsPipeline} {o : RenderObject} {l : Nat}
    (h : gp.getLayout o.material.m_pipelineName = .ok l) : layoutOf gp o = l := by
  unfold GraphicsPipeline.getLayout at h
  unfold layoutOf
  cases hl : gp.m_pipelineLayouts.at? o.material.m_pipelineName with
  | none => rw [hl] at h; cases h
  | some q => rw [hl] at h; cases h; rfl

theorem filter_pushOrDraw_drawCmds (gp : GraphicsPipeline) (o : RenderObject) (l : Nat)
    (h : gp.getLayout o.material.m_pipelineName = .ok l) :
    (drawCmds l o).filter Cmd.isPushOrDraw = pushAndDrawOf gp o := by
  unfold drawCmds pushAndDrawOf
  rw [layoutOf_eq_of_getLayout h]
  cases o.model <;> simp [Cmd.isPushOrDraw, sizeofMat4]

theorem recordLoop_pushAndDraws (gp : GraphicsPipeline) (cam : Nat) :
    ∀ (objs : List RenderObject) (st : LoopState), (∀ o ∈ objs, Registered gp o) →
      (recordLoop gp cam st objs).cmds.filter Cmd.isPushOrDraw =
        objs.flatMap (pushAndDrawOf gp) := by
  intro objs
  induction objs with
  | nil => intro st _; simp [recordLoop]
  | cons o rest ih =>
    intro st hreg
    obtain ⟨p, l, hp, _, hl⟩ := hreg o (List.mem_cons_self _ _)
    have hrest : ∀ x ∈ rest, Registered gp x := fun x hx => hreg x (List.mem_cons_of_mem _ hx)
    have hstep := @recordObject_ok gp cam st o p l hp hl
    simp only [recordLoop, hstep, List.flatMap_cons, List.filter_append,
      filter_pushOrDraw_bindPipelineCmds, filter_pushOrDraw_bindMaterialCmds,
      filter_pushOrDraw_drawCmds gp o l hl, List.nil_append, ih _ hrest]

/-- C18 (as stated, refuted): for a scene of one object without a mesh, the 3-vertex draw
is recorded and no push-constant command is. -/
theorem C18_counterexample :
    (recordCommands exampleRegistry [background] 41 0 true true).cmds.filter Cmd.isPush = [] ∧
      Cmd.draw 3 ∈ (recordCommands exampleRegistry [background] 41 0 true true).cmds := by
  decide

/-- C18 (amended): for every draw object that carries a mesh, `recordCommands` records a
push-constant command carrying that object's transform (64 bytes at offset 0, vertex
stage) before that object's indexed draw; for an object without a mesh it records the
3-vertex draw and no push-constant command. The pushes and draws recorded are, object by
object in sorted order, exactly these. -/
theorem C18_push_constants_for_meshes (gp : GraphicsPipeline) (cam imageIndex : Nat)
    (endOk : Bool) (scene sorted : List RenderObject)
    (hsort : IsStdSortResult scene sorted) (hreg : ∀ o ∈ scene, Registered gp o) :
    (recordCommandsFrom gp cam imageIndex true endOk sorted).cmds.filter Cmd.isPushOrDraw =
      sorted.flatMap (pushAndDrawOf gp) := by
  have hreg1 : ∀ o ∈ sorted, Registered gp o := fun o ho => hreg o (hsort.1.subset ho)
  obtain ⟨g, hall, hc⟩ := recordSorted_cmds gp cam imageIndex endOk sorted hreg1
  have hg : g.filter Cmd.isPushOrDraw = [] := by
    rw [List.filter_eq_nil_iff]
    intro c hcm
    have := hall c hcm
    cases c <;> simp_all [Cmd.isSetBind, Cmd.isPushOrDraw]
  simp only [recordCommandsFrom, if_true]
  rw [hc, ← List.singleton_append, List.filter_append, List.filter_append, List.filter_append,
    hg, recordLoop_pushAndDraws gp cam sorted LoopState.init hreg1]
  simp [Cmd.isPushOrDraw]

/-- C18 witness: the background without a mesh and the red sphere with one. -/
theorem C18_push_constants_for_meshes_witness :
    (recordCommandsFrom exampleRegistry 41 0 true true
        (stdSort [background, redSphere])).cmds.filter Cmd.isPushOrDraw =
      (stdSort [background, redSphere]).flatMap (pushAndDrawOf exampleRegistry) :=
  C18_push_constants_for_meshes exampleRegistry 41 0 true [background, redSphere]
    (stdSort [background, redSphere]) (stdSort_isStdSortResult _)
    (by
      intro o ho
      simp only [List.mem_cons, List.mem_singleton, List.not_mem_nil, or_false] at ho
      rcases ho with rfl | rfl
      · exact ⟨11, 13, rfl, by decide, rfl⟩
      · exact ⟨12, 14, rfl, by decide, rfl⟩)

/-! ## Loading the assets -/

/-- C19 (evaluation at the failing input): when the pool cannot allocate the camera
descriptor set and everything else succeeds, `loadAssets` returns normally with a null
camera descriptor set; the constructor of `Material` throws in the same situation. -/
theorem C19_camera_set_failure_not_surfaced :
    (∃ a, loadAssets exampleRegistry cameraSetExhausted = .ok a ∧
      a.m_cameraDescriptorSet = VK_NULL_HANDLE) ∧
    Material.construct exampleRegistry { redDriver with descriptorSet := none } 4096 "sphere"
        (fun _ => 0) =
      .error (.runtime_error "Failed to build material descriptor set!") :=
  ⟨⟨_, rfl, rfl⟩, rfl⟩

/-! ## Recording: sort order, draws, material binds, unregistered names -/

theorem Registered.lookupable {gp : GraphicsPipeline} {o : RenderObject}
    (h : Registered gp o) : Lookupable gp o := by
  obtain ⟨p, l, hp, _, hl⟩ := h
  exact ⟨p, l, hp, hl⟩

theorem filter_isDraw_bindPipelineCmds (cam p l : Nat) (st : LoopState) :
    (bindPipelineCmds cam p l st).1.filter Cmd.isDraw = [] := by
  unfold bindPipelineCmds
  by_cases h : p = st.lastPipeline <;> by_cases hc : cam = VK_NULL_HANDLE <;>
    simp [h, hc, Cmd.isDraw]

theorem filter_isDraw_bindMaterialCmds (l m : Nat) (st : LoopState) :
    (bindMaterialCmds l m st).1.filter Cmd.isDraw = [] := by
  unfold bindMaterialCmds
  split <;> simp [Cmd.isDraw]

theorem filter_isDraw_drawCmds (l : Nat) (o : RenderObject) :
    (drawCmds l o).filter Cmd.isDraw = [drawCmdOf o] := by
  unfold drawCmds drawCmdOf
  cases o.model <;> simp [Cmd.isDraw]

theorem materialSetsBound_append (a b : List Cmd) :
    materialSetsBound (a ++ b) = materialSetsBound a ++ materialSetsBound b := by
  simp [materialSetsBound]

theorem materialSetsBound_bindPipelineCmds (cam p l : Nat) (st : LoopState) :
    materialSetsBound (bindPipelineCmds cam p l st).1 = [] := by
  unfold bindPipelineCmds materialSetsBound
  by_cases h : p = st.lastPipeline <;> by_cases hc : cam = VK_NULL_HANDLE <;>
    simp [h, hc, Cmd.materialSetBound]

theorem materialSetsBound_bindMaterialCmds (l m : Nat) (st : LoopState) :
    materialSetsBound (bindMaterialCmds l m st).1 =
      if m ≠ st.lastMaterialSet ∧ m ≠ VK_NULL_HANDLE then [m] else [] := by
  unfold bindMaterialCmds materialSetsBound
  split <;> simp [Cmd.materialSetBound]

theorem materialSetsBound_drawCmds (l : Nat) (o : RenderObject) :
    materialSetsBound (drawCmds l o) = [] := by
  unfold drawCmds materialSetsBound
  cases o.model <;> simp [Cmd.materialSetBound]

theorem destutter'_eq_cons_tail (l : List Nat) :
    ∀ a, List.destutter' (· ≠ ·) a l = a :: (List.destutter' (· ≠ ·) a l).tail := by
  induction l with
  | nil => intro a; rfl
  | cons b rest ih =>
    intro a
    rw [List.destutter'_cons]
    split
    · rfl
    · exact ih a

theorem recordLoop_lookupable (gp : GraphicsPipeline) (cam : Nat) :
    ∀ (objs : List RenderObject) (st : LoopState), (∀ o ∈ objs, Lookupable gp o) →
      (recordLoop gp cam st objs).error = none ∧
      (recordLoop gp cam st objs).cmds.filter Cmd.isDraw = objs.map drawCmdOf ∧
      materialSetsBound (recordLoop gp cam st objs).cmds =
        (List.destutter' (· ≠ ·) st.lastMaterialSet (nonNullMaterialSets objs)).tail := by
  intro objs
  induction objs with
  | nil => intro st _; simp [recordLoop, materialSetsBound, nonNullMaterialSets]
  | cons o rest ih =>
    intro st hreg
    obtain ⟨p, l, hp, hl⟩ := hreg o (List.mem_cons_self _ _)
    have hrest : ∀ x ∈ rest, Lookupable gp x := fun x hx => hreg x (List.mem_cons_of_mem _ hx)
    have hstep := @recordObject_ok gp cam st o p l hp hl
    obtain ⟨i1, i2, i3⟩ := ih (bindMaterialCmds l o.material.m_materialDescriptorSet
            (bindPipelineCmds cam p l st).2).2 hrest
    rw [bindMaterialCmds_lastMaterialSet, bindPipelineCmds_lastMaterialSet] at i3
    simp only [recordLoop, hstep]
    refine ⟨i1, ?_, ?_⟩
    · simp only [List.filter_append, filter_isDraw_bindPipelineCmds,
        filter_isDraw_bindMaterialCmds, filter_isDraw_drawCmds, i2, List.nil_append,
        List.map_cons, List.singleton_append]
    · rw [materialSetsBound_append, materialSetsBound_append, materialSetsBound_append,
        materialSetsBound_bindPipelineCmds, materialSetsBound_bindMaterialCmds,
        materialSetsBound_drawCmds, bindPipelineCmds_lastMaterialSet, i3]
      by_cases hz : o.material.m_materialDescriptorSet = VK_NULL_HANDLE
      · have hc : ¬ (o.material.m_materialDescriptorSet ≠ st.lastMaterialSet ∧
            o.material.m_materialDescriptorSet ≠ VK_NULL_HANDLE) := fun hh => hh.2 hz
        have hf : nonNullMaterialSets (o :: rest) = nonNullMaterialSets rest := by
          unfold nonNullMaterialSets
          rw [List.map_cons]
          apply List.filter_cons_of_neg
          simp [materialSetOf, hz]
        rw [if_neg hc, if_neg hc, hf]
        simp
      · have hf : nonNullMaterialSets (o :: rest) =
            o.material.m_materialDescriptorSet :: nonNullMaterialSets rest := by
          unfold nonNullMaterialSets
          rw [List.map_cons]
          apply List.filter_cons_of_pos
          simp [materialSetOf, hz]
        rw [hf, List.destutter'_cons]
        by_cases he : o.material.m_materialDescriptorSet = st.lastMaterialSet
        · have hc : ¬ (o.material.m_materialDescriptorSet ≠ st.lastMaterialSet ∧
              o.material.m_materialDescriptorSet ≠ VK_NULL_HANDLE) := fun hh => hh.1 he
          have h2 : ¬ (st.lastMaterialSet ≠ o.material.m_materialDescriptorSet) :=
            fun hh => hh he.symm
          rw [if_neg hc, if_neg hc, if_neg h2]
          simp
        · have hc : o.material.m_materialDescriptorSet ≠ st.lastMaterialSet ∧
              o.material.m_materialDescriptorSet ≠ VK_NULL_HANDLE := ⟨he, hz⟩
          have h2 : st.lastMaterialSet ≠ o.material.m_materialDescriptorSet :=
            fun hh => he hh.symm
          rw [if_pos hc, if_pos hc, if_pos h2, List.tail_cons]
          rw [destutter'_eq_cons_tail (nonNullMaterialSets rest)
            o.material.m_materialDescriptorSet]
          simp

theorem recordGlobalBind_lookupable (gp : GraphicsPipeline) (cam : Nat)
    (sorted : List RenderObject) (hreg : ∀ o ∈ sorted, Lookupable gp o) :
    ∃ g, recordGlobalBind gp cam sorted = .ok g ∧ ∀ c ∈ g, c.isSetBind 0 = true := by
  cases sorted with
  | nil => exact ⟨[], rfl, by simp⟩
  | cons first rest =>
    obtain ⟨p, l, _, hl⟩ := hreg first (List.mem_cons_self _ _)
    by_cases hc : cam = VK_NULL_HANDLE
    · exact ⟨[], by simp [recordGlobalBind, hc], by simp⟩
    · exact ⟨[Cmd.bindDescriptorSets l 0 cam], by simp [recordGlobalBind, hc, hl],
        by simp [Cmd.isSetBind]⟩

theorem recordSorted_lookupable (gp : GraphicsPipeline) (cam i : Nat) (endOk : Bool)
    (sorted : List RenderObject) (hreg : ∀ o ∈ sorted, Lookupable gp o) :
    (∃ g, (∀ c ∈ g, c.isSetBind 0 = true) ∧
      (recordSorted gp cam i endOk sorted).cmds =
        Cmd.beginRenderPass i :: g ++ (recordLoop gp cam LoopState.init sorted).cmds ++
          [Cmd.endRenderPass]) ∧
    (recordSorted gp cam i endOk sorted).error =
      if endOk then none else some (.runtime_error "failed to record command buffer!") := by
  obtain ⟨g, hg, hall⟩ := recordGlobalBind_lookupable gp cam sorted hreg
  have herr := (recordLoop_lookupable gp cam sorted LoopState.init hreg).1
  refine ⟨⟨g, hall, ?_⟩, ?_⟩
  · simp [recordSorted, hg, herr]
  · simp [recordSorted, hg, herr]

theorem setBinds_filter_isDraw (g : List Cmd) (h : ∀ c ∈ g, c.isSetBind 0 = true) :
    g.filter Cmd.isDraw = [] := by
  rw [List.filter_eq_nil_iff]
  intro c hc
  have := h c hc
  cases c <;> simp_all [Cmd.isSetBind, Cmd.isDraw]

theorem setBinds_materialSetsBound (g : List Cmd) (h : ∀ c ∈ g, c.isSetBind 0 = true) :
    materialSetsBound g = [] := by
  unfold materialSetsBound
  rw [List.filterMap_eq_nil_iff]
  intro c hc
  have := h c hc
  cases c with
  | bindDescriptorSets l f s =>
    simp only [Cmd.isSetBind, beq_iff_eq] at this
    subst this
    rfl
  | _ => simp [Cmd.isSetBind] at this

theorem recorded_draws (gp : GraphicsPipeline) (cam i : Nat) (endOk : Bool)
    (sorted : List RenderObject) (hreg : ∀ o ∈ sorted, Lookupable gp o) :
    (recordCommandsFrom gp cam i true endOk sorted).cmds.filter Cmd.isDraw =
      sorted.map drawCmdOf := by
  obtain ⟨⟨g, hall, hc⟩, _⟩ := recordSorted_lookupable gp cam i endOk sorted hreg
  simp only [recordCommandsFrom, if_true]
  rw [hc, ← List.singleton_append, List.filter_append, List.filter_append, List.filter_append,
    setBinds_filter_isDraw g hall, (recordLoop_lookupable gp cam sorted LoopState.init hreg).2.1]
  simp [Cmd.isDraw]

/-- C21 (as stated, refuted): seventeen objects that share one material have equal sort
keys; `std::sort` as libstdc++ implements it moves the median of three to the front and
partitions, and returns them in the order 8, 16, 15, .., 9, 0, 7, 6, .., 1 of their scene
positions, which is the order in which `recordCommands` then pushes their transforms and
draws them. -/
theorem C21_counterexample :
    (∀ o ∈ seventeenSpheres, o.getSortKey = redSphere.getSortKey) ∧
    (sortKeyLess.sort seventeenSpheres).map (List.map RenderObject.transform) =
      some [[8], [16], [15], [14], [13], [12], [11], [10], [9], [0], [7], [6], [5], [4],
        [3], [2], [1]] ∧
    (∃ sorted, sortKeyLess.sort seventeenSpheres = some sorted ∧
      IsStdSortResult seventeenSpheres sorted ∧
      ((recordCommandsFrom exampleRegistry 41 0 true true sorted).cmds.filter
          Cmd.isPush).take 3 =
        [Cmd.pushConstants 14 VK_SHADER_STAGE_VERTEX_BIT 0 64 [8],
          Cmd.pushConstants 14 VK_SHADER_STAGE_VERTEX_BIT 0 64 [16],
          Cmd.pushConstants 14 VK_SHADER_STAGE_VERTEX_BIT 0 64 [15]]) := by
  refine ⟨by decide, by decide, ?_⟩
  refine ⟨[8, 16, 15, 14, 13, 12, 11, 10, 9, 0, 7, 6, 5, 4, 3, 2, 1].map
    (fun i => { redSphere with transform := [i] }), by decide, ⟨?_, by decide⟩, by decide⟩
  decide

/-- C21 (amended): `recordCommands` orders the draw list with `std::sort` on `getSortKey`:
a sorted order exists for every scene, and for every order the sort may produce, the
recorded order is a permutation of the scene list that is non-decreasing in sort key, the
draws being recorded object by object in that order; the relative order of objects with
equal sort keys is not determined. -/
theorem C21_sorted_permutation_nondecreasing (gp : GraphicsPipeline) (cam imageIndex : Nat)
    (endOk : Bool) (scene sorted : List RenderObject)
    (hsort : IsStdSortResult scene sorted) (hreg : ∀ o ∈ scene, Lookupable gp o) :
    IsStdSortResult scene (stdSort scene) ∧
    sorted.Perm scene ∧
    (sorted.map RenderObject.getSortKey).Pairwise (· ≤ ·) ∧
    (recordCommandsFrom gp cam imageIndex true endOk sorted).cmds.filter Cmd.isDraw =
      sorted.map drawCmdOf := by
  refine ⟨stdSort_isStdSortResult scene, hsort.1, ?_, ?_⟩
  · rw [List.pairwise_map]
    exact hsort.2
  · exact recorded_draws gp cam imageIndex endOk sorted
      (fun o ho => hreg o (hsort.1.subset ho))

/-- C21 witness: the blue and the red sphere of `buildScene`, listed blue first. -/
theorem C21_sorted_permutation_nondecreasing_witness :
    IsStdSortResult [blueSphere, redSphere] (stdSort [blueSphere, redSphere]) ∧
    (stdSort [blueSphere, redSphere]).Perm [blueSphere, redSphere] ∧
    ((stdSort [blueSphere, redSphere]).map RenderObject.getSortKey).Pairwise (· ≤ ·) ∧
    (recordCommandsFrom exampleRegistry 41 0 true true
        (stdSort [blueSphere, redSphere])).cmds.filter Cmd.isDraw =
      (stdSort [blueSphere, redSphere]).map drawCmdOf :=
  C21_sorted_permutation_nondecreasing exampleRegistry 41 0 true [blueSphere, redSphere]
    (stdSort [blueSphere, redSphere]) (stdSort_isStdSortResult _)
    (by
      intro o ho
      simp only [List.mem_cons, List.mem_singleton, List.not_mem_nil, or_false] at ho
      rcases ho with rfl | rfl <;> exact ⟨12, 14, rfl, rfl⟩)

/-- C23: when every pipeline name of the scene is registered and recording begins,
`recordCommands` records exactly one draw command per scene object: the draws recorded
are those of the sorted list, object by object, the sorted list is a permutation of the
scene list, and the draw of an object is an indexed draw with the model's index count when
it carries a mesh and a draw of 3 vertices when it carries none. -/
theorem C23_one_draw_per_object (gp : GraphicsPipeline) (cam imageIndex : Nat)
    (endOk : Bool) (scene sorted : List RenderObject)
    (hsort : IsStdSortResult scene sorted) (hreg : ∀ o ∈ scene, Lookupable gp o) :
    (recordCommandsFrom gp cam imageIndex true endOk sorted).cmds.filter Cmd.isDraw =
      sorted.map drawCmdOf ∧
    sorted.Perm scene ∧
    ((recordCommandsFrom gp cam imageIndex true endOk sorted).cmds.filter Cmd.isDraw).length =
      scene.length ∧
    (∀ o ∈ scene, ∀ m, o.model = some m → drawCmdOf o = Cmd.drawIndexed m.m_indexCount) ∧
    (∀ o ∈ scene, o.model = none → drawCmdOf o = Cmd.draw 3) := by
  have hd := recorded_draws gp cam imageIndex endOk sorted
    (fun o ho => hreg o (hsort.1.subset ho))
  refine ⟨hd, hsort.1, ?_, ?_, ?_⟩
  · rw [hd, List.length_map, hsort.1.length_eq]
  · intro o _ m hm
    simp [drawCmdOf, hm]
  · intro o _ hm
    simp [drawCmdOf, hm]

/-- C23 witness: the background without a mesh and the two spheres. -/
theorem C23_one_draw_per_object_witness :
    (recordCommandsFrom exampleRegistry 41 0 true true
        (stdSort [background, redSphere, blueSphere])).cmds.filter Cmd.isDraw =
      (stdSort [background, redSphere, blueSphere]).map drawCmdOf ∧
    ((recordCommandsFrom exampleRegistry 41 0 true true
        (stdSort [background, redSphere, blueSphere])).cmds.filter Cmd.isDraw).length = 3 :=
  ⟨(C23_one_draw_per_object exampleRegistry 41 0 true [background, redSphere, blueSphere]
      (stdSort [background, redSphere, blueSphere]) (stdSort_isStdSortResult _)
      (by
        intro o ho
        simp only [List.mem_cons, List.mem_singleton, List.not_mem_nil, or_false] at ho
        rcases ho with rfl | rfl | rfl
        · exact ⟨11, 13, rfl, rfl⟩
        · exact ⟨12, 14, rfl, rfl⟩
        · exact ⟨12, 14, rfl, rfl⟩)).1,
    (C23_one_draw_per_object exampleRegistry 41 0 true [background, redSphere, blueSphere]
      (stdSort [background, redSphere, blueSphere]) (stdSort_isStdSortResult _)
      (by
        intro o ho
        simp only [List.mem_cons, List.mem_singleton, List.not_mem_nil, or_false] at ho
        rcases ho with rfl | rfl | rfl
        · exact ⟨11, 13, rfl, rfl⟩
        · exact ⟨12, 14, rfl, rfl⟩
        · exact ⟨12, 14, rfl, rfl⟩)).2.2.1⟩

/-- C24: when every pipeline name of the scene is registered and recording begins, the
material descriptor sets bound by `recordCommands` are, in order, the non-null material
sets of the sorted list with each run of equal sets reduced to its first member: a set is
bound for an object exactly when it is non-null and differs from the last set bound. So the
number of material binds is the number of maximal runs of equal sets among the non-null
sets of the sorted list, which are the runs of the sorted list itself when no object has a
null set, and no set is bound twice in a row. -/
theorem C24_material_binds_are_runs (gp : GraphicsPipeline) (cam imageIndex : Nat)
    (endOk : Bool) (scene sorted : List RenderObject)
    (hsort : IsStdSortResult scene sorted) (hreg : ∀ o ∈ scene, Lookupable gp o) :
    materialSetsBound (recordCommandsFrom gp cam imageIndex true endOk sorted).cmds =
      (nonNullMaterialSets sorted).destutter (· ≠ ·) ∧
    materialBindCount (recordCommandsFrom gp cam imageIndex true endOk sorted).cmds =
      runCount (nonNullMaterialSets sorted) ∧
    (materialSetsBound (recordCommandsFrom gp cam imageIndex true endOk sorted).cmds).Chain'
      (· ≠ ·) ∧
    ((∀ o ∈ scene, materialSetOf o ≠ VK_NULL_HANDLE) →
      materialBindCount (recordCommandsFrom gp cam imageIndex true endOk sorted).cmds =
        runCount (sorted.map materialSetOf)) := by
  have hreg1 : ∀ o ∈ sorted, Lookupable gp o := fun o ho => hreg o (hsort.1.subset ho)
  obtain ⟨⟨g, hall, hc⟩, _⟩ := recordSorted_lookupable gp cam imageIndex endOk sorted hreg1
  have hseq : materialSetsBound (recordCommandsFrom gp cam imageIndex true endOk sorted).cmds =
      (nonNullMaterialSets sorted).destutter (· ≠ ·) := by
    simp only [recordCommandsFrom, if_true]
    rw [hc, ← List.singleton_append, materialSetsBound_append, materialSetsBound_append,
      materialSetsBound_append, setBinds_materialSetsBound g hall,
      (recordLoop_lookupable gp cam sorted LoopState.init hreg1).2.2]
    have h1 : materialSetsBound [Cmd.beginRenderPass imageIndex] = [] := rfl
    have h2 : materialSetsBound [Cmd.endRenderPass] = [] := rfl
    rw [h1, h2, List.nil_append, List.nil_append, List.append_nil]
    cases hn : nonNullMaterialSets sorted with
    | nil => rfl
    | cons s rest =>
      have hs : s ∈ nonNullMaterialSets sorted := by rw [hn]; exact List.mem_cons_self _ _
      have hsne : s ≠ VK_NULL_HANDLE := by
        unfold nonNullMaterialSets at hs
        have := List.of_mem_filter hs
        simpa using this
      have h0 : LoopState.init.lastMaterialSet ≠ s := fun hh => hsne hh.symm
      rw [List.destutter'_cons, if_pos h0, List.tail_cons, List.destutter_cons']
  have hcount : materialBindCount (recordCommandsFrom gp cam imageIndex true endOk sorted).cmds =
      (materialSetsBound (recordCommandsFrom gp cam imageIndex true endOk sorted).cmds).length := by
    unfold materialBindCount materialSetsBound
    generalize (recordCommandsFrom gp cam imageIndex true endOk sorted).cmds = cs
    induction cs with
    | nil => rfl
    | cons c rest ih =>
      cases c with
      | bindDescriptorSets l f s =>
        by_cases hf : f = 1
        · subst hf
          simp [Cmd.isSetBind, Cmd.materialSetBound, List.filter_cons, List.filterMap_cons, ih]
        · have hm : Cmd.materialSetBound (Cmd.bindDescriptorSets l f s) = none := by
            unfold Cmd.materialSetBound
            split
            · next heq => cases heq; exact absurd rfl hf
            · rfl
          simp [Cmd.isSetBind, hf, List.filter_cons, List.filterMap_cons, hm, ih]
      | _ => simp [Cmd.isSetBind, Cmd.materialSetBound, List.filter_cons,
          List.filterMap_cons, ih]
  have hruns : materialBindCount
      (recordCommandsFrom gp cam imageIndex true endOk sorted).cmds =
      runCount (nonNullMaterialSets sorted) := by
    rw [hcount, hseq]
    rfl
  refine ⟨hseq, hruns, ?_, ?_⟩
  · rw [hseq]
    exact List.destutter_is_chain' _ _
  · intro hnn
    have hall : nonNullMaterialSets sorted = sorted.map materialSetOf := by
      unfold nonNullMaterialSets
      rw [List.filter_eq_self]
      intro x hx
      obtain ⟨o, ho, rfl⟩ := List.mem_map.1 hx
      simpa using hnn o (hsort.1.subset ho)
    rw [hruns, hall]

/-- C24 witness: the red sphere twice and the blue sphere; two material binds. -/
theorem C24_material_binds_are_runs_witness :
    materialSetsBound (recordCommandsFrom exampleRegistry 41 0 true true
        (stdSort [redSphere, blueSphere, redSphere])).cmds =
      (nonNullMaterialSets (stdSort [redSphere, blueSphere, redSphere])).destutter (· ≠ ·) ∧
    materialBindCount (recordCommandsFrom exampleRegistry 41 0 true true
        (stdSort [redSphere, blueSphere, redSphere])).cmds =
      runCount (nonNullMaterialSets (stdSort [redSphere, blueSphere, redSphere])) :=
  ⟨(C24_material_binds_are_runs exampleRegistry 41 0 true [redSphere, blueSphere, redSphere]
      (stdSort [redSphere, blueSphere, redSphere]) (stdSort_isStdSortResult _)
      (by
        intro o ho
        simp only [List.mem_cons, List.mem_singleton, List.not_mem_nil, or_false] at ho
        rcases ho with rfl | rfl | rfl <;> exact ⟨12, 14, rfl, rfl⟩)).1,
    (C24_material_binds_are_runs exampleRegistry 41 0 true [redSphere, blueSphere, redSphere]
      (stdSort [redSphere, blueSphere, redSphere]) (stdSort_isStdSortResult _)
      (by
        intro o ho
        simp only [List.mem_cons, List.mem_singleton, List.not_mem_nil, or_false] at ho
        rcases ho with rfl | rfl | rfl <;> exact ⟨12, 14, rfl, rfl⟩)).2.1⟩


/-! ## Recording: names that are not registered -/

theorem getPipeline_ok_iff (gp : GraphicsPipeline) (name : String) :
    (∃ p, gp.getPipeline name = .ok p) ↔ name ∈ gp.m_pipelines.keys := by
  unfold GraphicsPipeline.getPipeline
  rcases lookup_cases gp.m_pipelines name "Failed to find pipeline: " with ⟨hn, he⟩ | ⟨hk, h, he, _⟩
  · rw [he]
    exact ⟨fun ⟨p, hp⟩ => (by cases hp), fun hk => absurd hk hn⟩
  · rw [he]
    exact ⟨fun _ => hk, fun _ => ⟨h, rfl⟩⟩

theorem getLayout_ok_iff (gp : GraphicsPipeline) (name : String) :
    (∃ l, gp.getLayout name = .ok l) ↔ name ∈ gp.m_pipelineLayouts.keys := by
  unfold GraphicsPipeline.getLayout
  rcases lookup_cases gp.m_pipelineLayouts name "Failed to find pipeline layout: " with
    ⟨hn, he⟩ | ⟨hk, h, he, _⟩
  · rw [he]
    exact ⟨fun ⟨p, hp⟩ => (by cases hp), fun hk => absurd hk hn⟩
  · rw [he]
    exact ⟨fun _ => hk, fun _ => ⟨h, rfl⟩⟩

theorem getPipeline_cases (gp : GraphicsPipeline) (name : String) :
    (∃ p, gp.getPipeline name = .ok p) ∨
      gp.getPipeline name = .error (.runtime_error ("Failed to find pipeline: " ++ name)) := by
  unfold GraphicsPipeline.getPipeline
  cases gp.m_pipelines.at? name with
  | none => exact Or.inr rfl
  | some h => exact Or.inl ⟨h, rfl⟩

theorem getLayout_cases (gp : GraphicsPipeline) (name : String) :
    (∃ l, gp.getLayout name = .ok l) ∨
      gp.getLayout name =
        .error (.runtime_error ("Failed to find pipeline layout: " ++ name)) := by
  unfold GraphicsPipeline.getLayout
  cases gp.m_pipelineLayouts.at? name with
  | none => exact Or.inr rfl
  | some h => exact Or.inl ⟨h, rfl⟩

theorem lookupable_iff (gp : GraphicsPipeline) (o : RenderObject) :
    Lookupable gp o ↔ o.material.m_pipelineName ∈ gp.m_pipelines.keys ∧
      o.material.m_pipelineName ∈ gp.m_pipelineLayouts.keys := by
  rw [← getPipeline_ok_iff, ← getLayout_ok_iff]
  constructor
  · rintro ⟨p, l, hp, hl⟩
    exact ⟨⟨p, hp⟩, ⟨l, hl⟩⟩
  · rintro ⟨⟨p, hp⟩, ⟨l, hl⟩⟩
    exact ⟨p, l, hp, hl⟩

/-- The two forms of the error that a failed registry lookup for `o` throws. -/
theorem recordObject_not_lookupable (gp : GraphicsPipeline) (cam : Nat) (st : LoopState)
    (o : RenderObject) (h : ¬ Lookupable gp o) :
    recordObject gp cam st o =
        .error (.runtime_error ("Failed to find pipeline: " ++ o.material.m_pipelineName)) ∨
      recordObject gp cam st o =
        .error (.runtime_error
          ("Failed to find pipeline layout: " ++ o.material.m_pipelineName)) := by
  rcases getPipeline_cases gp o.material.m_pipelineName with ⟨p, hp⟩ | hp
  · rcases getLayout_cases gp o.material.m_pipelineName with ⟨l, hl⟩ | hl
    · exact absurd ⟨p, l, hp, hl⟩ h
    · right
      simp [recordObject, hp, hl]
  · left
    simp [recordObject, hp]

theorem recordLoop_fails_at (gp : GraphicsPipeline) (cam : Nat) (bad : RenderObject)
    (post : List RenderObject) (hbad : ¬ Lookupable gp bad) :
    ∀ (pre : List RenderObject) (st : LoopState), (∀ o ∈ pre, Lookupable gp o) →
      ((recordLoop gp cam st (pre ++ bad :: post)).error =
          some (.runtime_error ("Failed to find pipeline: " ++ bad.material.m_pipelineName)) ∨
        (recordLoop gp cam st (pre ++ bad :: post)).error =
          some (.runtime_error
            ("Failed to find pipeline layout: " ++ bad.material.m_pipelineName))) ∧
      (recordLoop gp cam st (pre ++ bad :: post)).cmds.filter Cmd.isDraw =
        pre.map drawCmdOf := by
  intro pre
  induction pre with
  | nil =>
    intro st _
    rcases recordObject_not_lookupable gp cam st bad hbad with he | he
    · simp [recordLoop, he]
    · simp [recordLoop, he]
  | cons o rest ih =>
    intro st hpre
    obtain ⟨p, l, hp, hl⟩ := hpre o (List.mem_cons_self _ _)
    have hrest : ∀ x ∈ rest, Lookupable gp x := fun x hx => hpre x (List.mem_cons_of_mem _ hx)
    have hstep := @recordObject_ok gp cam st o p l hp hl
    have h := ih (bindMaterialCmds l o.material.m_materialDescriptorSet
      (bindPipelineCmds cam p l st).2).2 hrest
    have hrec : recordLoop gp cam st (o :: rest ++ bad :: post) =
        { cmds := ((bindPipelineCmds cam p l st).1 ++
              (bindMaterialCmds l o.material.m_materialDescriptorSet
                (bindPipelineCmds cam p l st).2).1 ++ drawCmds l o) ++
            (recordLoop gp cam (bindMaterialCmds l o.material.m_materialDescriptorSet
              (bindPipelineCmds cam p l st).2).2 (rest ++ bad :: post)).cmds,
          error := (recordLoop gp cam (bindMaterialCmds l o.material.m_materialDescriptorSet
              (bindPipelineCmds cam p l st).2).2 (rest ++ bad :: post)).error } := by
      rw [List.cons_append]
      simp only [recordLoop, hstep]
    rw [hrec]
    refine ⟨h.1, ?_⟩
    show List.filter Cmd.isDraw (((bindPipelineCmds cam p l st).1 ++
              (bindMaterialCmds l o.material.m_materialDescriptorSet
                (bindPipelineCmds cam p l st).2).1 ++ drawCmds l o) ++
            (recordLoop gp cam (bindMaterialCmds l o.material.m_materialDescriptorSet
              (bindPipelineCmds cam p l st).2).2 (rest ++ bad :: post)).cmds) = _
    rw [List.filter_append, List.filter_append, List.filter_append, h.2,
      filter_isDraw_bindPipelineCmds, filter_isDraw_bindMaterialCmds, filter_isDraw_drawCmds]
    rfl

theorem exists_first_not_lookupable (gp : GraphicsPipeline) :
    ∀ (objs : List RenderObject), (∃ o ∈ objs, ¬ Lookupable gp o) →
      ∃ pre bad post, objs = pre ++ bad :: post ∧ (∀ o ∈ pre, Lookupable gp o) ∧
        ¬ Lookupable gp bad := by
  intro objs
  induction objs with
  | nil =>
    rintro ⟨o, ho, _⟩
    cases ho
  | cons a rest ih =>
    rintro ⟨o, ho, hn⟩
    by_cases ha : Lookupable gp a
    · have hor : o ∈ rest := by
        rcases List.mem_cons.1 ho with rfl | h
        · exact absurd ha hn
        · exact h
      obtain ⟨pre, bad, post, he, hpre, hbad⟩ := ih ⟨o, hor, hn⟩
      refine ⟨a :: pre, bad, post, by rw [he]; rfl, ?_, hbad⟩
      intro x hx
      rcases List.mem_cons.1 hx with rfl | h
      · exact ha
      · exact hpre x h
    · exact ⟨[], a, rest, rfl, by simp, ha⟩

theorem recordGlobalBind_setBinds (gp : GraphicsPipeline) (cam : Nat)
    (sorted : List RenderObject) (g : List Cmd) (h : recordGlobalBind gp cam sorted = .ok g) :
    ∀ c ∈ g, c.isSetBind 0 = true := by
  cases sorted with
  | nil =>
    simp only [recordGlobalBind, Except.ok.injEq] at h
    subst h
    simp
  | cons first rest =>
    by_cases hc : cam = VK_NULL_HANDLE
    · simp only [recordGlobalBind, hc, ne_eq, not_true_eq_false, if_false,
        Except.ok.injEq] at h
      subst h
      simp
    · rcases getLayout_cases gp first.material.m_pipelineName with ⟨l, hl⟩ | hl
      · simp only [recordGlobalBind, ne_eq, hc, not_false_eq_true, if_true, hl,
          Except.ok.injEq] at h
        subst h
        simp [Cmd.isSetBind]
      · simp [recordGlobalBind, hc, hl] at h

theorem recordSorted_fails_at (gp : GraphicsPipeline) (cam i : Nat) (endOk : Bool)
    (pre : List RenderObject) (bad : RenderObject) (post : List RenderObject)
    (hpre : ∀ o ∈ pre, Lookupable gp o) (hbad : ¬ Lookupable gp bad) :
    ((recordSorted gp cam i endOk (pre ++ bad :: post)).error =
        some (.runtime_error ("Failed to find pipeline: " ++ bad.material.m_pipelineName)) ∨
      (recordSorted gp cam i endOk (pre ++ bad :: post)).error =
        some (.runtime_error
          ("Failed to find pipeline layout: " ++ bad.material.m_pipelineName))) ∧
    (recordSorted gp cam i endOk (pre ++ bad :: post)).cmds.filter Cmd.isDraw =
      pre.map drawCmdOf := by
  have hloop := recordLoop_fails_at gp cam bad post hbad pre LoopState.init hpre
  cases hg : recordGlobalBind gp cam (pre ++ bad :: post) with
  | error e =>
    cases pre with
    | nil =>
      have hc : cam ≠ VK_NULL_HANDLE := by
        intro hc
        simp [recordGlobalBind, hc] at hg
      rcases getLayout_cases gp bad.material.m_pipelineName with ⟨l, hl⟩ | hl
      · simp [recordGlobalBind, hc, hl] at hg
      · simp only [List.nil_append, recordGlobalBind, ne_eq, hc, not_false_eq_true, if_true,
          hl, Except.error.injEq] at hg
        subst hg
        simp only [List.nil_append]
        refine ⟨Or.inr ?_, ?_⟩
        · simp [recordSorted, recordGlobalBind, hc, hl]
        · simp [recordSorted, recordGlobalBind, hc, hl, Cmd.isDraw]
    | cons o rest =>
      obtain ⟨p, l, _, hl⟩ := hpre o (List.mem_cons_self _ _)
      by_cases hc : cam = VK_NULL_HANDLE
      · simp [recordGlobalBind, hc] at hg
      · simp [recordGlobalBind, hc, hl] at hg
  | ok g =>
    have hall := recordGlobalBind_setBinds gp cam _ g hg
    rcases hloop with ⟨herr, hdraw⟩
    have hsome : ∃ e, (recordLoop gp cam LoopState.init (pre ++ bad :: post)).error = some e := by
      rcases herr with h | h <;> exact ⟨_, h⟩
    obtain ⟨e, he⟩ := hsome
    have hrec : recordSorted gp cam i endOk (pre ++ bad :: post) =
        { cmds := Cmd.beginRenderPass i :: g ++
            (recordLoop gp cam LoopState.init (pre ++ bad :: post)).cmds, error := some e } := by
      simp [recordSorted, hg, he]
    rw [hrec]
    refine ⟨by rw [← he]; exact herr, ?_⟩
    show (Cmd.beginRenderPass i :: g ++
      (recordLoop gp cam LoopState.init (pre ++ bad :: post)).cmds).filter Cmd.isDraw = _
    rw [← List.singleton_append, List.append_assoc, List.filter_append, List.filter_append,
      setBinds_filter_isDraw g hall, hdraw]
    simp [Cmd.isDraw]

/-- C25: a material that names a pipeline missing from the registry makes
`recordCommands` (once recording has begun) fail with the error of the failed registry
lookup, `Failed to find pipeline: NAME` or `Failed to find pipeline layout: NAME`, where
NAME is the name of the first object of the sorted list whose lookups do not both succeed;
the draws recorded are those of the objects before it, so no object with an unregistered
name is among the objects drawn. When every name is a key of the pipeline map and of the
layout map and both begin and end succeed, `recordCommands` ends without an error. -/
theorem C25_unregistered_name_fails (gp : GraphicsPipeline) (cam imageIndex : Nat)
    (scene sorted : List RenderObject) (hsort : IsStdSortResult scene sorted) :
    (∀ endOk, (∃ o ∈ scene, o.material.m_pipelineName ∉ gp.m_pipelines.keys) →
      ∃ pre bad post, sorted = pre ++ bad :: post ∧
        ((recordCommandsFrom gp cam imageIndex true endOk sorted).error =
            some (.runtime_error
              ("Failed to find pipeline: " ++ bad.material.m_pipelineName)) ∨
          (recordCommandsFrom gp cam imageIndex true endOk sorted).error =
            some (.runtime_error
              ("Failed to find pipeline layout: " ++ bad.material.m_pipelineName))) ∧
        (bad.material.m_pipelineName ∉ gp.m_pipelines.keys ∨
          bad.material.m_pipelineName ∉ gp.m_pipelineLayouts.keys) ∧
        (recordCommandsFrom gp cam imageIndex true endOk sorted).cmds.filter Cmd.isDraw =
          pre.map drawCmdOf ∧
        (∀ o ∈ scene, o.material.m_pipelineName ∉ gp.m_pipelines.keys → o ∉ pre)) ∧
    ((∀ o ∈ scene, o.material.m_pipelineName ∈ gp.m_pipelines.keys ∧
          o.material.m_pipelineName ∈ gp.m_pipelineLayouts.keys) →
      (recordCommandsFrom gp cam imageIndex true true sorted).error = none) := by
  constructor
  · rintro endOk ⟨o, ho, hn⟩
    have hex : ∃ o ∈ sorted, ¬ Lookupable gp o :=
      ⟨o, hsort.1.symm.subset ho, fun hl => hn ((lookupable_iff gp o).1 hl).1⟩
    obtain ⟨pre, bad, post, he, hpre, hbad⟩ := exists_first_not_lookupable gp sorted hex
    have hf := recordSorted_fails_at gp cam imageIndex endOk pre bad post hpre hbad
    refine ⟨pre, bad, post, he, ?_, ?_, ?_, ?_⟩
    · simp only [recordCommandsFrom, if_true]
      rw [he]
      exact hf.1
    · by_contra hcon
      push_neg at hcon
      exact hbad ((lookupable_iff gp bad).2 hcon)
    · simp only [recordCommandsFrom, if_true]
      rw [he]
      exact hf.2
    · intro x _ hx hmem
      exact hx ((lookupable_iff gp x).1 (hpre x hmem)).1
  · intro hall
    have hreg : ∀ o ∈ sorted, Lookupable gp o := fun o ho =>
      (lookupable_iff gp o).2 (hall o (hsort.1.subset ho))
    have h := (recordSorted_lookupable gp cam imageIndex true sorted hreg).2
    simpa [recordCommandsFrom] using h

/-- C25 witness: the red sphere and a sphere whose material names the removed pipeline
"wireframe"; and the scene of the two registered spheres. -/
theorem C25_unregistered_name_fails_witness :
    (∃ pre bad post, stdSort [redSphere, staleSphere] = pre ++ bad :: post ∧
      ((recordCommandsFrom exampleRegistry 41 0 true true
            (stdSort [redSphere, staleSphere])).error =
          some (.runtime_error ("Failed to find pipeline: " ++ bad.material.m_pipelineName)) ∨
        (recordCommandsFrom exampleRegistry 41 0 true true
            (stdSort [redSphere, staleSphere])).error =
          some (.runtime_error
            ("Failed to find pipeline layout: " ++ bad.material.m_pipelineName))) ∧
      (bad.material.m_pipelineName ∉ exampleRegistry.m_pipelines.keys ∨
        bad.material.m_pipelineName ∉ exampleRegistry.m_pipelineLayouts.keys) ∧
      (recordCommandsFrom exampleRegistry 41 0 true true
          (stdSort [redSphere, staleSphere])).cmds.filter Cmd.isDraw = pre.map drawCmdOf ∧
      (∀ o ∈ [redSphere, staleSphere],
        o.material.m_pipelineName ∉ exampleRegistry.m_pipelines.keys → o ∉ pre)) ∧
    (recordCommandsFrom exampleRegistry 41 0 true true
      (stdSort [redSphere, blueSphere])).error = none :=
  ⟨(C25_unregistered_name_fails exampleRegistry 41 0 [redSphere, staleSphere]
      (stdSort [redSphere, staleSphere]) (stdSort_isStdSortResult _)).1 true
      ⟨staleSphere, by simp, by decide⟩,
    (C25_unregistered_name_fails exampleRegistry 41 0 [redSphere, blueSphere]
      (stdSort [redSphere, blueSphere]) (stdSort_isStdSortResult _)).2
      (by
        intro o ho
        simp only [List.mem_cons, List.mem_singleton, List.not_mem_nil, or_false] at ho
        rcases ho with rfl | rfl <;> exact ⟨by decide, by decide⟩)⟩


/-! ## The order of the calls of a recreation -/

theorem pollSize_polling : ∀ (later : List (Int × Int)) (size : Int × Int),
    ∀ a ∈ (FrameLoop.pollSize size later).1, a.isPolling = true := by
  intro later
  induction later with
  | nil =>
    intro size a ha
    simp [FrameLoop.pollSize] at ha
  | cons next rest ih =>
    intro size a ha
    unfold FrameLoop.pollSize at ha
    by_cases hz : FrameLoop.isZeroSize size = true
    · rw [if_pos hz] at ha
      simp only [List.mem_cons] at ha
      rcases ha with rfl | rfl | ha
      · rfl
      · rfl
      · exact ih next a ha
    · rw [if_neg hz] at ha
      cases ha

theorem recreateSwapChain_shape (env : TickEnv) (s : FrameLoop) :
    ∃ P m, (FrameLoop.recreateSwapChain env s).1.log =
        s.log ++ (P ++ FrameLoop.recreationCalls.take m) ∧
      (∀ x ∈ P, x.isPolling = true) ∧
      ((FrameLoop.recreateSwapChain env s).2 = .returned →
        FrameLoop.recreationCalls.take m = FrameLoop.recreationCalls) := by
  unfold FrameLoop.recreateSwapChain
  cases hsz : env.sizes with
  | nil => exact ⟨[], 0, by simp, by simp, by intro h; cases h⟩
  | cons size later =>
    have hP : ∀ x ∈ Action.framebufferSize size.1 size.2 :: (FrameLoop.pollSize size later).1,
        x.isPolling = true := by
      intro x hx
      rcases List.mem_cons.1 hx with rfl | hx
      · rfl
      · exact pollSize_polling later size x hx
    simp only
    by_cases hp : (FrameLoop.pollSize size later).2 = true
    · rw [if_pos hp]
      cases hf : env.failingRebuild with
      | none =>
        refine ⟨Action.framebufferSize size.1 size.2 :: (FrameLoop.pollSize size later).1,
          8, ?_, hP, fun _ => rfl⟩
        simp [FrameLoop.deviceWaitIdle, FrameLoop.recreationCalls, FrameLoop.rebuildSteps]
      | some k =>
        simp only
        by_cases hk : k < FrameLoop.rebuildSteps.length
        · rw [if_pos hk]
          refine ⟨Action.framebufferSize size.1 size.2 :: (FrameLoop.pollSize size later).1,
            k + 2, ?_, hP, by intro h; cases h⟩
          simp [FrameLoop.deviceWaitIdle, FrameLoop.recreationCalls, List.take_append_of_le_length
            (Nat.succ_le_of_lt hk)]
        · rw [if_neg hk]
          refine ⟨Action.framebufferSize size.1 size.2 :: (FrameLoop.pollSize size later).1,
            8, ?_, hP, fun _ => rfl⟩
          simp [FrameLoop.deviceWaitIdle, FrameLoop.recreationCalls, FrameLoop.rebuildSteps]
    · rw [if_neg hp]
      exact ⟨Action.framebufferSize size.1 size.2 :: (FrameLoop.pollSize size later).1,
        0, by simp, hP, by intro h; cases h⟩

theorem split_after_polling (P : List Action) :
    ∀ (T before after : List Action) (a : Action), (∀ x ∈ P, x.isPolling = true) →
      a.isPolling = false → P ++ T = before ++ a :: after →
      ∃ T1, before = P ++ T1 ∧ T = T1 ++ a :: after := by
  induction P with
  | nil => intro T before after a _ _ h; exact ⟨before, rfl, h⟩
  | cons x P ih =>
    intro T before after a hP ha h
    cases before with
    | nil =>
      simp only [List.cons_append, List.nil_append, List.cons.injEq] at h
      have := hP x (List.mem_cons_self _ _)
      rw [h.1, ha] at this
      cases this
    | cons b before =>
      simp only [List.cons_append, List.cons.injEq] at h
      obtain ⟨T1, h1, h2⟩ := ih T before after a
        (fun y hy => hP y (List.mem_cons_of_mem _ hy)) ha h.2
      exact ⟨T1, by rw [h.1, h1]; rfl, h2⟩

theorem split_of_take (l T1 after : List Action) (a : Action) (m : Nat)
    (h : l.take m = T1 ++ a :: after) :
    T1 = l.take T1.length ∧ l[T1.length]? = some a := by
  have hlen : T1.length < m := by
    have h1 : (l.take m).length = T1.length + (after.length + 1) := by
      rw [h]; simp
    rw [List.length_take] at h1
    omega
  constructor
  · have h2 : (l.take m).take T1.length = T1 := by
      rw [h, List.take_left']
      rfl
    rw [List.take_take, Nat.min_eq_left (Nat.le_of_lt hlen)] at h2
    exact h2.symm
  · have h3 : (l.take m)[T1.length]? = some a := by
      rw [h, List.getElem?_append_right (Nat.le_refl _), Nat.sub_self,
        List.getElem?_cons_zero]
    rw [List.getElem?_take] at h3
    simpa [hlen] using h3

theorem recreationCalls_order : ∀ n, n < 8 → ∀ a, FrameLoop.recreationCalls[n]? = some a →
    (a.isPolling = false) ∧
    ((a.isRebuild = true ∨ a.isCleanup = true) →
      Action.deviceWaitIdle ∈ FrameLoop.recreationCalls.take n) ∧
    (a.isCleanup = true → ∀ r ∈ FrameLoop.rebuildSteps, r ∈ FrameLoop.recreationCalls.take n) := by
  intro n hn a ha
  have h8 : n = 0 ∨ n = 1 ∨ n = 2 ∨ n = 3 ∨ n = 4 ∨ n = 5 ∨ n = 6 ∨ n = 7 := by omega
  rcases h8 with rfl | rfl | rfl | rfl | rfl | rfl | rfl | rfl <;>
    · simp only [FrameLoop.recreationCalls, FrameLoop.rebuildSteps, List.cons_append,
        List.nil_append, List.getElem?_cons_zero, List.getElem?_cons_succ,
        Option.some.injEq] at ha
      subst ha
      decide

theorem not_polling_of_rebuild_or_cleanup (a : Action)
    (h : a.isRebuild = true ∨ a.isCleanup = true) : a.isPolling = false := by
  cases a <;> first | rfl | (rcases h with h | h <;> cases h)

/-- C26: in every run of `recreateSwapChain`, whatever the window sizes read and whichever
rebuild step throws, `vkDeviceWaitIdle` is called before each call that rebuilds the
swapchain, the render pass, the pipelines, the command buffers or the interface and before
each `cleanupOld` call, and each `cleanupOld` call comes after all five rebuild calls. A
run that returns has made both `cleanupOld` calls. -/
theorem C26_idle_before_rebuild_cleanup_last (env : TickEnv) (s : FrameLoop) :
    ∃ added, (FrameLoop.recreateSwapChain env s).1.log = s.log ++ added ∧
      (∀ before a after, added = before ++ a :: after →
        (a.isRebuild = true ∨ a.isCleanup = true) → Action.deviceWaitIdle ∈ before) ∧
      (∀ before a after, added = before ++ a :: after → a.isCleanup = true →
        ∀ r ∈ FrameLoop.rebuildSteps, r ∈ before) ∧
      ((FrameLoop.recreateSwapChain env s).2 = .returned →
        Action.renderPassCleanupOld ∈ added ∧ Action.swapChainCleanupOld ∈ added) := by
  obtain ⟨P, m, hlog, hP, hret⟩ := recreateSwapChain_shape env s
  have key : ∀ before a after, P ++ FrameLoop.recreationCalls.take m = before ++ a :: after →
      a.isPolling = false →
      ∃ T1, before = P ++ T1 ∧ T1 = FrameLoop.recreationCalls.take T1.length ∧
        T1.length < 8 ∧ FrameLoop.recreationCalls[T1.length]? = some a := by
    intro before a after h ha
    obtain ⟨T1, h1, h2⟩ := split_after_polling P _ before after a hP ha h
    obtain ⟨h3, h4⟩ := split_of_take _ T1 after a m h2
    refine ⟨T1, h1, h3, ?_, h4⟩
    have := (List.getElem?_eq_some_iff.1 h4).1
    simpa [FrameLoop.recreationCalls, FrameLoop.rebuildSteps] using this
  refine ⟨P ++ FrameLoop.recreationCalls.take m, hlog, ?_, ?_, ?_⟩
  · intro before a after h ha
    have hnp : a.isPolling = false := not_polling_of_rebuild_or_cleanup a ha
    obtain ⟨T1, h1, h3, hlt, h4⟩ := key before a after h hnp
    rw [h1]
    apply List.mem_append_right
    rw [h3]
    exact (recreationCalls_order T1.length hlt a h4).2.1 ha
  · intro before a after h ha r hr
    have hnp : a.isPolling = false := not_polling_of_rebuild_or_cleanup a (Or.inr ha)
    obtain ⟨T1, h1, h3, hlt, h4⟩ := key before a after h hnp
    rw [h1]
    apply List.mem_append_right
    rw [h3]
    exact (recreationCalls_order T1.length hlt a h4).2.2 ha r hr
  · intro h
    rw [hret h]
    exact ⟨List.mem_append_right _ (by decide), List.mem_append_right _ (by decide)⟩


/-! ## The frame slot and the resize flag after a tick -/

theorem recreateSwapChain_returned_log (env : TickEnv) (s : FrameLoop)
    (h : (FrameLoop.recreateSwapChain env s).2 = .returned) :
    ∃ added, (FrameLoop.recreateSwapChain env s).1.log = s.log ++ added ∧
      Action.swapChainRecreate ∈ added := by
  obtain ⟨P, m, hlog, _, hret⟩ := recreateSwapChain_shape env s
  refine ⟨P ++ FrameLoop.recreationCalls.take m, hlog, ?_⟩
  rw [hret h]
  exact List.mem_append_right _ (by decide)

theorem presentAndAdvance_returned (env : TickEnv) (s : FrameLoop)
    (h : (FrameLoop.presentAndAdvance env s).2 = .returned) :
    (FrameLoop.presentAndAdvance env s).1.currentFrame =
        (s.currentFrame + 1) % MAX_FRAMES_IN_FLIGHT ∧
      (FrameLoop.presentAndAdvance env s).1.framebufferResized = false ∧
      ((env.presentResult = VK_ERROR_OUT_OF_DATE_KHR ∨ env.presentResult = VK_SUBOPTIMAL_KHR ∨
          s.framebufferResized = true) →
        ∃ added, (FrameLoop.presentAndAdvance env s).1.log = s.log ++ added ∧
          Action.swapChainRecreate ∈ added ∧
          Action.syncObjectsRecreate env.newNumImages ∈ added) := by
  unfold FrameLoop.presentAndAdvance at h ⊢
  simp only at h ⊢
  split
  · next hcond =>
    rw [if_pos hcond] at h
    obtain ⟨_, hcur, _, _, _, _⟩ :=
      recreateSwapChain_effect env (s.logged (.queuePresent env.imageIndex))
    have hlog := recreateSwapChain_returned_log env (s.logged (.queuePresent env.imageIndex))
    have hnum : (FrameLoop.recreateSwapChain env
        (s.logged (.queuePresent env.imageIndex))).2 = .returned →
        (FrameLoop.recreateSwapChain env
          (s.logged (.queuePresent env.imageIndex))).1.numImages = env.newNumImages := by
      intro hr
      unfold FrameLoop.recreateSwapChain at hr ⊢
      cases hsz : env.sizes with
      | nil => rw [hsz] at hr; cases hr
      | cons size later =>
        rw [hsz] at hr
        simp only at hr ⊢
        by_cases hp : (FrameLoop.pollSize size later).2 = true
        · rw [if_pos hp] at hr ⊢
          cases hf : env.failingRebuild with
          | none => rfl
          | some k =>
            rw [hf] at hr
            simp only at hr ⊢
            by_cases hk : k < FrameLoop.rebuildSteps.length
            · rw [if_pos hk] at hr; cases hr
            · rw [if_neg hk]
        · rw [if_neg hp] at hr; cases hr
    split
    · next s2 heq =>
      rw [heq] at hcur hlog hnum
      refine ⟨?_, rfl, ?_⟩
      · show (s2.currentFrame + 1) % MAX_FRAMES_IN_FLIGHT = _
        rw [hcur]
        rfl
      · intro _
        obtain ⟨added, hl, hmem⟩ := hlog rfl
        have hn : s2.numImages = env.newNumImages := hnum rfl
        refine ⟨(Action.queuePresent env.imageIndex :: added) ++
          [Action.syncObjectsRecreate env.newNumImages], ?_, ?_, ?_⟩
        · show s2.log ++ [Action.syncObjectsRecreate s2.numImages] = _
          rw [hl, hn]
          simp [FrameLoop.logged]
        · exact List.mem_append_left _ (List.mem_cons_of_mem _ hmem)
        · exact List.mem_append_right _ (List.mem_singleton_self _)
    · next s2 out hne heq =>
      rw [heq] at h
      simp only at h
      exact absurd h hne
  · next hcond =>
    rw [if_neg hcond] at h
    push_neg at hcond
    have hflag : s.framebufferResized = false := by
      cases hf : s.framebufferResized with
      | false => rfl
      | true => exact absurd hf hcond.2.2
    split
    · next hne =>
      rw [if_pos hne] at h
      cases h
    · exact ⟨rfl, hflag, fun hc => by
        rcases hc with hc | hc | hc
        · exact absurd hc hcond.1
        · exact absurd hc hcond.2.1
        · exact absurd hc hcond.2.2⟩

theorem recordSubmitPresent_returned (env : TickEnv) (s : FrameLoop)
    (h : (FrameLoop.recordSubmitPresent env s).2 = .returned) :
    ∃ s4 pre, FrameLoop.recordSubmitPresent env s = FrameLoop.presentAndAdvance env s4 ∧
      s4.currentFrame = s.currentFrame ∧ s4.framebufferResized = s.framebufferResized ∧
      s4.log = s.log ++ pre := by
  unfold FrameLoop.recordSubmitPresent at h ⊢
  simp only at h ⊢
  cases hr : env.recordError with
  | some e =>
    rw [hr] at h
    cases h
  | none =>
    rw [hr] at h
    simp only at h ⊢
    split
    · next hs =>
      rw [if_pos hs] at h
      cases h
    · exact ⟨_, [Action.recordCommands env.imageIndex, Action.interfaceRecord env.imageIndex,
        Action.resetFence s.currentFrame, Action.queueSubmit s.currentFrame env.imageIndex],
        rfl, rfl, rfl, by simp [FrameLoop.logged]⟩

theorem drawFrame_returned_present (env : TickEnv) (s : FrameLoop)
    (hacq : env.acquireResult ≠ VK_ERROR_OUT_OF_DATE_KHR)
    (h : (s.drawFrame env).2 = .returned) :
    ∃ s4 pre, s.drawFrame env = FrameLoop.presentAndAdvance env s4 ∧
      s4.currentFrame = s.currentFrame ∧ s4.framebufferResized = s.framebufferResized ∧
      s4.log = s.log ++ pre := by
  unfold FrameLoop.drawFrame at h ⊢
  cases hw : s.waitForFence s.currentFrame with
  | none =>
    rw [hw] at h
    cases h
  | some s1 =>
    obtain ⟨hl1, hc1, _, _, hf1, _⟩ := waitForFence_effect s s1 s.currentFrame hw
    rw [hw] at h
    simp only [hacq, if_false] at h ⊢
    split
    · next hbad =>
      rw [if_pos hbad] at h
      cases h
    · next hgood =>
      rw [if_neg hgood] at h
      cases hwi : FrameLoop.waitForImage
          ((s1.logged (.acquireNextImage s1.currentFrame)).logged
            (.updateUBOs (s1.logged (.acquireNextImage s1.currentFrame)).currentFrame))
          env.imageIndex with
      | none =>
        rw [hwi] at h
        cases h
      | some s4 =>
        rw [hwi] at h
        simp only at h ⊢
        have h4 : s4.currentFrame = s.currentFrame ∧
            s4.framebufferResized = s.framebufferResized ∧
            ∃ pre, s4.log = s.log ++ pre := by
          unfold FrameLoop.waitForImage at hwi
          split at hwi
          · next slot _ =>
            obtain ⟨hl4, hc4, _, _, hf4, _⟩ := waitForFence_effect _ s4 slot hwi
            refine ⟨hc4.trans hc1, hf4.trans hf1, ?_⟩
            refine ⟨[Action.waitForFence s.currentFrame, Action.acquireNextImage s1.currentFrame,
              Action.updateUBOs s1.currentFrame, Action.waitForFence slot], ?_⟩
            rw [hl4]
            simp [FrameLoop.logged, hl1]
          · cases hwi
            refine ⟨hc1, hf1, ?_⟩
            refine ⟨[Action.waitForFence s.currentFrame, Action.acquireNextImage s1.currentFrame,
              Action.updateUBOs s1.currentFrame], ?_⟩
            simp [FrameLoop.logged, hl1]
        obtain ⟨s5, pre, he, hc5, hf5, hl5⟩ := recordSubmitPresent_returned env
          ({ s4 with imageInFlight :=
              s4.imageInFlight.set env.imageIndex (some s4.currentFrame) } : FrameLoop) h
        obtain ⟨pre4, hl4⟩ := h4.2.2
        refine ⟨s5, pre4 ++ pre, he, hc5.trans h4.1, hf5.trans h4.2.1, ?_⟩
        rw [hl5]
        show s4.log ++ pre = _
        rw [hl4, List.append_assoc]

/-- C22: the frame loop starts at frame slot 0; a call of `drawFrame` that gets past the
acquire (the acquire does not report out of date) and returns leaves
`currentFrame = (previous currentFrame + 1) mod MAX_FRAMES_IN_FLIGHT`, with
`MAX_FRAMES_IN_FLIGHT = 2`; and in every state reached from the start by calls of
`drawFrame`, fence signals and resize requests, `currentFrame < 2`. -/
theorem C22_frame_slot_advances_mod_two (env : TickEnv) (s : FrameLoop) (numImages : Nat)
    (events : List Event)
    (hacq : env.acquireResult ≠ VK_ERROR_OUT_OF_DATE_KHR)
    (hret : (s.drawFrame env).2 = .returned) :
    (FrameLoop.init numImages).currentFrame = 0 ∧
    (s.drawFrame env).1.currentFrame = (s.currentFrame + 1) % MAX_FRAMES_IN_FLIGHT ∧
    MAX_FRAMES_IN_FLIGHT = 2 ∧
    ((FrameLoop.init numImages).run events).currentFrame < MAX_FRAMES_IN_FLIGHT := by
  obtain ⟨s4, pre, he, hc, _, _⟩ := drawFrame_returned_present env s hacq hret
  refine ⟨rfl, ?_, rfl,
    (FrameLoop.run_inv events (FrameLoop.init numImages) (FrameLoop.init_inv numImages)).1⟩
  rw [he] at hret ⊢
  rw [(presentAndAdvance_returned env s4 hret).1, hc]

/-- C22 witness: two successful ticks from the start; the slot goes 0, 1, 0. -/
theorem C22_frame_slot_advances_mod_two_witness :
    (FrameLoop.init 3).currentFrame = 0 ∧
    (((FrameLoop.init 3).drawFrame okEnv).1.drawFrame okEnv).1.currentFrame =
      (((FrameLoop.init 3).drawFrame okEnv).1.currentFrame + 1) % MAX_FRAMES_IN_FLIGHT ∧
    MAX_FRAMES_IN_FLIGHT = 2 ∧
    ((FrameLoop.init 3).run [Event.tick okEnv, Event.tick okEnv]).currentFrame <
      MAX_FRAMES_IN_FLIGHT :=
  C22_frame_slot_advances_mod_two okEnv ((FrameLoop.init 3).drawFrame okEnv).1 3
    [Event.tick okEnv, Event.tick okEnv] (by decide) (by decide)

/-- C30: a call of `drawFrame` that returns after a stale acquire leaves the resize flag
true (`recreateSwapChain` sets it and that path has no statement clearing it); a call that
gets past the acquire and returns leaves the flag false; and such a call, when the flag
was true at its start or the present result is out of date or suboptimal, has run the
recreation (the swapchain rebuild and the rebuild of the synchronization objects are among
the calls it added). So after a stale acquire the next call that reaches present runs the
recreation again. -/
theorem C30_resize_flag_after_tick (env : TickEnv) (s : FrameLoop)
    (hret : (s.drawFrame env).2 = .returned) :
    (env.acquireResult = VK_ERROR_OUT_OF_DATE_KHR →
      (s.drawFrame env).1.framebufferResized = true) ∧
    (env.acquireResult ≠ VK_ERROR_OUT_OF_DATE_KHR →
      (s.drawFrame env).1.framebufferResized = false) ∧
    (env.acquireResult ≠ VK_ERROR_OUT_OF_DATE_KHR →
      (env.presentResult = VK_ERROR_OUT_OF_DATE_KHR ∨ env.presentResult = VK_SUBOPTIMAL_KHR ∨
        s.framebufferResized = true) →
      ∃ added, (s.drawFrame env).1.log = s.log ++ added ∧
        Action.swapChainRecreate ∈ added ∧
        Action.syncObjectsRecreate env.newNumImages ∈ added) := by
  refine ⟨?_, ?_, ?_⟩
  · intro hacq
    cases hw : s.waitForFence s.currentFrame with
    | none =>
      unfold FrameLoop.drawFrame at hret
      rw [hw] at hret
      cases hret
    | some s1 =>
      have hd : s.drawFrame env =
          FrameLoop.recreateSwapChain env (s1.logged (.acquireNextImage s1.currentFrame)) := by
        unfold FrameLoop.drawFrame
        rw [hw]
        simp only [hacq, if_true]
      rw [hd]
      exact (recreateSwapChain_effect env _).2.2.2.2.1
  · intro hacq
    obtain ⟨s4, pre, he, _, _, _⟩ := drawFrame_returned_present env s hacq hret
    rw [he] at hret ⊢
    exact (presentAndAdvance_returned env s4 hret).2.1
  · intro hacq hcond
    obtain ⟨s4, pre, he, _, hf, hl⟩ := drawFrame_returned_present env s hacq hret
    rw [he] at hret ⊢
    have hcond4 : env.presentResult = VK_ERROR_OUT_OF_DATE_KHR ∨
        env.presentResult = VK_SUBOPTIMAL_KHR ∨ s4.framebufferResized = true := by
      rw [hf]
      exact hcond
    obtain ⟨added, hlog, h1, h2⟩ := (presentAndAdvance_returned env s4 hret).2.2 hcond4
    refine ⟨pre ++ added, ?_, List.mem_append_right _ h1, List.mem_append_right _ h2⟩
    rw [hlog, hl, List.append_assoc]

/-- C30 witness: a tick with a stale acquire leaves the flag true; the tick after it, with
every call succeeding, runs the recreation and leaves the flag false. -/
theorem C30_resize_flag_after_tick_witness :
    ((FrameLoop.init 3).drawFrame staleEnv).1.framebufferResized = true ∧
    (((FrameLoop.init 3).drawFrame staleEnv).1.drawFrame okEnv).1.framebufferResized = false ∧
    (∃ added, (((FrameLoop.init 3).drawFrame staleEnv).1.drawFrame okEnv).1.log =
        ((FrameLoop.init 3).drawFrame staleEnv).1.log ++ added ∧
      Action.swapChainRecreate ∈ added ∧
      Action.syncObjectsRecreate okEnv.newNumImages ∈ added) :=
  ⟨(C30_resize_flag_after_tick staleEnv (FrameLoop.init 3) (by decide)).1 rfl,
    (C30_resize_flag_after_tick okEnv ((FrameLoop.init 3).drawFrame staleEnv).1
      (by decide)).2.1 (by decide),
    (C30_resize_flag_after_tick okEnv ((FrameLoop.init 3).drawFrame staleEnv).1
      (by decide)).2.2 (by decide) (Or.inr (Or.inr (by decide)))⟩


/-! ## The sphere mesh -/

theorem u32_of_lt (n : Nat) (h : n < 2 ^ 32) : u32 n = n := Nat.mod_eq_of_lt h

theorem cellIndices_length (stackCount i k1 k2 : Nat) :
    (geometry.cellIndices stackCount i k1 k2).length =
      (if i ≠ 0 then 3 else 0) + (if i ≠ u32 (stackCount + (2 ^ 32 - 1)) then 3 else 0) := by
  unfold geometry.cellIndices
  split <;> split <;> rfl

theorem rowIndices_length (stackCount i : Nat) : ∀ (n k1 k2 : Nat),
    (geometry.rowIndices stackCount i n k1 k2).length =
      n * ((if i ≠ 0 then 3 else 0) + (if i ≠ u32 (stackCount + (2 ^ 32 - 1)) then 3 else 0)) := by
  intro n
  induction n with
  | zero => intro k1 k2; simp [geometry.rowIndices]
  | succ n ih =>
    intro k1 k2
    rw [geometry.rowIndices, List.length_append, cellIndices_length, ih, Nat.succ_mul]
    omega

theorem rowIndices_lt (stackCount i N : Nat) (hN : N ≤ 2 ^ 32) : ∀ (n k1 k2 : Nat),
    k1 ≤ k2 → k2 + n < N → ∀ x ∈ geometry.rowIndices stackCount i n k1 k2, x < N := by
  intro n
  induction n with
  | zero => intro k1 k2 _ _ x hx; simp [geometry.rowIndices] at hx
  | succ n ih =>
    intro k1 k2 h12 hB x hx
    have e1 : u32 (k1 + 1) = k1 + 1 := u32_of_lt _ (by omega)
    have e2 : u32 (k2 + 1) = k2 + 1 := u32_of_lt _ (by omega)
    rw [geometry.rowIndices, List.mem_append] at hx
    rcases hx with hx | hx
    · unfold geometry.cellIndices at hx
      rw [e1, e2, List.mem_append] at hx
      rcases hx with hx | hx
      · split at hx
        · simp only [List.mem_cons, List.mem_singleton, List.not_mem_nil, or_false] at hx
          rcases hx with rfl | rfl | rfl <;> omega
        · cases hx
      · split at hx
        · simp only [List.mem_cons, List.mem_singleton, List.not_mem_nil, or_false] at hx
          rcases hx with rfl | rfl | rfl <;> omega
        · cases hx
    · rw [e1, e2] at hx
      exact ih (k1 + 1) (k2 + 1) (by omega) (by omega) x hx

theorem grid_length (js : List Nat) : ∀ (is : List Nat),
    (is.flatMap (fun i => js.map (fun j => ({ stack := i, sector := j } : geometry.Vertex)))).length =
      is.length * js.length := by
  intro is
  induction is with
  | nil => simp
  | cons i rest ih =>
    rw [List.flatMap_cons, List.length_append, ih, List.length_map, List.length_cons,
      Nat.succ_mul]
    omega

theorem rows_length (sectors : Nat) (g : Nat → List Nat) (c : Nat → Nat)
    (hg : ∀ i, (g i).length = sectors * c i) : ∀ n,
    ((List.range n).flatMap g).length = sectors * ((List.range n).map c).sum := by
  intro n
  induction n with
  | zero => simp
  | succ n ih =>
    rw [List.range_succ, List.flatMap_append, List.length_append, ih, List.map_append,
      List.sum_append, Nat.mul_add, List.flatMap_singleton, hg]
    simp

theorem cell_sum (m : Nat) : ∀ n,
    ((List.range n).map
        (fun i => (if i ≠ 0 then 3 else 0) + (if i ≠ m then 3 else 0))).sum =
      3 * (n - 1) + (if m < n then 3 * (n - 1) else 3 * n) := by
  intro n
  induction n with
  | zero => simp
  | succ n ih =>
    rw [List.range_succ, List.map_append, List.sum_append, ih]
    simp only [List.map_cons, List.map_nil, List.sum_cons, List.sum_nil]
    split_ifs <;> omega

theorem createSphere_eq (vertices : List geometry.Vertex) (indices : List Nat)
    (sectors stackCount : Nat) (hs : sectors < 2 ^ 32 - 1) (ht : stackCount < 2 ^ 32 - 1) :
    geometry.createSphere vertices indices sectors stackCount =
      some ((List.range (stackCount + 1)).flatMap (fun i => (List.range (sectors + 1)).map
          (fun j => ({ stack := i, sector := j } : geometry.Vertex))),
        (List.range stackCount).flatMap (fun i =>
          geometry.rowIndices stackCount i sectors (u32 (i * (sectors + 1)))
            (u32 (u32 (i * (sectors + 1)) + sectors + 1)))) := by
  have h1 : geometry.countedThrough stackCount = some (List.range (stackCount + 1)) := by
    unfold geometry.countedThrough
    rw [if_neg (by omega)]
  have h2 : geometry.countedThrough sectors = some (List.range (sectors + 1)) := by
    unfold geometry.countedThrough
    rw [if_neg (by omega)]
  simp [geometry.createSphere, h1, h2, vectorClear]

theorem sphere_vertex_count (sectors stackCount : Nat) :
    ((List.range (stackCount + 1)).flatMap (fun i => (List.range (sectors + 1)).map
        (fun j => ({ stack := i, sector := j } : geometry.Vertex)))).length =
      (stackCount + 1) * (sectors + 1) := by
  rw [grid_length, List.length_range, List.length_range]

theorem sphere_index_count (sectors stackCount : Nat) (ht : stackCount < 2 ^ 32) :
    ((List.range stackCount).flatMap (fun i =>
        geometry.rowIndices stackCount i sectors (u32 (i * (sectors + 1)))
          (u32 (u32 (i * (sectors + 1)) + sectors + 1)))).length =
      6 * sectors * (stackCount - 1) := by
  rw [rows_length sectors _
    (fun i => (if i ≠ 0 then 3 else 0) + (if i ≠ u32 (stackCount + (2 ^ 32 - 1)) then 3 else 0))
    (fun i => rowIndices_length stackCount i sectors _ _), cell_sum]
  cases stackCount with
  | zero => simp
  | succ n =>
    have hu : u32 (n + 1 + (2 ^ 32 - 1)) = n := by
      unfold u32
      omega
    rw [hu, if_pos (Nat.lt_succ_self n)]
    simp only [Nat.add_sub_cancel]
    rw [show 3 * n + 3 * n = 6 * n by omega, Nat.mul_assoc, Nat.mul_left_comm]

theorem sphere_indices_lt (sectors stackCount : Nat) (h : (stackCount + 1) * (sectors + 1) < 2 ^ 32) :
    ∀ x ∈ (List.range stackCount).flatMap (fun i =>
        geometry.rowIndices stackCount i sectors (u32 (i * (sectors + 1)))
          (u32 (u32 (i * (sectors + 1)) + sectors + 1))),
      x < (stackCount + 1) * (sectors + 1) := by
  intro x hx
  rw [List.mem_flatMap] at hx
  obtain ⟨i, hi, hx⟩ := hx
  have hi1 : i < stackCount := List.mem_range.1 hi
  have hmul : (i + 1) * (sectors + 1) ≤ stackCount * (sectors + 1) :=
    Nat.mul_le_mul_right _ hi1
  have hexp : (stackCount + 1) * (sectors + 1) = stackCount * (sectors + 1) + (sectors + 1) :=
    Nat.succ_mul _ _
  have hexp2 : (i + 1) * (sectors + 1) = i * (sectors + 1) + (sectors + 1) :=
    Nat.succ_mul _ _
  have e1 : u32 (i * (sectors + 1)) = i * (sectors + 1) := u32_of_lt _ (by omega)
  have e2 : u32 (i * (sectors + 1) + sectors + 1) = i * (sectors + 1) + sectors + 1 :=
    u32_of_lt _ (by omega)
  rw [e1, e2] at hx
  exact rowIndices_lt stackCount i _ (Nat.le_of_lt h) sectors _ _ (by omega) (by omega) x hx

theorem prod_bound (sectors stackCount : Nat) (h : (stackCount + 1) * (sectors + 1) < 2 ^ 32) :
    sectors < 2 ^ 32 - 1 ∧ stackCount < 2 ^ 32 - 1 := by
  have h1 : stackCount + 1 ≤ (stackCount + 1) * (sectors + 1) :=
    Nat.le_mul_of_pos_right _ (Nat.succ_pos _)
  have h2 : sectors + 1 ≤ (stackCount + 1) * (sectors + 1) :=
    Nat.le_mul_of_pos_left _ (Nat.succ_pos _)
  omega

/-- C27: for all sector and stack counts with `(stacks + 1) * (sectors + 1) < 2^32`,
`geometry::createSphere` returns, every index it has put in the index vector is strictly
less than the number of vertices it has put in the vertex vector, and the number of
indices is a multiple of 3. -/
theorem C27_sphere_indices_below_vertex_count (vertices : List geometry.Vertex)
    (indices : List Nat) (sectors stackCount : Nat)
    (h : (stackCount + 1) * (sectors + 1) < 2 ^ 32) :
    ∃ vs is, geometry.createSphere vertices indices sectors stackCount = some (vs, is) ∧
      (∀ x ∈ is, x < vs.length) ∧ 3 ∣ is.length := by
  obtain ⟨hs, ht⟩ := prod_bound sectors stackCount h
  refine ⟨_, _, createSphere_eq vertices indices sectors stackCount hs ht, ?_, ?_⟩
  · rw [sphere_vertex_count]
    exact sphere_indices_lt sectors stackCount h
  · rw [sphere_index_count sectors stackCount (by omega)]
    exact ⟨2 * sectors * (stackCount - 1), by
      rw [← Nat.mul_assoc, ← Nat.mul_assoc]⟩

/-- C27 witness: the sphere of the application, 32 sectors and 16 stacks. -/
theorem C27_sphere_indices_below_vertex_count_witness :
    ∃ vs is, geometry.createSphere [] [] 32 16 = some (vs, is) ∧
      (∀ x ∈ is, x < vs.length) ∧ 3 ∣ is.length :=
  C27_sphere_indices_below_vertex_count [] [] 32 16 (by decide)

theorem buildScene_some (a : Assets) (scene : List RenderObject)
    (h : buildScene a [] = some scene) :
    ∃ sphere red blue, a.m_models.at? "sphere" = some sphere ∧
      a.m_materials.at? "red_sphere" = some red ∧
      a.m_materials.at? "blue_sphere" = some blue ∧
      scene = [{ model := some sphere, material := red, transform := glm.translate 0 0 0 },
               { model := some sphere, material := blue, transform := glm.translate 2 0 0 }] := by
  unfold buildScene at h
  cases hs : a.m_models.at? "sphere" with
  | none => simp [hs] at h
  | some sphere =>
    cases hr : a.m_materials.at? "red_sphere" with
    | none => simp [hs, hr] at h
    | some red =>
      cases hb : a.m_materials.at? "blue_sphere" with
      | none => simp [hs, hr, hb] at h
      | some blue =>
        refine ⟨sphere, red, blue, rfl, rfl, rfl, ?_⟩
        simp [hs, hr, hb] at h
        exact h.symm

theorem getD_append_length (st : VectorStore) (x : List RenderObject) :
    (st ++ [x]).getD st.length [] = x := by
  induction st with
  | nil => rfl
  | cons a rest ih => simp

theorem set_append_length (st : VectorStore) (x y : List RenderObject) :
    (st ++ [x]).set st.length y = st ++ [y] := by
  induction st with
  | nil => rfl
  | cons a rest ih => simp [ih]

theorem recordCommandsOn_store (gp : GraphicsPipeline)
    (sort : List RenderObject → List RenderObject) (st : VectorStore) (app cam i : Nat)
    (beginOk endOk : Bool) :
    (recordCommandsOn gp sort st app cam i beginOk endOk).2 = st ∧
    (recordCommandsOn gp sort st app cam i beginOk endOk).1 =
      recordCommandsFrom gp cam i beginOk endOk (sort (st.getD app [])) := by
  unfold recordCommandsOn
  cases beginOk with
  | false => exact ⟨rfl, rfl⟩
  | true =>
    simp only [if_true, VectorStore.declareAuto, VectorStore.sortAt, VectorStore.endScope,
      getD_append_length, set_append_length, List.dropLast_concat, recordCommandsFrom]
    exact ⟨trivial, trivial⟩

theorem sceneFrame_pair (gp : GraphicsPipeline) (sort : List RenderObject → List RenderObject)
    (cam : Nat) (sphere : Model) (red blue : Material) (t0 t1 : Mat4) (frame : Nat × Nat) :
    sceneFrame gp sort cam
        [{ model := some sphere, material := red, transform := t0 },
         { model := some sphere, material := blue, transform := t1 }] frame =
      some [{ model := some sphere, material := red, transform := glm.rotate frame.1 },
            { model := some sphere, material := blue, transform := glm.translate 2 0 0 }] := by
  have hu : updateUBOs frame.1
      [{ model := some sphere, material := red, transform := t0 },
       { model := some sphere, material := blue, transform := t1 }] =
      some [{ model := some sphere, material := red, transform := glm.rotate frame.1 },
            { model := some sphere, material := blue, transform := glm.translate 2 0 0 }] := rfl
  unfold sceneFrame
  rw [hu]
  show some (((recordCommandsOn gp sort _ 0 cam frame.2 true true).2).getD 0 []) = _
  rw [(recordCommandsOn_store gp sort _ 0 cam frame.2 true true).1]
  rfl

theorem sceneFrames_pair (gp : GraphicsPipeline) (sort : List RenderObject → List RenderObject)
    (cam : Nat) (sphere : Model) (red blue : Material) :
    ∀ (frames : List (Nat × Nat)) (t0 t1 : Mat4),
    ∃ u0 u1, sceneFrames gp sort cam
        [{ model := some sphere, material := red, transform := t0 },
         { model := some sphere, material := blue, transform := t1 }] frames =
      some [{ model := some sphere, material := red, transform := u0 },
            { model := some sphere, material := blue, transform := u1 }] := by
  intro frames
  induction frames with
  | nil => intro t0 t1; exact ⟨t0, t1, rfl⟩
  | cons f rest ih =>
    intro t0 t1
    obtain ⟨u0, u1, h⟩ := ih (glm.rotate f.1) (glm.translate 2 0 0)
    refine ⟨u0, u1, ?_⟩
    rw [sceneFrames, sceneFrame_pair]
    exact h

/-- C29: `recordCommands` declares a local vector copied from the list of the
application, and `std::sort` rearranges that local: whatever rearrangement the sort makes,
the store after the call is the store before it, so the list of the application has the
same length, order and elements, while the recording is made from the sorted copy. So when
`buildScene` has filled the empty list, over any sequence of frames, each an `updateUBOs`
followed by a `recordCommands`, both writes of `updateUBOs` are in bounds and the list keeps
two elements, element 0 with the model and material of the red sphere and element 1 with
those of the blue sphere. -/
theorem C29_recording_keeps_scene_list (gp : GraphicsPipeline) (a : Assets)
    (sort : List RenderObject → List RenderObject)
    (scene : List RenderObject) (cam : Nat) (frames : List (Nat × Nat))
    (hb : buildScene a [] = some scene) :
    (∀ st app i beginOk endOk,
      (recordCommandsOn gp sort st app cam i beginOk endOk).2 = st ∧
      (recordCommandsOn gp sort st app cam i beginOk endOk).1 =
        recordCommandsFrom gp cam i beginOk endOk (sort (st.getD app []))) ∧
    ∃ sphere red blue, a.m_models.at? "sphere" = some sphere ∧
      a.m_materials.at? "red_sphere" = some red ∧
      a.m_materials.at? "blue_sphere" = some blue ∧
      scene.map (fun o => (o.model, o.material)) = [(some sphere, red), (some sphere, blue)] ∧
      ∃ final, sceneFrames gp sort cam scene frames = some final ∧
        final.length = 2 ∧
        final.map (fun o => (o.model, o.material)) =
          [(some sphere, red), (some sphere, blue)] ∧
        ∃ later, updateUBOs 0 final = some later := by
  refine ⟨fun st app i beginOk endOk => recordCommandsOn_store gp sort st app cam i beginOk endOk,
    ?_⟩
  obtain ⟨sphere, red, blue, hs, hr, hbl, rfl⟩ := buildScene_some a scene hb
  obtain ⟨u0, u1, hf⟩ := sceneFrames_pair gp sort cam sphere red blue frames
    (glm.translate 0 0 0) (glm.translate 2 0 0)
  exact ⟨sphere, red, blue, hs, hr, hbl, rfl, _, hf, rfl, rfl, _, rfl⟩

/-- C29 witness: with the blue material stored below the red one, sorting the list of the
application itself would put the blue sphere first; `recordCommands` sorts its copy, draws
the blue sphere first, and leaves the store as it was, and after two frames the list of the
application still starts with the red sphere. -/
theorem C29_recording_keeps_scene_list_witness :
    (VectorStore.sortAt stdSort
        [[{ model := some sphereModel, material := { redMaterial with addrOfName := 8192 },
            transform := glm.translate 0 0 0 },
          { model := some sphereModel, material := { blueMaterial with addrOfName := 4096 },
            transform := glm.translate 2 0 0 }]] 0).map
      (List.map (fun o => o.material.m_materialDescriptorSet)) = [[32, 31]] ∧
    (recordCommandsOn exampleRegistry stdSort
        [[{ model := some sphereModel, material := { redMaterial with addrOfName := 8192 },
            transform := glm.translate 0 0 0 },
          { model := some sphereModel, material := { blueMaterial with addrOfName := 4096 },
            transform := glm.translate 2 0 0 }]] 0 41 0 true true).2 =
      [[{ model := some sphereModel, material := { redMaterial with addrOfName := 8192 },
          transform := glm.translate 0 0 0 },
        { model := some sphereModel, material := { blueMaterial with addrOfName := 4096 },
          transform := glm.translate 2 0 0 }]] ∧
    (∃ sphere red blue final, blueFirstAssets.m_models.at? "sphere" = some sphere ∧
      blueFirstAssets.m_materials.at? "red_sphere" = some red ∧
      blueFirstAssets.m_materials.at? "blue_sphere" = some blue ∧
      sceneFrames exampleRegistry stdSort 41
        [{ model := some sphereModel, material := { redMaterial with addrOfName := 8192 },
           transform := glm.translate 0 0 0 },
         { model := some sphereModel, material := { blueMaterial with addrOfName := 4096 },
           transform := glm.translate 2 0 0 }] [(0, 0), (1, 1)] = some final ∧
      final.length = 2 ∧
      final.map (fun o => (o.model, o.material)) = [(some sphere, red), (some sphere, blue)]) :=
  ⟨by decide,
    ((C29_recording_keeps_scene_list exampleRegistry blueFirstAssets stdSort
      [{ model := some sphereModel, material := { redMaterial with addrOfName := 8192 },
         transform := glm.translate 0 0 0 },
       { model := some sphereModel, material := { blueMaterial with addrOfName := 4096 },
         transform := glm.translate 2 0 0 }] 41 [(0, 0), (1, 1)] rfl).1 _ 0 0 true true).1,
    (C29_recording_keeps_scene_list exampleRegistry blueFirstAssets stdSort
      [{ model := some sphereModel, material := { redMaterial with addrOfName := 8192 },
         transform := glm.translate 0 0 0 },
       { model := some sphereModel, material := { blueMaterial with addrOfName := 4096 },
         transform := glm.translate 2 0 0 }] 41 [(0, 0), (1, 1)] rfl).2.elim
      (fun sphere h => h.elim (fun red h => h.elim (fun blue h =>
        h.2.2.2.2.elim (fun final hf =>
          ⟨sphere, red, blue, final, h.1, h.2.1, h.2.2.1, hf.1, hf.2.1, hf.2.2.1⟩))))⟩

end vks
